import Mathlib

/-! Barbershop booking backend: slot generation and reservation invariants.

A shallow embedding of `src/utils/timeSlots.js`, of the demo-mode handlers of
`src/routes/reservations.js` / `src/routes/barbers.js`, and of their database-mode
schedule queries and reservation creation.

Conventions of the embedding.

* A JavaScript string is a Lean `String`. The comparison `<` of two strings is
  `stringLt` on their characters; the strings handled by the program are ASCII, on
  which the order by UTF-16 code unit (JavaScript) and by code point agree.
* A JavaScript number that the program computes from a time string is an
  `Option Nat`: `none` stands for `NaN`.
* `haircutDuration` is a non-negative integer. The `for` loop of the generators is
  run with fuel; `none` as the result of a generator stands for a call that does not
  return (a loop that never ends, with a zero `haircutDuration`).
* The ambient clock (`new Date()`, `Date.now()`) is an explicit `Clock` argument;
  `clockAt` gives its readings at an instant in a zone at a fixed offset from UTC.
* In database mode a handler is a task resumed once per awaited query, and the
  tables are lists of rows; a query compares the stored strings.
-/

namespace CdBackend

/-! ## Strings and numbers of the JavaScript runtime -/

/-- The decimal digits `0`..`9`, as the pattern class `[0-9]` (also `\d`). -/
def isDigit (c : Char) : Bool := decide ('0' ≤ c) && decide (c ≤ '9')

/-- Value of a decimal digit character. -/
def digitValue (c : Char) : Nat := c.toNat - '0'.toNat

/-- The function `Number(s)` on the strings the program applies it to: the empty string is `0`, a
string of decimal digits is its decimal value (exact, as for the values below 2^53 the
program meets), and any other string is read as `NaN` (`none`). Signs, fractions, exponents, radix prefixes and surrounding white space,
which `Number` also reads, are outside the embedding and fall under `none`. -/
def jsNumber (s : List Char) : Option Nat :=
  if s.all isDigit then some (s.foldl (fun acc c => 10 * acc + digitValue c) 0) else none

/-- The call `s.split(':')` on the characters of `s`: the pieces between colons; never empty. -/
def splitColon : List Char → List (List Char)
  | [] => [[]]
  | c :: cs =>
    if c = ':' then [] :: splitColon cs
    else
      match splitColon cs with
      | [] => [[c]]
      | p :: ps => (c :: p) :: ps

/-- The comparison `a < b` of two strings, on their characters: lexicographic order,
a proper prefix coming first. -/
def stringLt : List Char → List Char → Bool
  | _, [] => false
  | [], _ :: _ => true
  | a :: as, b :: bs => if a < b then true else if b < a then false else stringLt as bs

/-- The call `s.padStart(2, '0')` on the characters of `s`. -/
def padStart2 (s : List Char) : List Char :=
  List.replicate (2 - s.length) '0' ++ s

/-- The call `n.toString()` for a non-negative integer, as characters. -/
def natToString (n : Nat) : List Char := Nat.toDigits 10 n

/-- Rendering of a parsed number in a template literal: `NaN` or the decimal digits. -/
def numToString : Option Nat → List Char
  | none => ['N', 'a', 'N']
  | some n => natToString n

/-! ## Time arithmetic (`src/utils/timeSlots.js`) -/

/-- The two numbers `const [hours, minutes] = time.split(':').map(Number)`; a missing
second piece is `undefined`, which arithmetic reads as `NaN`. -/
def splitHoursMinutes (time : String) : Option Nat × Option Nat :=
  match splitColon time.data with
  | h :: m :: _ => (jsNumber h, jsNumber m)
  | [h] => (jsNumber h, none)
  | [] => (none, none)

/-- The function `timeToMinutes(time)`: `hours * 60 + minutes`, `NaN` when either part is. -/
def timeToMinutes (time : String) : Option Nat :=
  match splitHoursMinutes time with
  | (some hours, some minutes) => some (hours * 60 + minutes)
  | _ => none

/-- The function `minutesToTime(minutes)`: floor of `minutes / 60` and `minutes % 60`, each padded to
two characters. -/
def minutesToTime (minutes : Nat) : String :=
  let hours := minutes / 60
  let mins := minutes % 60
  ⟨padStart2 (natToString hours) ++ ':' :: padStart2 (natToString mins)⟩

/-- The template `${displayHours}:${minutes.toString().padStart(2, '0')} ${period}` of
`formatTimeForDisplay`, from the two parsed numbers. Comparisons with `NaN` are false,
so a `NaN` hour gives period `AM` and display hour `NaN`. -/
def displayTime (hours minutes : Option Nat) : String :=
  let period : List Char :=
    match hours with
    | some h => if h ≥ 12 then ['P', 'M'] else ['A', 'M']
    | none => ['A', 'M']
  let displayHours : Option Nat :=
    match hours with
    | some h => if h = 0 then some 12 else if h > 12 then some (h - 12) else some h
    | none => none
  ⟨numToString displayHours ++ ':' :: padStart2 (numToString minutes) ++ ' ' :: period⟩

/-- The function `formatTimeForDisplay(time)`. On a string without a colon `minutes` is
`undefined` and `minutes.toString()` throws: `none`. -/
def formatTimeForDisplay (time : String) : Option String :=
  match splitColon time.data with
  | h :: m :: _ => some (displayTime (jsNumber h) (jsNumber m))
  | _ => none

/-! ## Records -/

/-- A reservation record of the demo store (`demoReservations`). -/
structure Reservation where
  id : String
  clientId : String
  barberId : String
  date : String
  time : String
  deriving DecidableEq, Repr

/-- A per-slot blackout record (`demoUnavailableSlots`). -/
structure UnavailableSlot where
  id : String
  barberId : String
  date : String
  time : String
  isUnavailable : Bool
  deriving DecidableEq, Repr

/-- An element of the result of `generateTimeSlots`: `{ time, reserved, formatted }`. -/
structure TimeSlot where
  time : String
  reserved : Bool
  formatted : String
  deriving DecidableEq, Repr

/-- An element of the result of `generateAllTimeSlots`:
`{ time, reserved, unavailable, formatted }`. -/
structure StatusSlot where
  time : String
  reserved : Bool
  unavailable : Bool
  formatted : String
  deriving DecidableEq, Repr

/-! ## Slot generator (`src/utils/timeSlots.js`) -/

/-- The test `existingReservations.some(reservation => reservation.time === timeString)`. -/
def isReservedAt (existingReservations : List Reservation) (timeString : String) : Bool :=
  existingReservations.any (fun reservation => reservation.time == timeString)

/-- The test `unavailableSlots.some(slot => slot.time === timeString && slot.isUnavailable)`. -/
def isUnavailableAt (unavailableSlots : List UnavailableSlot) (timeString : String) : Bool :=
  unavailableSlots.any (fun slot => slot.time == timeString && slot.isUnavailable)

/-- The loop of `generateTimeSlots`, from loop variable `time`, with `fuel` iterations
allowed: `for (time; time < closeMinutes; time += haircutDuration)`. The result is
`none` when the fuel runs out or `formatTimeForDisplay` throws. -/
def generateTimeSlotsLoop (closeMinutes haircutDuration : Nat)
    (existingReservations : List Reservation) (unavailableSlots : List UnavailableSlot) :
    Nat → Nat → Option (List TimeSlot)
  | fuel, time =>
    if time < closeMinutes then
      match fuel with
      | 0 => none
      | fuel + 1 =>
        let timeString := minutesToTime time
        let isReserved := isReservedAt existingReservations timeString
        let isUnavailable := isUnavailableAt unavailableSlots timeString
        if !isReserved && !isUnavailable then
          match formatTimeForDisplay timeString with
          | none => none
          | some formatted =>
            match generateTimeSlotsLoop closeMinutes haircutDuration existingReservations
                unavailableSlots fuel (time + haircutDuration) with
            | none => none
            | some rest =>
              some ({ time := timeString, reserved := false, formatted := formatted } :: rest)
        else
          generateTimeSlotsLoop closeMinutes haircutDuration existingReservations
            unavailableSlots fuel (time + haircutDuration)
    else some []

/-- The loop of `generateAllTimeSlots`, with fuel. -/
def generateAllTimeSlotsLoop (closeMinutes haircutDuration : Nat)
    (existingReservations : List Reservation) (unavailableSlots : List UnavailableSlot) :
    Nat → Nat → Option (List StatusSlot)
  | fuel, time =>
    if time < closeMinutes then
      match fuel with
      | 0 => none
      | fuel + 1 =>
        let timeString := minutesToTime time
        let isReserved := isReservedAt existingReservations timeString
        let isUnavailable := isUnavailableAt unavailableSlots timeString
        match formatTimeForDisplay timeString with
        | none => none
        | some formatted =>
          match generateAllTimeSlotsLoop closeMinutes haircutDuration existingReservations
              unavailableSlots fuel (time + haircutDuration) with
          | none => none
          | some rest =>
            some ({ time := timeString, reserved := isReserved,
                    unavailable := isUnavailable, formatted := formatted } :: rest)
    else some []

/-- The function `generateTimeSlots(openTime, closeTime, haircutDuration, existingReservations,
unavailableSlots)`: the bookable-only mode. With a `NaN` bound the loop condition is
false at once and the result is empty. The fuel `closeMinutes - openMinutes` is enough
for every positive `haircutDuration`; `none` is the call that does not return. -/
def generateTimeSlots (openTime closeTime : String) (haircutDuration : Nat)
    (existingReservations : List Reservation) (unavailableSlots : List UnavailableSlot) :
    Option (List TimeSlot) :=
  match timeToMinutes openTime, timeToMinutes closeTime with
  | some openMinutes, some closeMinutes =>
    generateTimeSlotsLoop closeMinutes haircutDuration existingReservations unavailableSlots
      (closeMinutes - openMinutes) openMinutes
  | _, _ => some []

/-- The function `generateAllTimeSlots(openTime, closeTime, haircutDuration, existingReservations,
unavailableSlots)`: the full-status mode. -/
def generateAllTimeSlots (openTime closeTime : String) (haircutDuration : Nat)
    (existingReservations : List Reservation) (unavailableSlots : List UnavailableSlot) :
    Option (List StatusSlot) :=
  match timeToMinutes openTime, timeToMinutes closeTime with
  | some openMinutes, some closeMinutes =>
    generateAllTimeSlotsLoop closeMinutes haircutDuration existingReservations
      unavailableSlots (closeMinutes - openMinutes) openMinutes
  | _, _ => some []

/-! ## Request validation patterns (`src/routes/reservations.js`) -/

/-- The pattern class `[0-5]`. -/
def isDigit05 (c : Char) : Bool := decide ('0' ≤ c) && decide (c ≤ '5')

/-- The time pattern `/^([01]?[0-9]|2[0-3]):[0-5][0-9]$/` of `createReservationSchema`. -/
def matchesTimePattern (time : String) : Bool :=
  match time.data with
  | [h, c, m1, m2] => isDigit h && c == ':' && isDigit05 m1 && isDigit m2
  | [h1, h2, c, m1, m2] =>
    (((h1 == '0' || h1 == '1') && isDigit h2)
        || (h1 == '2' && decide ('0' ≤ h2) && decide (h2 ≤ '3')))
      && c == ':' && isDigit05 m1 && isDigit m2
  | _ => false

/-- The date pattern `/^\d{4}-\d{2}-\d{2}$/` of `createReservationSchema`. -/
def matchesDatePattern (date : String) : Bool :=
  match date.data with
  | [y1, y2, y3, y4, s1, m1, m2, s2, d1, d2] =>
    isDigit y1 && isDigit y2 && isDigit y3 && isDigit y4 && s1 == '-'
      && isDigit m1 && isDigit m2 && s2 == '-' && isDigit d1 && isDigit d2
  | _ => false

/-- A zero-padded `HH:MM` time of day: two digits `00`..`23`, a colon, two digits
`00`..`59`. -/
def isPaddedTime (time : String) : Bool :=
  match time.data with
  | [h1, h2, c, m1, m2] =>
    (((h1 == '0' || h1 == '1') && isDigit h2)
        || (h1 == '2' && decide ('0' ≤ h2) && decide (h2 ≤ '3')))
      && c == ':' && isDigit05 m1 && isDigit m2
  | _ => false

/-! ## The clock and the date predicates (`src/utils/timeSlots.js`) -/

/-- What one request reads from the ambient clock. -/
structure Clock where
  /-- The value `Date.now()`, in milliseconds since the epoch -/
  now : Nat
  /-- The time value of `today` after `today.setHours(0, 0, 0, 0)`: local midnight -/
  todayMidnight : Int
  /-- The value `new Date().toISOString().split('T')[0]`: the current UTC calendar date -/
  isoDate : String
  /-- The value `now.getHours()`, local -/
  hours : Nat
  /-- The value `now.getMinutes()`, local -/
  minutes : Nat
  deriving DecidableEq, Repr

/-- The function `DayFromYear(y)` of ECMAScript: the day number of 1 January of year `y`. -/
def dayFromYear (y : Int) : Int :=
  365 * (y - 1970) + (y - 1969) / 4 - (y - 1901) / 100 + (y - 1601) / 400

/-- Leap years of the proleptic Gregorian calendar. -/
def isLeapYear (y : Nat) : Bool := (y % 4 == 0 && y % 100 != 0) || y % 400 == 0

/-- Days of the year before the first of month `m` (1-based). -/
def daysBeforeMonth (y m : Nat) : Nat :=
  ([0, 31, 59, 90, 120, 151, 181, 212, 243, 273, 304, 334].getD (m - 1) 0)
    + (if isLeapYear y && decide (2 < m) then 1 else 0)

/-- The time value of `new Date(date)` for a date-only string `YYYY-MM-DD`: midnight UTC
of that calendar date, in milliseconds since the epoch. As in Node (V8) a month outside
`01`..`12` or a day outside `01`..`31` gives an invalid date (`none`), and a day past the
end of its month runs on into the next month. Strings of any other form are outside the
embedding and fall under `none`. -/
def dateParse (date : String) : Option Int :=
  if matchesDatePattern date then
    match date.data with
    | [y1, y2, y3, y4, _, m1, m2, _, d1, d2] =>
      let y := 1000 * digitValue y1 + 100 * digitValue y2 + 10 * digitValue y3 + digitValue y4
      let m := 10 * digitValue m1 + digitValue m2
      let d := 10 * digitValue d1 + digitValue d2
      if 1 ≤ m ∧ m ≤ 12 ∧ 1 ≤ d ∧ d ≤ 31 then
        some ((dayFromYear y + daysBeforeMonth y m + (d - 1 : Nat)) * 86400000)
      else none
    | _ => none
  else none

/-- The function `isDateInPast(date)`: `new Date(date) < today`, false for an invalid date. -/
def isDateInPast (clock : Clock) (date : String) : Bool :=
  match dateParse date with
  | some checkDate => decide (checkDate < clock.todayMidnight)
  | none => false

/-- The function `isTimeInPast(time)`: string comparison of `time` with the padded current time. -/
def isTimeInPast (clock : Clock) (time : String) : Bool :=
  let currentTime : String :=
    ⟨padStart2 (natToString clock.hours) ++ ':' :: padStart2 (natToString clock.minutes)⟩
  stringLt time.data currentTime.data

/-! ## Reservation handlers, demo mode (`src/routes/reservations.js`) -/

/-- A barber record as the reservation routes read it. -/
structure Barber where
  id : String
  userId : String
  fullName : String
  phone : String
  manualLocation : String
  openTime : String
  closeTime : String
  haircutDuration : Nat
  deriving DecidableEq, Repr

/-- The constant `demoBarbers` of `src/routes/reservations.js`. -/
def demoBarbers : List Barber :=
  [{ id := "barber-1", userId := "user-1", fullName := "John Smith", phone := "555-0101",
     manualLocation := "Downtown Barbershop", openTime := "09:00", closeTime := "18:00",
     haircutDuration := 30 }]

/-- The initial value of `demoReservations` in `src/routes/barbers.js`. -/
def demoReservations : List Reservation :=
  [{ id := "res-1", barberId := "barber-1", clientId := "user-1752373590610",
     date := "2024-01-15", time := "10:00" },
   { id := "res-2", barberId := "barber-1", clientId := "user-1752373590610",
     date := "2025-07-20", time := "14:00" }]

/-- The body of a booking request, with its three string fields. -/
structure CreateBody where
  barberId : String
  date : String
  time : String
  deriving DecidableEq, Repr

/-- What a handler sends back. -/
inductive Response where
  /-- Status 400 with the message of the schema validator for the first failing field -/
  | invalid (field : String)
  /-- The call `res.status(status).json({ error })` -/
  | failure (status : Nat) (error : String)
  /-- Status 201 with `{ id, date, time, barberName, barberPhone }` -/
  | created (id date time barberName barberPhone : String)
  /-- Status 200 with `{ message: 'Reservation cancelled successfully' }` -/
  | cancelled
  deriving DecidableEq, Repr

/-- The call `createReservationSchema.validate(body)` on string fields: the first failing field.
A string field of the schema rejects the empty string. -/
def validateCreate (body : CreateBody) : Option String :=
  if body.barberId = "" then some "barberId"
  else if !matchesDatePattern body.date then some "date"
  else if !matchesTimePattern body.time then some "time"
  else none

/-- The working-hours test `time < barber.openTime || time >= barber.closeTime`, on
strings: true when the request is to be rejected. -/
def outsideWorkingHours (barber : Barber) (time : String) : Bool :=
  stringLt time.data barber.openTime.data || !stringLt time.data barber.closeTime.data

/-- The route `POST /reservations` by the authenticated client `clientId`, demo mode: the response
and the store afterwards. The barber table is an argument (`demoBarbers` in the source;
the database branch runs the same checks in the same order on the `barbers` table). -/
def createReservation (barbers : List Barber) (clock : Clock) (store : List Reservation)
    (clientId : String) (body : CreateBody) : Response × List Reservation :=
  match validateCreate body with
  | some field => (.invalid field, store)
  | none =>
    if isDateInPast clock body.date then
      (.failure 400 "Cannot book appointments in the past", store)
    else if body.date == clock.isoDate && isTimeInPast clock body.time then
      (.failure 400 "Cannot book appointments in the past", store)
    else
      match barbers.find? (fun b => b.id == body.barberId) with
      | none => (.failure 404 "Barber not found", store)
      | some barber =>
        if outsideWorkingHours barber body.time then
          (.failure 400 ("Barber is only available between " ++ barber.openTime ++ " and "
            ++ barber.closeTime), store)
        else if (store.find? (fun res => res.barberId == body.barberId
            && res.date == body.date && res.time == body.time)).isSome then
          (.failure 409 "This time slot is already booked", store)
        else if (store.find? (fun res => res.clientId == clientId
            && res.date == body.date && res.time == body.time)).isSome then
          (.failure 409 "You already have a reservation at this time", store)
        else
          let newReservation : Reservation :=
            { id := ⟨"res-".data ++ natToString clock.now⟩, clientId := clientId,
              barberId := body.barberId, date := body.date, time := body.time }
          (.created newReservation.id newReservation.date newReservation.time
              barber.fullName barber.phone,
            store ++ [newReservation])

/-- The route `DELETE /reservations/:id` by the authenticated client `userId`, demo mode:
`findIndex` with the record at the index found, the date check, and `splice`. -/
def cancelReservation (clock : Clock) (store : List Reservation) (userId id : String) :
    Response × List Reservation :=
  match store.enum.find? (fun ir => ir.2.id == id && ir.2.clientId == userId) with
  | none => (.failure 404 "Reservation not found", store)
  | some (reservationIndex, reservation) =>
    if isDateInPast clock reservation.date then
      (.failure 400 "Cannot cancel past reservations", store)
    else (.cancelled, store.eraseIdx reservationIndex)

/-- A request to the reservation routes together with the clock reading it is served
at. -/
inductive Request where
  | create (clock : Clock) (clientId : String) (body : CreateBody)
  | cancel (clock : Clock) (userId : String) (id : String)
  deriving DecidableEq, Repr

/-- One request served to completion on the store. -/
def serve (barbers : List Barber) (store : List Reservation) :
    Request → Response × List Reservation
  | .create clock clientId body => createReservation barbers clock store clientId body
  | .cancel clock userId id => cancelReservation clock store userId id

/-- The store after serving a sequence of requests one after another. -/
def serveAll (barbers : List Barber) (store : List Reservation) (requests : List Request) :
    List Reservation :=
  requests.foldl (fun s request => (serve barbers s request).2) store

/-! ## Store invariants -/

/-- No two reservations of the store share `(barberId, date, time)`. -/
def BarberSlotUnique (store : List Reservation) : Prop :=
  store.Pairwise (fun a b => ¬ (a.barberId = b.barberId ∧ a.date = b.date ∧ a.time = b.time))

/-- No two reservations of the store share `(clientId, date, time)`. -/
def ClientSlotUnique (store : List Reservation) : Prop :=
  store.Pairwise (fun a b => ¬ (a.clientId = b.clientId ∧ a.date = b.date ∧ a.time = b.time))

/-- Ceiling of `n / d`. -/
def ceilDiv (n d : Nat) : Nat := (n + d - 1) / d

/-! ## Vocabulary for the statements -/

/-- The value `Number` reads from a string of digits. -/
def digitsValue (s : List Char) : Nat := s.foldl (fun acc c => 10 * acc + digitValue c) 0

/-- The slot the full-status walk pushes when its loop variable is `time`. -/
def statusSlotAt (existingReservations : List Reservation)
    (unavailableSlots : List UnavailableSlot) (time : Nat) : StatusSlot :=
  { time := minutesToTime time,
    reserved := isReservedAt existingReservations (minutesToTime time),
    unavailable := isUnavailableAt unavailableSlots (minutesToTime time),
    formatted := displayTime (some (time / 60)) (some (time % 60)) }

/-- A full-status slot that is neither reserved nor blacked out. -/
def StatusSlot.isBookable (s : StatusSlot) : Bool := !s.reserved && !s.unavailable

/-- The bookable-only record with the time and display text of a full-status slot. -/
def StatusSlot.toTimeSlot (s : StatusSlot) : TimeSlot :=
  { time := s.time, reserved := false, formatted := s.formatted }

/-- Strict order of two time strings by their minutes since midnight. -/
def timeBefore (a b : String) : Bool :=
  match timeToMinutes a, timeToMinutes b with
  | some x, some y => decide (x < y)
  | _, _ => false

/-- A clock reading used in the examples: 4 November 2026, 12:00, in a zone at UTC. -/
def noonClock : Clock :=
  { now := 1793793600000, todayMidnight := 1793750400000, isoDate := "2026-11-04",
    hours := 12, minutes := 0 }

/-- The request `body` reaches the store checks of `createReservation`: it is valid, not
in the past, names the barber `barber` and lies within the working-hours test. -/
def reachesStoreChecks (barbers : List Barber) (clock : Clock) (body : CreateBody)
    (barber : Barber) : Prop :=
  validateCreate body = none ∧ isDateInPast clock body.date = false
    ∧ (body.date == clock.isoDate && isTimeInPast clock body.time) = false
    ∧ barbers.find? (fun b => b.id == body.barberId) = some barber
    ∧ outsideWorkingHours barber body.time = false

/-- The record `createReservation` appends on success. -/
def newReservation (clock : Clock) (clientId : String) (body : CreateBody) : Reservation :=
  { id := ⟨"res-".data ++ natToString clock.now⟩, clientId := clientId,
    barberId := body.barberId, date := body.date, time := body.time }

/-- A store used in the examples: two reservations at the same date and time, held by
different clients with different barbers. -/
def sampleStore : List Reservation :=
  [{ id := "res-10", clientId := "user-2", barberId := "barber-1",
     date := "2026-12-01", time := "10:00" },
   { id := "res-11", clientId := "user-1", barberId := "barber-2",
     date := "2026-12-01", time := "10:00" }]

/-- A store used in the examples: user-1 holds 10:00 on 1 December 2026 with barber-2. -/
def heldStore : List Reservation :=
  [{ id := "res-11", clientId := "user-1", barberId := "barber-2",
     date := "2026-12-01", time := "10:00" }]

/-- The zero-padded form of a time the route pattern accepts: a one-digit hour gets a
leading zero. -/
def zeroPadTime (time : String) : String :=
  if time.data.length = 4 then ⟨'0' :: time.data⟩ else time

/-- The display text as the spec words it, for hour `h` and minute `mm`: hour 0 reads 12,
hours 1 to 12 read as they are, hours 13 to 23 read `h - 12`; the minute is padded to two
digits; the suffix is AM before noon and PM from noon on. -/
def displaySpec (h mm : Nat) : String :=
  let shown : Nat := if h = 0 then 12 else if h ≤ 12 then h else h - 12
  let suffix : List Char := if h < 12 then ['A', 'M'] else ['P', 'M']
  ⟨natToString shown ++ ':' :: padStart2 (natToString mm) ++ ' ' :: suffix⟩

/-- The seven preconditions of reservation creation, as the spec numbers them. -/
inductive Precondition where
  /-- Precondition 1: the fields of the body pass the schema -/
  | validFields
  /-- Precondition 2: the date is not before today -/
  | dateNotPast
  /-- Precondition 3: when the date is today, the time is not before now -/
  | timeNotPast
  /-- Precondition 4: the barber exists -/
  | barberExists
  /-- Precondition 5: the time is within the barber's working hours -/
  | withinWorkingHours
  /-- Precondition 6: no reservation for the barber, date and time -/
  | slotFree
  /-- Precondition 7: no reservation for the client, date and time -/
  | clientFree
  deriving DecidableEq, Repr

/-- The preconditions in the order of the spec. -/
def Precondition.inOrder : List Precondition :=
  [.validFields, .dateNotPast, .timeNotPast, .barberExists, .withinWorkingHours, .slotFree,
   .clientFree]

/-- The test the handler runs for a precondition, each taken on its own: true when the
handler rejects the request on it. The working-hours test is that of the barber named by
the request, and passes when there is no such barber. -/
def Precondition.tested (barbers : List Barber) (clock : Clock) (store : List Reservation)
    (clientId : String) (body : CreateBody) : Precondition → Bool
  | .validFields => (validateCreate body).isSome
  | .dateNotPast => isDateInPast clock body.date
  | .timeNotPast => body.date == clock.isoDate && isTimeInPast clock body.time
  | .barberExists => (barbers.find? (fun b => b.id == body.barberId)).isNone
  | .withinWorkingHours =>
    match barbers.find? (fun b => b.id == body.barberId) with
    | some barber => outsideWorkingHours barber body.time
    | none => false
  | .slotFree =>
    store.any (fun res => res.barberId == body.barberId && res.date == body.date
      && res.time == body.time)
  | .clientFree =>
    store.any (fun res => res.clientId == clientId && res.date == body.date
      && res.time == body.time)

/-- Whether a request violates a precondition, as the spec words it, each precondition
taken on its own: (1) the date and the time match their patterns; (2) the date is not
strictly before today; (3) if the date equals today, the time is not strictly before the
current time of day; (4) the barber exists; (5) the time falls within
`[openTime, closeTime)`; (6) no reservation for the barber, date and time; (7) no
reservation for the client, date and time. Here `today` is the local calendar date and
`nowMinutes` the local time of day; dates are compared as calendar days and times as
minutes since midnight. Working hours are those of the barber named by the request, and
are not violated when there is no such barber. -/
def Precondition.violated (barbers : List Barber) (today : String) (nowMinutes : Nat)
    (store : List Reservation) (clientId : String) (body : CreateBody) :
    Precondition → Bool
  | .validFields => !(matchesDatePattern body.date && matchesTimePattern body.time)
  | .dateNotPast =>
    match dateParse body.date, dateParse today with
    | some day, some todayDay => decide (day < todayDay)
    | _, _ => false
  | .timeNotPast =>
    body.date == today
      && (match timeToMinutes body.time with
          | some minutes => decide (minutes < nowMinutes)
          | none => false)
  | .barberExists => (barbers.find? (fun b => b.id == body.barberId)).isNone
  | .withinWorkingHours =>
    match barbers.find? (fun b => b.id == body.barberId) with
    | some barber =>
      match timeToMinutes body.time, timeToMinutes barber.openTime,
          timeToMinutes barber.closeTime with
      | some minutes, some openMinutes, some closeMinutes =>
        !(decide (openMinutes ≤ minutes) && decide (minutes < closeMinutes))
      | _, _, _ => true
    | none => false
  | .slotFree =>
    store.any (fun res => res.barberId == body.barberId && res.date == body.date
      && res.time == body.time)
  | .clientFree =>
    store.any (fun res => res.clientId == clientId && res.date == body.date
      && res.time == body.time)

/-- The failure the handler reports for a precondition. -/
def Precondition.failure (barbers : List Barber) (body : CreateBody) : Precondition → Response
  | .validFields => .invalid ((validateCreate body).getD "")
  | .dateNotPast => .failure 400 "Cannot book appointments in the past"
  | .timeNotPast => .failure 400 "Cannot book appointments in the past"
  | .barberExists => .failure 404 "Barber not found"
  | .withinWorkingHours =>
    match barbers.find? (fun b => b.id == body.barberId) with
    | some barber =>
      .failure 400 ("Barber is only available between " ++ barber.openTime ++ " and "
        ++ barber.closeTime)
    | none => .failure 404 "Barber not found"
  | .slotFree => .failure 409 "This time slot is already booked"
  | .clientFree => .failure 409 "You already have a reservation at this time"

/-- First failure wins, as the spec words it: given which preconditions are violated,
the response is the failure of the earliest violated precondition in the order of the
spec, and the created reservation when no precondition is violated. -/
def firstFailureResponse (violated : Precondition → Bool) (barbers : List Barber)
    (clock : Clock) (clientId : String) (body : CreateBody) : Response :=
  match Precondition.inOrder.find? violated with
  | some precondition => Precondition.failure barbers body precondition
  | none =>
    match barbers.find? (fun b => b.id == body.barberId) with
    | some barber =>
      .created (newReservation clock clientId body).id body.date body.time barber.fullName
        barber.phone
    | none => .failure 404 "Barber not found"

/-- A clock reading used in the examples: 4 November 2026, 00:45, in a zone at UTC. -/
def smallHoursClock : Clock :=
  { now := 1793753100000, todayMidnight := 1793750400000, isoDate := "2026-11-04",
    hours := 0, minutes := 45 }

/-- The civil date (year, month, day) of a day number counted from 1 January 1970, in
the proleptic Gregorian calendar that `Date` uses. -/
def civilFromDays (days : Int) : Int × Nat × Nat :=
  let z : Int := days + 719468
  let era : Int := z / 146097
  let dayOfEra : Nat := (z - era * 146097).toNat
  let yearOfEra : Nat :=
    (dayOfEra - dayOfEra / 1460 + dayOfEra / 36524 - dayOfEra / 146096) / 365
  let dayOfYear : Nat := dayOfEra - (365 * yearOfEra + yearOfEra / 4 - yearOfEra / 100)
  let monthFromMarch : Nat := (5 * dayOfYear + 2) / 153
  let day : Nat := dayOfYear - (153 * monthFromMarch + 2) / 5 + 1
  let month : Nat := if monthFromMarch < 10 then monthFromMarch + 3 else monthFromMarch - 9
  let year : Int := (yearOfEra : Int) + era * 400 + (if month ≤ 2 then 1 else 0)
  (year, month, day)

/-- The date part of `toISOString()` for a day number: `YYYY-MM-DD`, the year with a sign
and six digits outside 0..9999. -/
def isoDateString (days : Int) : String :=
  let (year, month, day) := civilFromDays days
  let yearChars : List Char :=
    if 0 ≤ year ∧ year ≤ 9999 then
      List.replicate (4 - (natToString year.toNat).length) '0' ++ natToString year.toNat
    else
      (if year < 0 then '-' else '+')
        :: (List.replicate (6 - (natToString year.natAbs).length) '0'
              ++ natToString year.natAbs)
  ⟨yearChars ++ '-' :: padStart2 (natToString month) ++ '-' :: padStart2 (natToString day)⟩

/-- What a request reads from the clock at the instant `now` (milliseconds since the
epoch) in a zone whose local time is `offset` minutes ahead of UTC, the offset being the
same all day. -/
def clockAt (now : Nat) (offset : Int) : Clock :=
  let localMs : Int := (now : Int) + offset * 60000
  let msOfDay : Nat := (localMs % 86400000).toNat
  { now := now,
    todayMidnight := localMs / 86400000 * 86400000 - offset * 60000,
    isoDate := isoDateString ((now : Int) / 86400000),
    hours := msOfDay / 3600000,
    minutes := msOfDay % 3600000 / 60000 }

/-- The local calendar date, as `YYYY-MM-DD`, `daysAhead` days after the instant `now` in
the zone `offset` minutes ahead of UTC: today for 0, tomorrow for 1. -/
def localDate (now : Nat) (offset : Int) (daysAhead : Nat) : String :=
  isoDateString (((now : Int) + offset * 60000) / 86400000 + daysAhead)

/-! ## Database mode (`src/db/schema.js`, `src/routes/barbers.js`, `src/routes/reservations.js`) -/

/-- A row of the table `barber_availability`. -/
structure BarberAvailability where
  id : String
  barberId : String
  date : String
  isAvailable : Bool
  deriving DecidableEq, Repr

/-- A row of the table `users`, with the columns the handlers read. -/
structure User where
  id : String
  fullName : String
  phone : String
  deriving DecidableEq, Repr

/-- The tables of `src/db/schema.js` that the handlers read and write, with the values as
the driver returns them. A row of `barbers` is kept joined with the `fullName` and
`phone` of its user. Every table has the primary key `id` and no other uniqueness
constraint, so an insert always adds a row; `nextId` stands for `defaultRandom()`. -/
structure Database where
  barbers : List Barber
  users : List User
  reservations : List Reservation
  unavailableTimeSlots : List UnavailableSlot
  barberAvailability : List BarberAvailability
  nextId : Nat
  deriving DecidableEq, Repr

/-- What a schedule query sends back. -/
inductive ScheduleResponse where
  /-- The call `res.status(status).json({ error })` -/
  | failure (status : Nat) (error : String)
  /-- Status 200 with `{ barber, date, isAvailable, timeSlots }`; the dashboard query sends
  no `isAvailable` -/
  | schedule (barber : Barber) (date : String) (isAvailable : Option Bool)
      (timeSlots : List StatusSlot)
  deriving DecidableEq, Repr

/-- The day-level flag of `GET /barbers/:id/schedule`:
`availability.length === 0 ? true : availability[0].isAvailable`. -/
def resolveIsAvailable (availability : List BarberAvailability) : Bool :=
  match availability with
  | [] => true
  | first :: _ => first.isAvailable

/-- The slots of `GET /barbers/:id/schedule`, database mode, from the rows fetched for the
barber and the date: all slots are generated and, when the day is not available, each is
rewritten with `unavailable: true, reserved: false`. -/
def scheduleTimeSlots (barber : Barber) (existingReservations : List Reservation)
    (unavailableSlots : List UnavailableSlot) (availability : List BarberAvailability) :
    Option (List StatusSlot) :=
  let isAvailable := resolveIsAvailable availability
  match generateAllTimeSlots barber.openTime barber.closeTime barber.haircutDuration
      existingReservations unavailableSlots with
  | none => none
  | some timeSlots =>
    if !isAvailable then
      some (timeSlots.map (fun slot => { slot with unavailable := true, reserved := false }))
    else some timeSlots

/-- The route `GET /barbers/:id/schedule`, database mode; `none` when the generator does
not return. -/
def getSchedule (db : Database) (clock : Clock) (id date : String) :
    Option ScheduleResponse :=
  if date = "" then some (.failure 400 "Date parameter is required")
  else if !matchesDatePattern date then
    some (.failure 400 "Invalid date format. Use YYYY-MM-DD")
  else if isDateInPast clock date then
    some (.failure 400 "Cannot view schedule for past dates")
  else
    match db.barbers.find? (fun b => b.id == id) with
    | none => some (.failure 404 "Barber not found")
    | some barber =>
      let existingReservations :=
        db.reservations.filter (fun r => r.barberId == id && r.date == date)
      let unavailableSlots :=
        db.unavailableTimeSlots.filter (fun s => s.barberId == id && s.date == date)
      let availability :=
        db.barberAvailability.filter (fun a => a.barberId == id && a.date == date)
      match scheduleTimeSlots barber existingReservations unavailableSlots availability with
      | none => none
      | some timeSlots =>
        some (.schedule barber date (some (resolveIsAvailable availability)) timeSlots)

/-- The route `GET /barbers/:id/dashboard-schedule`, database mode; `none` when the
generator does not return. The table `barber_availability` is not read. -/
def getDashboardSchedule (db : Database) (id date : String) : Option ScheduleResponse :=
  if date = "" then some (.failure 400 "Date parameter is required")
  else if !matchesDatePattern date then
    some (.failure 400 "Invalid date format. Use YYYY-MM-DD")
  else
    match db.barbers.find? (fun b => b.id == id) with
    | none => some (.failure 404 "Barber not found")
    | some barber =>
      let existingReservations :=
        db.reservations.filter (fun r => r.barberId == id && r.date == date)
      let unavailableSlots :=
        db.unavailableTimeSlots.filter (fun s => s.barberId == id && s.date == date)
      match generateAllTimeSlots barber.openTime barber.closeTime barber.haircutDuration
          existingReservations unavailableSlots with
      | none => none
      | some timeSlots => some (.schedule barber date none timeSlots)

/-- Where a `POST /reservations` handler stands in database mode. Each stage but the
first and the last waits for one awaited query; other requests run in between. -/
inductive CreateStage where
  /-- The request has arrived and nothing has run -/
  | received
  /-- Waiting for the query of the barber -/
  | barberQuery
  /-- Waiting for the query of a reservation for the barber, date and time -/
  | slotQuery (barber : Barber)
  /-- Waiting for the query of a reservation for the client, date and time -/
  | clientQuery (barber : Barber)
  /-- Waiting for the insert -/
  | insertQuery (barber : Barber)
  /-- Waiting for the query of the barber's name and phone -/
  | detailsQuery (barber : Barber) (inserted : Reservation)
  /-- The response is sent -/
  | responded (response : Response)
  deriving DecidableEq, Repr

/-- A request being served in database mode: the clock read on arrival, the authenticated
client, the body, and the stage reached. -/
structure CreateTask where
  clock : Clock
  clientId : String
  body : CreateBody
  stage : CreateStage
  deriving DecidableEq, Repr

/-- One resumption of a `POST /reservations` handler, database mode: the query it waits
for runs on the tables and the handler goes on to its next `await` or to its response. -/
def CreateTask.step (db : Database) (task : CreateTask) : Database × CreateTask :=
  match task.stage with
  | .received =>
    match validateCreate task.body with
    | some field => (db, { task with stage := .responded (.invalid field) })
    | none =>
      if isDateInPast task.clock task.body.date then
        (db, { task with
          stage := .responded (.failure 400 "Cannot book appointments in the past") })
      else if task.body.date == task.clock.isoDate
          && isTimeInPast task.clock task.body.time then
        (db, { task with
          stage := .responded (.failure 400 "Cannot book appointments in the past") })
      else (db, { task with stage := .barberQuery })
  | .barberQuery =>
    match db.barbers.find? (fun b => b.id == task.body.barberId) with
    | none => (db, { task with stage := .responded (.failure 404 "Barber not found") })
    | some barber =>
      if outsideWorkingHours barber task.body.time then
        (db, { task with
          stage := .responded (.failure 400 ("Barber is only available between "
            ++ barber.openTime ++ " and " ++ barber.closeTime)) })
      else (db, { task with stage := .slotQuery barber })
  | .slotQuery barber =>
    if (db.reservations.find? (fun res => res.barberId == task.body.barberId
        && res.date == task.body.date && res.time == task.body.time)).isSome then
      (db, { task with
        stage := .responded (.failure 409 "This time slot is already booked") })
    else (db, { task with stage := .clientQuery barber })
  | .clientQuery barber =>
    if (db.reservations.find? (fun res => res.clientId == task.clientId
        && res.date == task.body.date && res.time == task.body.time)).isSome then
      (db, { task with
        stage := .responded (.failure 409 "You already have a reservation at this time") })
    else (db, { task with stage := .insertQuery barber })
  | .insertQuery barber =>
    let inserted : Reservation :=
      { id := ⟨"uuid-".data ++ natToString db.nextId⟩, clientId := task.clientId,
        barberId := task.body.barberId, date := task.body.date, time := task.body.time }
    ({ db with reservations := db.reservations ++ [inserted], nextId := db.nextId + 1 },
      { task with stage := .detailsQuery barber inserted })
  | .detailsQuery barber inserted =>
    let barberDetails := db.users.find? (fun u => u.id == barber.id)
    let barberName :=
      match barberDetails with
      | some u => if u.fullName = "" then "Unknown" else u.fullName
      | none => "Unknown"
    let barberPhone :=
      match barberDetails with
      | some u => if u.phone = "" then "Unknown" else u.phone
      | none => "Unknown"
    (db, { task with
      stage := .responded
        (.created inserted.id inserted.date inserted.time barberName barberPhone) })
  | .responded _ => (db, task)

/-- Two `POST /reservations` requests in flight on one database. -/
structure Race where
  db : Database
  first : CreateTask
  second : CreateTask
  deriving DecidableEq, Repr

/-- One turn of the event loop: the first task resumes when `firstRuns`, else the
second. -/
def Race.turn (race : Race) (firstRuns : Bool) : Race :=
  if firstRuns then
    let (db, task) := race.first.step race.db
    { race with db := db, first := task }
  else
    let (db, task) := race.second.step race.db
    { race with db := db, second := task }

/-- The race after the turns of a schedule. -/
def Race.run (race : Race) (schedule : List Bool) : Race :=
  schedule.foldl Race.turn race

/-- The schedule that serves the first request to its response and then the second. -/
def oneAfterAnother : List Bool :=
  [true, true, true, true, true, true, false, false, false, false, false, false]

/-- A schedule that lets both requests pass their checks before either inserts. -/
def checksBeforeInserts : List Bool :=
  [true, true, true, true, false, false, false, false, true, true, false, false]

/-- Whether a task has been answered with a created reservation. -/
def CreateTask.succeeded (task : CreateTask) : Bool :=
  match task.stage with
  | .responded (.created _ _ _ _ _) => true
  | _ => false

/-- A database used in the examples: barber-1 of the demo data, no reservations, and the
day 2026-12-01 marked not available. -/
def sampleDatabase : Database :=
  { barbers := demoBarbers,
    users := [{ id := "user-1", fullName := "John Smith", phone := "555-0101" }],
    reservations := [], unavailableTimeSlots := [],
    barberAvailability :=
      [{ id := "avail-1", barberId := "barber-1", date := "2026-12-01",
         isAvailable := false }],
    nextId := 1 }

/-- A task used in the examples: `clientId` asks for barber-1 on 2026-12-01 at 10:00. -/
def sampleTask (clientId : String) : CreateTask :=
  { clock := noonClock, clientId := clientId,
    body := { barberId := "barber-1", date := "2026-12-01", time := "10:00" },
    stage := .received }

/-- A task resumed `n` times in a row, no other request running in between. -/
def CreateTask.resume : Nat → Database → CreateTask → Database × CreateTask
  | 0, db, task => (db, task)
  | n + 1, db, task =>
    let (db, task) := task.step db
    CreateTask.resume n db task

/-- The row a task inserts when the generated id is `nextId`. -/
def CreateTask.row (task : CreateTask) (nextId : Nat) : Reservation :=
  { id := ⟨"uuid-".data ++ natToString nextId⟩, clientId := task.clientId,
    barberId := task.body.barberId, date := task.body.date, time := task.body.time }

/-! ## Listing and blackout store, demo mode (`src/routes/reservations.js`, `src/routes/barbers.js`) -/

/-- An element of the listing of `GET /reservations`. -/
structure ListedReservation where
  id : String
  date : String
  time : String
  barberName : String
  barberPhone : String
  barberLocation : String
  deriving DecidableEq, Repr

/-- What `GET /reservations` sends back. -/
inductive ListingResponse where
  /-- The call `res.status(status).json({ error })` -/
  | failure (status : Nat) (error : String)
  /-- Status 200 with `{ reservations }` -/
  | listing (reservations : List ListedReservation)
  deriving DecidableEq, Repr

/-- The route `GET /reservations` by the authenticated user `userId`, demo mode, with the
optional `date` query (an absent or empty `date` does not filter). A missing barber or an
empty field reads `Unknown`. -/
def listReservations (barbers : List Barber) (store : List Reservation) (userId : String)
    (date : Option String) : ListingResponse :=
  let userReservations := store.filter (fun res => res.clientId == userId)
  let withInfo (reservations : List Reservation) : List ListedReservation :=
    reservations.map (fun reservation =>
      let barber := barbers.find? (fun b => b.id == reservation.barberId)
      let orUnknown (field : Barber → String) : String :=
        match barber with
        | some b => if field b = "" then "Unknown" else field b
        | none => "Unknown"
      { id := reservation.id, date := reservation.date, time := reservation.time,
        barberName := orUnknown (fun b => b.fullName),
        barberPhone := orUnknown (fun b => b.phone),
        barberLocation := orUnknown (fun b => b.manualLocation) })
  match date with
  | none => .listing (withInfo userReservations)
  | some date =>
    if date = "" then .listing (withInfo userReservations)
    else if !matchesDatePattern date then
      .failure 400 "Invalid date format. Use YYYY-MM-DD"
    else .listing (withInfo (userReservations.filter (fun res => res.date == date)))

/-- Whether a listing response shows a reservation with the given id. -/
def ListingResponse.shows (response : ListingResponse) (id : String) : Bool :=
  match response with
  | .failure _ _ => false
  | .listing reservations => reservations.any (fun listed => listed.id == id)

/-- The argument of `updateDemoUnavailableSlot`: `{ barberId, date, time, isUnavailable }`. -/
structure SlotUpdate where
  barberId : String
  date : String
  time : String
  isUnavailable : Bool
  deriving DecidableEq, Repr

/-- The test of `findIndex` in `updateDemoUnavailableSlot`: same barber, date and time. -/
def SlotUpdate.matches (slot : SlotUpdate) (s : UnavailableSlot) : Bool :=
  s.barberId == slot.barberId && s.date == slot.date && s.time == slot.time

/-- The record `{ ...existing, ...slot }`: the id of `existing`, the rest from `slot`. -/
def SlotUpdate.merge (slot : SlotUpdate) (existing : UnavailableSlot) : UnavailableSlot :=
  { existing with barberId := slot.barberId, date := slot.date, time := slot.time,
                  isUnavailable := slot.isUnavailable }

/-- The record pushed when no entry has the key: a new id from `Date.now()` and the fields
of `slot`. -/
def SlotUpdate.fresh (slot : SlotUpdate) (clock : Clock) : UnavailableSlot :=
  { id := ⟨"unavail-".data ++ natToString clock.now⟩, barberId := slot.barberId,
    date := slot.date, time := slot.time, isUnavailable := slot.isUnavailable }

/-- The function `updateDemoUnavailableSlot(slot)` on the blackout store: the entry at the
index found is replaced by the merged record, or a new record is pushed. -/
def updateDemoUnavailableSlot (clock : Clock) (store : List UnavailableSlot)
    (slot : SlotUpdate) : List UnavailableSlot :=
  match store.enum.find? (fun is => slot.matches is.2) with
  | some (existingIndex, existing) => store.set existingIndex (slot.merge existing)
  | none => store ++ [slot.fresh clock]

/-- The upsert as a walk along the store, used to reason about it. -/
def upsertWalk (clock : Clock) (slot : SlotUpdate) : List UnavailableSlot → List UnavailableSlot
  | [] => [slot.fresh clock]
  | s :: rest =>
    if slot.matches s then slot.merge s :: rest else s :: upsertWalk clock slot rest

/-- At most one entry of the blackout store per `(barberId, date, time)`. -/
def BlackoutKeysUnique (store : List UnavailableSlot) : Prop :=
  store.Pairwise (fun a b => ¬ (a.barberId = b.barberId ∧ a.date = b.date ∧ a.time = b.time))

/-- The initial value of `demoUnavailableSlots` in `src/routes/barbers.js`. -/
def demoUnavailableSlots : List UnavailableSlot :=
  [{ id := "unavail-1", barberId := "barber-1", date := "2025-07-20", time := "10:00",
     isUnavailable := true },
   { id := "unavail-2", barberId := "barber-1", date := "2025-07-20", time := "10:30",
     isUnavailable := true }]

/-- An update used in the examples: the blackout of barber-1 at 10:00 on 2025-07-20 is
switched off. -/
def reopenTen : SlotUpdate :=
  { barberId := "barber-1", date := "2025-07-20", time := "10:00", isUnavailable := false }

/-! ## Signup validation (`src/routes/auth.js`) -/

/-- The body of `POST /auth/signup`. The barber fields may be absent; a `haircutDuration`
with a fraction, which the schema rejects, is not represented. -/
structure SignupBody where
  role : String
  email : String
  password : String
  confirmPassword : String
  fullName : String
  phone : String
  manualLocation : Option String
  haircutDuration : Option Int
  openTime : Option String
  closeTime : Option String
  deriving DecidableEq, Repr

/-- The schedule that signup stores for a barber, from the validated value. -/
structure BarberSchedule where
  openTime : String
  closeTime : String
  haircutDuration : Int
  deriving DecidableEq, Repr

/-- The pattern class `\s` of JavaScript, by code point. -/
def isSpace (c : Char) : Bool :=
  [9, 10, 11, 12, 13, 32, 160, 5760, 8232, 8233, 8239, 8287, 12288, 65279].contains c.toNat
    || (decide (8192 ≤ c.toNat) && decide (c.toNat ≤ 8202))

/-- The phone pattern `/^\+?[\d\s\-\(\)]+$/` of `signupSchema`. -/
def matchesPhonePattern (phone : String) : Bool :=
  let body : List Char :=
    match phone.data with
    | c :: rest => if c == '+' then rest else c :: rest
    | [] => []
  !body.isEmpty
    && body.all (fun c => isDigit c || isSpace c || c == '-' || c == '(' || c == ')')

/-- The call `signupSchema.validate(body)`: the first failing field, or the value for the
barber's schedule (`none` for a client). The rule `Joi.string().email()` is that of the
validation library and is the argument `isEmail`. A string field rejects the empty
string; an absent `haircutDuration` of a barber defaults to 30. -/
def validateSignup (isEmail : String → Bool) (body : SignupBody) :
    Except String (Option BarberSchedule) :=
  if !(body.role == "client" || body.role == "barber") then .error "role"
  else if body.email = "" || !isEmail body.email then .error "email"
  else if body.password.length < 6 then .error "password"
  else if body.confirmPassword ≠ body.password then .error "confirmPassword"
  else if body.fullName.length < 2 then .error "fullName"
  else if !matchesPhonePattern body.phone then .error "phone"
  else if body.role == "barber" then
    match body.manualLocation with
    | none => .error "manualLocation"
    | some manualLocation =>
      if manualLocation = "" then .error "manualLocation"
      else
        let haircutDuration : Int := body.haircutDuration.getD 30
        if haircutDuration < 15 ∨ haircutDuration > 120 then .error "haircutDuration"
        else
          match body.openTime with
          | none => .error "openTime"
          | some openTime =>
            if !matchesTimePattern openTime then .error "openTime"
            else
              match body.closeTime with
              | none => .error "closeTime"
              | some closeTime =>
                if !matchesTimePattern closeTime then .error "closeTime"
                else
                  .ok (some { openTime := openTime, closeTime := closeTime,
                              haircutDuration := haircutDuration })
  else if body.manualLocation.isSome then .error "manualLocation"
  else if body.haircutDuration.isSome then .error "haircutDuration"
  else if body.openTime.isSome then .error "openTime"
  else if body.closeTime.isSome then .error "closeTime"
  else .ok none

/-- A signup body used in the examples: a barber who opens at 18:00 and closes at
09:00. -/
def eveningBarberSignup : SignupBody :=
  { role := "barber", email := "mike@barbershop.com", password := "secret1",
    confirmPassword := "secret1", fullName := "Mike Johnson", phone := "555-0102",
    manualLocation := some "Uptown Cuts", haircutDuration := some 45,
    openTime := some "18:00", closeTime := some "09:00" }

/-! ## The availability overlay and reservation creation -/

/-- The module state of demo mode: the reservations of `demoData` and the blackout
entries `demoUnavailableSlots`. Demo mode keeps no day-availability records. -/
structure DemoState where
  reservations : List Reservation
  unavailableSlots : List UnavailableSlot
  deriving DecidableEq, Repr

/-- The route `POST /reservations`, demo mode, on the module state: the handler reads and
writes the reservations only. -/
def DemoState.create (barbers : List Barber) (clock : Clock) (state : DemoState)
    (clientId : String) (body : CreateBody) : Response × DemoState :=
  let result := createReservation barbers clock state.reservations clientId body
  (result.1, { state with reservations := result.2 })

/-- Two databases with the same barbers, users, reservations and generated ids; the
tables `unavailable_time_slots` and `barber_availability` are left free. -/
def Database.sameBookings (a b : Database) : Prop :=
  a.barbers = b.barbers ∧ a.users = b.users ∧ a.reservations = b.reservations
    ∧ a.nextId = b.nextId

/-- The route `GET /barbers/:id/schedule`, database mode, with the tables it leaves: the
handler runs select queries only. -/
def scheduleQuery (db : Database) (clock : Clock) (id date : String) :
    Option ScheduleResponse × Database :=
  (getSchedule db clock id date, db)

/-- A demo state used in the examples: no reservation, and barber-1 blacked out at 10:00
on 1 December 2026. -/
def blackoutState : DemoState :=
  { reservations := [],
    unavailableSlots :=
      [{ id := "unavail-9", barberId := "barber-1", date := "2026-12-01", time := "10:00",
         isUnavailable := true }] }

/-- A demo state used in the examples: no reservation and no blackout. -/
def openState : DemoState := { reservations := [], unavailableSlots := [] }

/-- A request used in the examples: barber-1 on 1 December 2026 at 10:00. -/
def tenBody : CreateBody := { barberId := "barber-1", date := "2026-12-01", time := "10:00" }

/-- A request used in the examples: barber-1 on 1 December 2026 at 09:07. -/
def offGridBody : CreateBody :=
  { barberId := "barber-1", date := "2026-12-01", time := "09:07" }

/-- The sample database without its day-availability record. -/
def openDatabase : Database := { sampleDatabase with barberAvailability := [] }

/-! ## Lemmas: decimal strings -/

theorem digitChar_props (d : Nat) (h : d < 10) :
    isDigit (Nat.digitChar d) = true ∧ digitValue (Nat.digitChar d) = d
      ∧ Nat.digitChar d ≠ ':' := by
  interval_cases d <;> decide

theorem digitsValue_append_single (ds : List Char) (c : Char) :
    digitsValue (ds ++ [c]) = 10 * digitsValue ds + digitValue c := by
  simp [digitsValue, List.foldl_append]

/-- What the conversion loop of `Nat.toDigits` puts in front of its accumulator: a
non-empty run of digit characters whose decimal value is the number converted. -/
theorem coreDigits_front (fuel : Nat) : ∀ (acc : List Char) (n : Nat), n + 1 ≤ fuel →
    ∃ front : List Char, (∀ c ∈ front, isDigit c = true ∧ c ≠ ':')
      ∧ digitsValue front = n ∧ front ≠ []
      ∧ Nat.toDigitsCore 10 fuel n acc = front ++ acc := by
  induction fuel with
  | zero => intro acc n h; omega
  | succ fuel ih =>
    intro acc n h
    have hd := digitChar_props (n % 10) (Nat.mod_lt _ (by decide))
    by_cases h0 : n / 10 = 0
    · refine ⟨[Nat.digitChar (n % 10)], ?_, ?_, by simp, ?_⟩
      · intro c hc
        simp only [List.mem_singleton] at hc
        subst hc
        exact ⟨hd.1, hd.2.2⟩
      · have hlt : n < 10 := by omega
        have e := hd.2.1
        rw [Nat.mod_eq_of_lt hlt] at e
        simp [digitsValue, Nat.mod_eq_of_lt hlt, e]
      · simp [Nat.toDigitsCore, h0]
    · obtain ⟨front, h3, h4, _, h1⟩ :=
        ih (Nat.digitChar (n % 10) :: acc) (n / 10) (by omega)
      refine ⟨front ++ [Nat.digitChar (n % 10)], ?_, ?_, by simp, ?_⟩
      · intro c hc
        rcases List.mem_append.1 hc with hc | hc
        · exact h3 c hc
        · simp only [List.mem_singleton] at hc
          subst hc
          exact ⟨hd.1, hd.2.2⟩
      · rw [digitsValue_append_single, h4, hd.2.1]
        omega
      · simp [Nat.toDigitsCore, h0, h1]

theorem natToString_spec (n : Nat) :
    (∀ c ∈ natToString n, isDigit c = true ∧ c ≠ ':') ∧ digitsValue (natToString n) = n := by
  obtain ⟨front, h3, h4, _, h1⟩ := coreDigits_front (n + 1) [] n (Nat.le_refl _)
  have : natToString n = front := by simp [natToString, Nat.toDigits, h1]
  rw [this]
  exact ⟨h3, h4⟩

theorem digitsValue_replicate_zero (k : Nat) (s : List Char) :
    digitsValue (List.replicate k '0' ++ s) = digitsValue s := by
  induction k with
  | zero => simp
  | succ k ih =>
    have h0 : digitValue '0' = 0 := by decide
    simp only [digitsValue, List.replicate_succ, List.cons_append, List.foldl_cons, h0] at ih ⊢
    simpa using ih

theorem padStart2_natToString (n : Nat) :
    (∀ c ∈ padStart2 (natToString n), isDigit c = true ∧ c ≠ ':')
      ∧ digitsValue (padStart2 (natToString n)) = n := by
  obtain ⟨h2, h3⟩ := natToString_spec n
  refine ⟨?_, ?_⟩
  · intro c hc
    rcases List.mem_append.1 hc with hc | hc
    · have := (List.mem_replicate.1 hc).2
      subst this
      exact ⟨by decide, by decide⟩
    · exact h2 c hc
  · simp [padStart2, digitsValue_replicate_zero, h3]

theorem jsNumber_of_digits (s : List Char) (h : ∀ c ∈ s, isDigit c = true) :
    jsNumber s = some (digitsValue s) := by
  have : s.all isDigit = true := List.all_eq_true.2 h
  simp [jsNumber, this, digitsValue]

theorem splitColon_noColon (s : List Char) (h : ∀ c ∈ s, c ≠ ':') : splitColon s = [s] := by
  induction s with
  | nil => rfl
  | cons c cs ih =>
    have hc : c ≠ ':' := h c (List.mem_cons_self _ _)
    have := ih (fun x hx => h x (List.mem_cons_of_mem _ hx))
    simp [splitColon, hc, this]

theorem splitColon_append_colon (a b : List Char) (h : ∀ c ∈ a, c ≠ ':') :
    splitColon (a ++ ':' :: b) = a :: splitColon b := by
  induction a with
  | nil => simp [splitColon]
  | cons c cs ih =>
    have hc : c ≠ ':' := h c (List.mem_cons_self _ _)
    have := ih (fun x hx => h x (List.mem_cons_of_mem _ hx))
    simp [splitColon, hc, this]

/-- Splitting a generated time gives back its two padded parts. -/
theorem splitColon_minutesToTime (t : Nat) :
    splitColon (minutesToTime t).data
      = [padStart2 (natToString (t / 60)), padStart2 (natToString (t % 60))] := by
  obtain ⟨hh1, _⟩ := padStart2_natToString (t / 60)
  obtain ⟨hm1, _⟩ := padStart2_natToString (t % 60)
  have e1 := splitColon_append_colon (padStart2 (natToString (t / 60)))
    (padStart2 (natToString (t % 60))) (fun c hc => (hh1 c hc).2)
  have e2 := splitColon_noColon (padStart2 (natToString (t % 60))) (fun c hc => (hm1 c hc).2)
  simp only [minutesToTime, e1, e2]

theorem jsNumber_padStart2_natToString (n : Nat) :
    jsNumber (padStart2 (natToString n)) = some n := by
  obtain ⟨h1, h2⟩ := padStart2_natToString n
  rw [jsNumber_of_digits _ (fun c hc => (h1 c hc).1), h2]

/-- The parts `minutesToTime` writes are read back by the split. -/
theorem splitHoursMinutes_minutesToTime (t : Nat) :
    splitHoursMinutes (minutesToTime t) = (some (t / 60), some (t % 60)) := by
  simp only [splitHoursMinutes, splitColon_minutesToTime, jsNumber_padStart2_natToString]

/-- The display text of a generated time: the formatter does not throw on it. -/
theorem formatTimeForDisplay_minutesToTime (t : Nat) :
    formatTimeForDisplay (minutesToTime t)
      = some (displayTime (some (t / 60)) (some (t % 60))) := by
  simp only [formatTimeForDisplay, splitColon_minutesToTime, jsNumber_padStart2_natToString]

/-- Reading back a generated time gives the minutes it was made from. -/
theorem timeToMinutes_minutesToTime (t : Nat) : timeToMinutes (minutesToTime t) = some t := by
  simp only [timeToMinutes, splitHoursMinutes_minutesToTime]
  congr 1
  omega

/-! ## Lemmas: the slot walk -/

theorem ceilDiv_lt_iff (x d k : Nat) (hd : 0 < d) : k < ceilDiv x d ↔ k * d < x := by
  unfold ceilDiv
  rw [Nat.lt_iff_add_one_le, Nat.le_div_iff_mul_le hd, Nat.add_mul]
  omega

theorem ceilDiv_step (x d : Nat) (hd : 0 < d) (hx : 0 < x) :
    ceilDiv x d = ceilDiv (x - d) d + 1 := by
  apply Nat.le_antisymm
  · by_contra hlt
    have h1 : ceilDiv (x - d) d + 1 < ceilDiv x d := by omega
    have h2 := (ceilDiv_lt_iff x d _ hd).1 h1
    have h3 : ¬ ceilDiv (x - d) d < ceilDiv (x - d) d := lt_irrefl _
    rw [ceilDiv_lt_iff _ _ _ hd] at h3
    rw [Nat.add_mul] at h2
    omega
  · rw [Nat.add_one_le_iff, ceilDiv_lt_iff _ _ _ hd]
    by_cases h0 : ceilDiv (x - d) d = 0
    · rw [h0]; omega
    · have h1 : ceilDiv (x - d) d - 1 < ceilDiv (x - d) d := by omega
      rw [ceilDiv_lt_iff _ _ _ hd] at h1
      have h2 : ceilDiv (x - d) d * d = (ceilDiv (x - d) d - 1) * d + d := by
        conv_lhs => rw [show ceilDiv (x - d) d = (ceilDiv (x - d) d - 1) + 1 by omega]
        rw [Nat.add_mul, Nat.one_mul]
      omega

/-- With a positive step and enough fuel the full-status walk returns the slots at
`time + k * d`, for `k` below the ceiling of `(close - time) / d`. -/
theorem generateAllTimeSlotsLoop_eq (close d : Nat) (rs : List Reservation)
    (us : List UnavailableSlot) (hd : 0 < d) :
    ∀ (fuel time : Nat), close ≤ time + fuel →
      generateAllTimeSlotsLoop close d rs us fuel time
        = some ((List.range (ceilDiv (close - time) d)).map
            (fun k => statusSlotAt rs us (time + k * d))) := by
  intro fuel
  induction fuel with
  | zero =>
    intro time h
    have h0 : close - time = 0 := by omega
    have h1 : ceilDiv 0 d = 0 := by
      unfold ceilDiv
      exact Nat.div_eq_of_lt (by omega)
    unfold generateAllTimeSlotsLoop
    rw [if_neg (by omega), h0, h1]
    rfl
  | succ fuel ih =>
    intro time h
    unfold generateAllTimeSlotsLoop
    by_cases hlt : time < close
    · rw [if_pos hlt]
      simp only [formatTimeForDisplay_minutesToTime]
      rw [ih (time + d) (by omega), ceilDiv_step (close - time) d hd (by omega),
        List.range_succ_eq_map]
      have e : close - time - d = close - (time + d) := by omega
      simp only [List.map_cons, List.map_map, e, statusSlotAt, Nat.zero_mul, Nat.add_zero]
      congr 2
      apply List.map_congr_left
      intro k _
      simp only [Function.comp, Nat.succ_eq_add_one, Nat.add_mul, Nat.one_mul]
      have : time + d + k * d = time + (k * d + d) := by omega
      rw [this]
    · rw [if_neg hlt]
      have h0 : close - time = 0 := by omega
      have h1 : ceilDiv 0 d = 0 := by
        unfold ceilDiv
        exact Nat.div_eq_of_lt (by omega)
      rw [h0, h1]
      rfl

/-- The bookable-only walk is the full-status walk with the reserved and blacked-out slots
left out, whatever the fuel and the step. -/
theorem generateTimeSlotsLoop_eq (close d : Nat) (rs : List Reservation)
    (us : List UnavailableSlot) :
    ∀ (fuel time : Nat),
      generateTimeSlotsLoop close d rs us fuel time
        = (generateAllTimeSlotsLoop close d rs us fuel time).map
            (fun all => (all.filter StatusSlot.isBookable).map StatusSlot.toTimeSlot) := by
  intro fuel
  induction fuel with
  | zero =>
    intro time
    unfold generateTimeSlotsLoop generateAllTimeSlotsLoop
    by_cases hlt : time < close
    · simp [hlt]
    · simp [hlt]
  | succ fuel ih =>
    intro time
    unfold generateTimeSlotsLoop generateAllTimeSlotsLoop
    by_cases hlt : time < close
    · rw [if_pos hlt, if_pos hlt]
      simp only [formatTimeForDisplay_minutesToTime]
      rw [ih (time + d)]
      by_cases hb : (!isReservedAt rs (minutesToTime time)
          && !isUnavailableAt us (minutesToTime time)) = true
      · rw [if_pos hb]
        cases generateAllTimeSlotsLoop close d rs us fuel (time + d) with
        | none => rfl
        | some rest =>
          simp [List.filter_cons, StatusSlot.isBookable, hb, StatusSlot.toTimeSlot]
      · rw [if_neg hb]
        cases generateAllTimeSlotsLoop close d rs us fuel (time + d) with
        | none => rfl
        | some rest =>
          simp [List.filter_cons, StatusSlot.isBookable, hb]
    · rw [if_neg hlt, if_neg hlt]
      rfl

/-! ## Lemmas: the generators -/

theorem isDigit_ne_colon (c : Char) (h : isDigit c = true) : c ≠ ':' := by
  intro hc
  subst hc
  revert h
  decide

theorem isDigit05_isDigit (c : Char) (h : isDigit05 c = true) : isDigit c = true := by
  simp only [isDigit05, isDigit, Bool.and_eq_true, decide_eq_true_eq] at h ⊢
  refine ⟨h.1, le_trans h.2 (by decide)⟩

/-- A string of the form `ab:cd` with four digits parses. -/
theorem timeToMinutes_of_digits (h1 h2 m1 m2 : Char) (a1 : isDigit h1 = true)
    (a2 : isDigit h2 = true) (b1 : isDigit m1 = true) (b2 : isDigit m2 = true) :
    timeToMinutes ⟨[h1, h2, ':', m1, m2]⟩
      = some ((10 * digitValue h1 + digitValue h2) * 60 + (10 * digitValue m1 + digitValue m2)) := by
  have e1 : splitColon [h1, h2, ':', m1, m2] = [[h1, h2], [m1, m2]] := by
    simp [splitColon, isDigit_ne_colon _ a1, isDigit_ne_colon _ a2, isDigit_ne_colon _ b1,
      isDigit_ne_colon _ b2]
  simp [timeToMinutes, splitHoursMinutes, e1, jsNumber, a1, a2, b1, b2]

/-- A zero-padded `HH:MM` string parses to a number of minutes. -/
theorem timeToMinutes_of_isPaddedTime (t : String) (h : isPaddedTime t = true) :
    ∃ m, timeToMinutes t = some m := by
  obtain ⟨l⟩ := t
  rcases l with _ | ⟨h1, _ | ⟨h2, _ | ⟨c, _ | ⟨m1, _ | ⟨m2, _ | ⟨x, l⟩⟩⟩⟩⟩⟩ <;>
    simp only [isPaddedTime, Bool.false_eq_true] at h
  simp only [Bool.and_eq_true, beq_iff_eq] at h
  obtain ⟨⟨⟨hh, hc⟩, hm1⟩, hm2⟩ := h
  subst hc
  have a1 : isDigit h1 = true := by
    rcases Bool.or_eq_true_iff.1 hh with hh | hh
    · simp only [Bool.and_eq_true, Bool.or_eq_true, beq_iff_eq] at hh
      rcases hh.1 with e | e <;> subst e <;> decide
    · simp only [Bool.and_eq_true, beq_iff_eq] at hh
      obtain ⟨⟨e, _⟩, _⟩ := hh
      subst e
      decide
  have a2 : isDigit h2 = true := by
    rcases Bool.or_eq_true_iff.1 hh with hh | hh
    · simp only [Bool.and_eq_true] at hh
      exact hh.2
    · simp only [Bool.and_eq_true, decide_eq_true_eq] at hh
      simp only [isDigit, Bool.and_eq_true, decide_eq_true_eq]
      exact ⟨hh.1.2, le_trans hh.2 (by decide)⟩
  exact ⟨_, timeToMinutes_of_digits h1 h2 m1 m2 a1 a2 (isDigit05_isDigit _ hm1) hm2⟩

/-- The full-status generator on bounds that parse, for a positive duration. -/
theorem generateAllTimeSlots_eq (openTime closeTime : String) (d : Nat)
    (rs : List Reservation) (us : List UnavailableSlot) (o c : Nat)
    (ho : timeToMinutes openTime = some o) (hc : timeToMinutes closeTime = some c)
    (hd : 0 < d) :
    generateAllTimeSlots openTime closeTime d rs us
      = some ((List.range (ceilDiv (c - o) d)).map (fun k => statusSlotAt rs us (o + k * d))) := by
  simp only [generateAllTimeSlots, ho, hc]
  exact generateAllTimeSlotsLoop_eq c d rs us hd (c - o) o (by omega)

/-- The bookable-only generator is the full-status generator filtered. -/
theorem generateTimeSlots_eq_filter (openTime closeTime : String) (d : Nat)
    (rs : List Reservation) (us : List UnavailableSlot) :
    generateTimeSlots openTime closeTime d rs us
      = (generateAllTimeSlots openTime closeTime d rs us).map
          (fun all => (all.filter StatusSlot.isBookable).map StatusSlot.toTimeSlot) := by
  unfold generateTimeSlots generateAllTimeSlots
  cases timeToMinutes openTime with
  | none => rfl
  | some o =>
    cases timeToMinutes closeTime with
    | none => rfl
    | some c => exact generateTimeSlotsLoop_eq c d rs us (c - o) o

/-- For a positive duration the full-status generator returns, and each of its slots is
the slot of the walk at some loop value below the closing bound. -/
theorem generateAllTimeSlots_total (openTime closeTime : String) (d : Nat)
    (rs : List Reservation) (us : List UnavailableSlot) (hd : 0 < d) :
    ∃ all, generateAllTimeSlots openTime closeTime d rs us = some all
      ∧ ∀ s ∈ all, ∃ t, s = statusSlotAt rs us t := by
  cases ho : timeToMinutes openTime with
  | none => exact ⟨[], by simp [generateAllTimeSlots, ho], by simp⟩
  | some o =>
    cases hc : timeToMinutes closeTime with
    | none => exact ⟨[], by simp [generateAllTimeSlots, ho, hc], by simp⟩
    | some c =>
      refine ⟨_, generateAllTimeSlots_eq openTime closeTime d rs us o c ho hc hd, ?_⟩
      intro s hs
      obtain ⟨k, _, hk⟩ := List.mem_map.1 hs
      exact ⟨o + k * d, hk.symm⟩

theorem isReservedAt_iff (rs : List Reservation) (t : String) :
    isReservedAt rs t = true ↔ ∃ r ∈ rs, r.time = t := by
  simp [isReservedAt, List.any_eq_true]

theorem isUnavailableAt_iff (us : List UnavailableSlot) (t : String) :
    isUnavailableAt us t = true ↔ ∃ u ∈ us, u.time = t ∧ u.isUnavailable = true := by
  simp [isUnavailableAt, List.any_eq_true]

/-! ## Lemmas: the reservation handlers -/

/-- The two ways `createReservation` ends: a rejection that leaves the store as it was,
or a success, possible only when all checks pass, that appends the new record. -/
theorem createReservation_cases (barbers : List Barber) (clock : Clock)
    (store : List Reservation) (clientId : String) (body : CreateBody) :
    ((createReservation barbers clock store clientId body).2 = store
      ∧ ∀ id date time name phone, (createReservation barbers clock store clientId body).1
          ≠ .created id date time name phone)
    ∨ (∃ barber, reachesStoreChecks barbers clock body barber
        ∧ (∀ r ∈ store, ¬ (r.barberId = body.barberId ∧ r.date = body.date
            ∧ r.time = body.time))
        ∧ (∀ r ∈ store, ¬ (r.clientId = clientId ∧ r.date = body.date ∧ r.time = body.time))
        ∧ createReservation barbers clock store clientId body
            = (.created (newReservation clock clientId body).id body.date body.time
                barber.fullName barber.phone,
               store ++ [newReservation clock clientId body])) := by
  unfold createReservation
  cases hv : validateCreate body with
  | some field => left; simp
  | none =>
    simp only []
    by_cases h1 : isDateInPast clock body.date = true
    · left; simp [h1]
    by_cases h2 : (body.date == clock.isoDate && isTimeInPast clock body.time) = true
    · left; simp [h1, h2]
    rw [if_neg h1, if_neg h2]
    cases hb : barbers.find? (fun b => b.id == body.barberId) with
    | none => left; simp
    | some barber =>
      simp only []
      by_cases h3 : outsideWorkingHours barber body.time = true
      · left; simp [h3]
      by_cases h4 : (store.find? (fun res => res.barberId == body.barberId
          && res.date == body.date && res.time == body.time)).isSome = true
      · left; simp [h3, h4]
      by_cases h5 : (store.find? (fun res => res.clientId == clientId
          && res.date == body.date && res.time == body.time)).isSome = true
      · left; simp [h3, h4, h5]
      right
      rw [if_neg h3, if_neg h4, if_neg h5]
      refine ⟨barber, ⟨hv, by simpa using h1, by simpa using h2, hb, by simpa using h3⟩,
        ?_, ?_, rfl⟩
      · intro r hr hm
        apply h4
        rw [List.find?_isSome]
        exact ⟨r, hr, by simp [hm.1, hm.2.1, hm.2.2]⟩
      · intro r hr hm
        apply h5
        rw [List.find?_isSome]
        exact ⟨r, hr, by simp [hm.1, hm.2.1, hm.2.2]⟩

/-- A request that reaches the store checks and asks for a taken `(barberId, date, time)`
gets the double-booking conflict. -/
theorem createReservation_double_booking (barbers : List Barber) (clock : Clock)
    (store : List Reservation) (clientId : String) (body : CreateBody) (barber : Barber)
    (hreach : reachesStoreChecks barbers clock body barber)
    (htaken : ∃ r ∈ store, r.barberId = body.barberId ∧ r.date = body.date
      ∧ r.time = body.time) :
    createReservation barbers clock store clientId body
      = (.failure 409 "This time slot is already booked", store) := by
  obtain ⟨hv, h1, h2, hb, h3⟩ := hreach
  obtain ⟨r, hr, hm⟩ := htaken
  have h4 : (store.find? (fun res => res.barberId == body.barberId
      && res.date == body.date && res.time == body.time)).isSome = true := by
    rw [List.find?_isSome]
    exact ⟨r, hr, by simp [hm.1, hm.2.1, hm.2.2]⟩
  unfold createReservation
  simp only [hv, h1, h2, hb, h3, h4]
  simp

/-- A request that reaches the store checks, asks for a free `(barberId, date, time)` and
comes from a client who holds a reservation at that `(date, time)` gets the client
conflict. -/
theorem createReservation_client_conflict (barbers : List Barber) (clock : Clock)
    (store : List Reservation) (clientId : String) (body : CreateBody) (barber : Barber)
    (hreach : reachesStoreChecks barbers clock body barber)
    (hfree : ∀ r ∈ store, ¬ (r.barberId = body.barberId ∧ r.date = body.date
      ∧ r.time = body.time))
    (hheld : ∃ r ∈ store, r.clientId = clientId ∧ r.date = body.date ∧ r.time = body.time) :
    createReservation barbers clock store clientId body
      = (.failure 409 "You already have a reservation at this time", store) := by
  obtain ⟨hv, h1, h2, hb, h3⟩ := hreach
  obtain ⟨r, hr, hm⟩ := hheld
  have h4 : (store.find? (fun res => res.barberId == body.barberId
      && res.date == body.date && res.time == body.time)).isSome = false := by
    rw [Bool.eq_false_iff]
    intro h
    rw [List.find?_isSome] at h
    obtain ⟨x, hx, hp⟩ := h
    simp only [Bool.and_eq_true, beq_iff_eq] at hp
    exact hfree x hx ⟨hp.1.1, hp.1.2, hp.2⟩
  have h5 : (store.find? (fun res => res.clientId == clientId
      && res.date == body.date && res.time == body.time)).isSome = true := by
    rw [List.find?_isSome]
    exact ⟨r, hr, by simp [hm.1, hm.2.1, hm.2.2]⟩
  unfold createReservation
  simp only [hv, h1, h2, hb, h3, h4, h5]
  simp

/-- After `cancelReservation` the store is a sublist of the store before. -/
theorem cancelReservation_sublist (clock : Clock) (store : List Reservation)
    (userId id : String) :
    List.Sublist (cancelReservation clock store userId id).2 store := by
  unfold cancelReservation
  cases store.enum.find? (fun ir => ir.2.id == id && ir.2.clientId == userId) with
  | none => exact List.Sublist.refl _
  | some found =>
    obtain ⟨i, reservation⟩ := found
    simp only []
    by_cases h : isDateInPast clock reservation.date = true
    · rw [if_pos h]
    · rw [if_neg h]
      exact List.eraseIdx_sublist store i

/-- One served request keeps barber-slot uniqueness. -/
theorem serve_barberSlotUnique (barbers : List Barber) (store : List Reservation)
    (request : Request) (h : BarberSlotUnique store) :
    BarberSlotUnique (serve barbers store request).2 := by
  cases request with
  | create clock clientId body =>
    rcases createReservation_cases barbers clock store clientId body with
      ⟨hs, _⟩ | ⟨barber, _, hfree, _, hres⟩
    · simp only [serve, hs]
      exact h
    · simp only [serve, hres]
      unfold BarberSlotUnique at h ⊢
      rw [List.pairwise_append]
      refine ⟨h, List.pairwise_singleton _ _, ?_⟩
      intro a ha b hb
      rw [List.mem_singleton] at hb
      subst hb
      exact hfree a ha
  | cancel clock userId id =>
    exact List.Pairwise.sublist (cancelReservation_sublist clock store userId id) h

/-- One served request keeps client-slot uniqueness. -/
theorem serve_clientSlotUnique (barbers : List Barber) (store : List Reservation)
    (request : Request) (h : ClientSlotUnique store) :
    ClientSlotUnique (serve barbers store request).2 := by
  cases request with
  | create clock clientId body =>
    rcases createReservation_cases barbers clock store clientId body with
      ⟨hs, _⟩ | ⟨barber, _, _, hfree, hres⟩
    · simp only [serve, hs]
      exact h
    · simp only [serve, hres]
      unfold ClientSlotUnique at h ⊢
      rw [List.pairwise_append]
      refine ⟨h, List.pairwise_singleton _ _, ?_⟩
      intro a ha b hb
      rw [List.mem_singleton] at hb
      subst hb
      exact hfree a ha
  | cancel clock userId id =>
    exact List.Pairwise.sublist (cancelReservation_sublist clock store userId id) h

theorem serveAll_barberSlotUnique (barbers : List Barber) (requests : List Request) :
    ∀ store : List Reservation, BarberSlotUnique store →
      BarberSlotUnique (serveAll barbers store requests) := by
  induction requests with
  | nil => intro store h; exact h
  | cons request rest ih =>
    intro store h
    exact ih _ (serve_barberSlotUnique barbers store request h)

theorem serveAll_clientSlotUnique (barbers : List Barber) (requests : List Request) :
    ∀ store : List Reservation, ClientSlotUnique store →
      ClientSlotUnique (serveAll barbers store requests) := by
  induction requests with
  | nil => intro store h; exact h
  | cons request rest ih =>
    intro store h
    exact ih _ (serve_clientSlotUnique barbers store request h)

/-! ## Claims on the slot generator -/

/-- C1: for zero-padded `HH:MM` bounds and a positive `haircutDuration`,
`generateAllTimeSlots` returns exactly the slots at times `minutesToTime (open + k * d)`
for the `k` with `open + k * d < close`, in that order: the ceiling of
`(close - open) / d` slots, and none when `openTime` equals `closeTime`. -/
theorem generateAllTimeSlots_exact (openTime closeTime : String) (d : Nat)
    (rs : List Reservation) (us : List UnavailableSlot)
    (ho : isPaddedTime openTime = true) (hc : isPaddedTime closeTime = true) (hd : 0 < d) :
    ∃ o c all, timeToMinutes openTime = some o ∧ timeToMinutes closeTime = some c
      ∧ generateAllTimeSlots openTime closeTime d rs us = some all
      ∧ all.map (fun s => s.time)
          = (List.range (ceilDiv (c - o) d)).map (fun k => minutesToTime (o + k * d))
      ∧ (∀ k, k < ceilDiv (c - o) d ↔ o + k * d < c)
      ∧ all.length = ceilDiv (c - o) d
      ∧ (openTime = closeTime → all = []) := by
  obtain ⟨o, ho'⟩ := timeToMinutes_of_isPaddedTime openTime ho
  obtain ⟨c, hc'⟩ := timeToMinutes_of_isPaddedTime closeTime hc
  refine ⟨o, c, _, ho', hc', generateAllTimeSlots_eq openTime closeTime d rs us o c ho' hc' hd,
    ?_, ?_, ?_, ?_⟩
  · simp [List.map_map, Function.comp, statusSlotAt]
  · intro k
    rw [ceilDiv_lt_iff _ _ _ hd]
    omega
  · simp
  · intro heq
    subst heq
    have : o = c := by
      rw [ho'] at hc'
      exact Option.some.inj hc'
    subst this
    have h0 : ceilDiv (o - o) d = 0 := by
      rw [Nat.sub_self]
      unfold ceilDiv
      exact Nat.div_eq_of_lt (by omega)
    rw [h0]
    rfl

/-- Witness of C1 on the schedule 09:00-10:00 with 25-minute haircuts. -/
theorem generateAllTimeSlots_exact_witness :
    ∃ o c all, timeToMinutes "09:00" = some o ∧ timeToMinutes "10:00" = some c
      ∧ generateAllTimeSlots "09:00" "10:00" 25 [] [] = some all
      ∧ all.map (fun s => s.time)
          = (List.range (ceilDiv (c - o) 25)).map (fun k => minutesToTime (o + k * 25))
      ∧ (∀ k, k < ceilDiv (c - o) 25 ↔ o + k * 25 < c)
      ∧ all.length = ceilDiv (c - o) 25
      ∧ ("09:00" = "10:00" → all = []) :=
  generateAllTimeSlots_exact "09:00" "10:00" 25 [] [] (by decide) (by decide) (by decide)

/-- The eighteen start times of the schedule 09:00-18:00 with 30-minute haircuts. -/
def nineToSixTimes : List String :=
  ["09:00", "09:30", "10:00", "10:30", "11:00", "11:30", "12:00", "12:30", "13:00",
   "13:30", "14:00", "14:30", "15:00", "15:30", "16:00", "16:30", "17:00", "17:30"]

/-- C2: with `openTime = "09:00"`, `closeTime = "18:00"`, `haircutDuration = 30` and no
reservations or blackouts, both generators produce exactly 18 slots, the first at
"09:00", the last at "17:30", and none at or after "18:00". -/
theorem generators_nine_to_six :
    (generateTimeSlots "09:00" "18:00" 30 [] []).map (fun l => l.map (fun s => s.time))
        = some nineToSixTimes
      ∧ (generateAllTimeSlots "09:00" "18:00" 30 [] []).map (fun l => l.map (fun s => s.time))
        = some nineToSixTimes
      ∧ nineToSixTimes.length = 18
      ∧ nineToSixTimes.head? = some "09:00"
      ∧ nineToSixTimes.getLast? = some "17:30"
      ∧ (∀ t ∈ nineToSixTimes,
          stringLt t.data "18:00".data = true ∧ timeBefore t "18:00" = true) := by
  refine ⟨by rfl, by rfl, by rfl, by rfl, by rfl, by decide⟩

/-- C3: for a positive `haircutDuration` and all reservation and blackout lists, the
bookable-only sequence is the full-status sequence restricted to the slots with
`reserved = false` and `unavailable = false`, in the same order: the same times and
display texts, an order-preserving subsequence, every slot with `reserved = false`. -/
theorem generateTimeSlots_refines (openTime closeTime : String) (d : Nat)
    (rs : List Reservation) (us : List UnavailableSlot) (hd : 0 < d) :
    ∃ avail all, generateTimeSlots openTime closeTime d rs us = some avail
      ∧ generateAllTimeSlots openTime closeTime d rs us = some all
      ∧ avail.map (fun b => (b.time, b.formatted))
          = (all.filter (fun s => !s.reserved && !s.unavailable)).map
              (fun s => (s.time, s.formatted))
      ∧ List.Sublist (avail.map (fun b => b.time)) (all.map (fun s => s.time))
      ∧ ∀ b ∈ avail, b.reserved = false := by
  obtain ⟨all, hall, _⟩ := generateAllTimeSlots_total openTime closeTime d rs us hd
  refine ⟨(all.filter StatusSlot.isBookable).map StatusSlot.toTimeSlot, all, ?_, hall, ?_, ?_, ?_⟩
  · rw [generateTimeSlots_eq_filter, hall]
    rfl
  · rw [List.map_map]
    rfl
  · rw [List.map_map]
    exact (List.filter_sublist all).map _
  · intro b hb
    obtain ⟨s, _, hs⟩ := List.mem_map.1 hb
    rw [← hs]
    rfl

/-- Witness of C3 on the schedule 09:00-18:00 with 30-minute haircuts. -/
theorem generateTimeSlots_refines_witness :
    ∃ avail all, generateTimeSlots "09:00" "18:00" 30 [] [] = some avail
      ∧ generateAllTimeSlots "09:00" "18:00" 30 [] [] = some all
      ∧ avail.map (fun b => (b.time, b.formatted))
          = (all.filter (fun s => !s.reserved && !s.unavailable)).map
              (fun s => (s.time, s.formatted))
      ∧ List.Sublist (avail.map (fun b => b.time)) (all.map (fun s => s.time))
      ∧ ∀ b ∈ avail, b.reserved = false :=
  generateTimeSlots_refines "09:00" "18:00" 30 [] [] (by decide)

/-- C4: for a positive `haircutDuration`, a slot of `generateAllTimeSlots` has
`reserved = true` exactly when some element of `existingReservations` has the slot's
time; so for each reservation, the full-status slot at its time is marked reserved and
`generateTimeSlots` returns no slot at its time. -/
theorem generateAllTimeSlots_reserved_iff (openTime closeTime : String) (d : Nat)
    (rs : List Reservation) (us : List UnavailableSlot) (hd : 0 < d) :
    ∃ all avail, generateAllTimeSlots openTime closeTime d rs us = some all
      ∧ generateTimeSlots openTime closeTime d rs us = some avail
      ∧ (∀ s ∈ all, s.reserved = true ↔ ∃ r ∈ rs, r.time = s.time)
      ∧ (∀ r ∈ rs, (∀ s ∈ all, s.time = r.time → s.reserved = true)
          ∧ ∀ b ∈ avail, b.time ≠ r.time) := by
  obtain ⟨all, hall, hslot⟩ := generateAllTimeSlots_total openTime closeTime d rs us hd
  have hiff : ∀ s ∈ all, s.reserved = true ↔ ∃ r ∈ rs, r.time = s.time := by
    intro s hs
    obtain ⟨t, ht⟩ := hslot s hs
    subst ht
    exact isReservedAt_iff rs _
  refine ⟨all, (all.filter StatusSlot.isBookable).map StatusSlot.toTimeSlot, hall, ?_, hiff, ?_⟩
  · rw [generateTimeSlots_eq_filter, hall]
    rfl
  · intro r hr
    refine ⟨fun s hs he => (hiff s hs).2 ⟨r, hr, he.symm⟩, ?_⟩
    intro b hb he
    obtain ⟨s, hs, hsb⟩ := List.mem_map.1 hb
    obtain ⟨hs1, hs2⟩ := List.mem_filter.1 hs
    have hres : s.reserved = true := (hiff s hs1).2 ⟨r, hr, by rw [← he, ← hsb]; rfl⟩
    simp [StatusSlot.isBookable, hres] at hs2

/-- Witness of C4: a reservation at "10:00" on the schedule 09:00-18:00 with 30-minute
haircuts. -/
theorem generateAllTimeSlots_reserved_iff_witness :
    ∃ all avail,
      generateAllTimeSlots "09:00" "18:00" 30
          [{ id := "res-1", clientId := "user-1", barberId := "barber-1",
             date := "2026-12-01", time := "10:00" }] [] = some all
      ∧ generateTimeSlots "09:00" "18:00" 30
          [{ id := "res-1", clientId := "user-1", barberId := "barber-1",
             date := "2026-12-01", time := "10:00" }] [] = some avail
      ∧ (∀ s ∈ all, s.reserved = true ↔
          ∃ r ∈ [({ id := "res-1", clientId := "user-1", barberId := "barber-1",
                    date := "2026-12-01", time := "10:00" } : Reservation)], r.time = s.time)
      ∧ (∀ r ∈ [({ id := "res-1", clientId := "user-1", barberId := "barber-1",
                   date := "2026-12-01", time := "10:00" } : Reservation)],
          (∀ s ∈ all, s.time = r.time → s.reserved = true) ∧ ∀ b ∈ avail, b.time ≠ r.time) :=
  generateAllTimeSlots_reserved_iff "09:00" "18:00" 30 _ [] (by decide)

/-- C5: for a positive `haircutDuration`, a slot of `generateAllTimeSlots` has
`unavailable = true` exactly when some element of `unavailableSlots` has the slot's time
and `isUnavailable = true`; when every blackout entry at a slot's time has
`isUnavailable = false` the slot is not marked unavailable and, unless reserved, it is
in the output of `generateTimeSlots`. -/
theorem generateAllTimeSlots_unavailable_iff (openTime closeTime : String) (d : Nat)
    (rs : List Reservation) (us : List UnavailableSlot) (hd : 0 < d) :
    ∃ all avail, generateAllTimeSlots openTime closeTime d rs us = some all
      ∧ generateTimeSlots openTime closeTime d rs us = some avail
      ∧ (∀ s ∈ all, s.unavailable = true ↔
          ∃ u ∈ us, u.time = s.time ∧ u.isUnavailable = true)
      ∧ (∀ s ∈ all, (∀ u ∈ us, u.time = s.time → u.isUnavailable = false) →
          s.unavailable = false
            ∧ (s.reserved = false →
                ({ time := s.time, reserved := false, formatted := s.formatted } : TimeSlot)
                  ∈ avail)) := by
  obtain ⟨all, hall, hslot⟩ := generateAllTimeSlots_total openTime closeTime d rs us hd
  have hiff : ∀ s ∈ all, s.unavailable = true ↔
      ∃ u ∈ us, u.time = s.time ∧ u.isUnavailable = true := by
    intro s hs
    obtain ⟨t, ht⟩ := hslot s hs
    subst ht
    exact isUnavailableAt_iff us _
  refine ⟨all, (all.filter StatusSlot.isBookable).map StatusSlot.toTimeSlot, hall, ?_, hiff, ?_⟩
  · rw [generateTimeSlots_eq_filter, hall]
    rfl
  · intro s hs hfalse
    have hun : s.unavailable = false := by
      cases h : s.unavailable with
      | false => rfl
      | true =>
        obtain ⟨u, hu, hut, huv⟩ := (hiff s hs).1 h
        rw [hfalse u hu hut] at huv
        exact absurd huv (by decide)
    refine ⟨hun, fun hres => ?_⟩
    refine List.mem_map.2 ⟨s, List.mem_filter.2 ⟨hs, ?_⟩, rfl⟩
    simp [StatusSlot.isBookable, hun, hres]

/-- Witness of C5: a blackout entry at "10:00" with `isUnavailable = false` and one at
"10:30" with `isUnavailable = true`. -/
theorem generateAllTimeSlots_unavailable_iff_witness :
    ∃ all avail,
      generateAllTimeSlots "09:00" "18:00" 30 []
          [{ id := "unavail-1", barberId := "barber-1", date := "2026-12-01",
             time := "10:00", isUnavailable := false },
           { id := "unavail-2", barberId := "barber-1", date := "2026-12-01",
             time := "10:30", isUnavailable := true }] = some all
      ∧ generateTimeSlots "09:00" "18:00" 30 []
          [{ id := "unavail-1", barberId := "barber-1", date := "2026-12-01",
             time := "10:00", isUnavailable := false },
           { id := "unavail-2", barberId := "barber-1", date := "2026-12-01",
             time := "10:30", isUnavailable := true }] = some avail
      ∧ (∀ s ∈ all, s.unavailable = true ↔
          ∃ u ∈ [({ id := "unavail-1", barberId := "barber-1", date := "2026-12-01",
                    time := "10:00", isUnavailable := false } : UnavailableSlot),
                 { id := "unavail-2", barberId := "barber-1", date := "2026-12-01",
                   time := "10:30", isUnavailable := true }],
            u.time = s.time ∧ u.isUnavailable = true)
      ∧ (∀ s ∈ all,
          (∀ u ∈ [({ id := "unavail-1", barberId := "barber-1", date := "2026-12-01",
                     time := "10:00", isUnavailable := false } : UnavailableSlot),
                  { id := "unavail-2", barberId := "barber-1", date := "2026-12-01",
                    time := "10:30", isUnavailable := true }],
            u.time = s.time → u.isUnavailable = false) →
          s.unavailable = false
            ∧ (s.reserved = false →
                ({ time := s.time, reserved := false, formatted := s.formatted } : TimeSlot)
                  ∈ avail)) :=
  generateAllTimeSlots_unavailable_iff "09:00" "18:00" 30 [] _ (by decide)

/-- The times of the full-status walk increase strictly. -/
theorem statusSlotAt_times_pairwise (rs : List Reservation) (us : List UnavailableSlot)
    (o d n : Nat) (hd : 0 < d) :
    (((List.range n).map (fun k => statusSlotAt rs us (o + k * d))).map
      (fun s => s.time)).Pairwise (fun a b => timeBefore a b = true) := by
  rw [List.map_map, List.pairwise_map]
  refine (List.pairwise_lt_range n).imp ?_
  intro a b hab
  have : o + a * d < o + b * d := by
    have := Nat.mul_lt_mul_of_pos_right hab hd
    omega
  simp [statusSlotAt, timeBefore, timeToMinutes_minutesToTime, this]

theorem timeBefore_irrefl (a : String) : ¬ timeBefore a a = true := by
  unfold timeBefore
  cases timeToMinutes a <;> simp

/-- C6: for a positive `haircutDuration` and all reservation and blackout lists, the
slots of `generateTimeSlots` and of `generateAllTimeSlots` are in strictly ascending
time order (`timeToMinutes` of the slot times strictly increases along each sequence,
between consecutive slots in particular), so no time appears twice in either. -/
theorem generators_strictly_ascending (openTime closeTime : String) (d : Nat)
    (rs : List Reservation) (us : List UnavailableSlot) (hd : 0 < d) :
    ∃ all avail, generateAllTimeSlots openTime closeTime d rs us = some all
      ∧ generateTimeSlots openTime closeTime d rs us = some avail
      ∧ (all.map (fun s => s.time)).Pairwise (fun a b => timeBefore a b = true)
      ∧ (avail.map (fun s => s.time)).Pairwise (fun a b => timeBefore a b = true)
      ∧ (all.map (fun s => s.time)).Chain' (fun a b => timeBefore a b = true)
      ∧ (avail.map (fun s => s.time)).Chain' (fun a b => timeBefore a b = true)
      ∧ (all.map (fun s => s.time)).Nodup
      ∧ (avail.map (fun s => s.time)).Nodup := by
  have key : ∃ all, generateAllTimeSlots openTime closeTime d rs us = some all
      ∧ (all.map (fun s => s.time)).Pairwise (fun a b => timeBefore a b = true) := by
    cases ho : timeToMinutes openTime with
    | none => exact ⟨[], by simp [generateAllTimeSlots, ho], by simp⟩
    | some o =>
      cases hc : timeToMinutes closeTime with
      | none => exact ⟨[], by simp [generateAllTimeSlots, ho, hc], by simp⟩
      | some c =>
        exact ⟨_, generateAllTimeSlots_eq openTime closeTime d rs us o c ho hc hd,
          statusSlotAt_times_pairwise rs us o d _ hd⟩
  obtain ⟨all, hall, hpw⟩ := key
  have hsub : List.Sublist
      (((all.filter StatusSlot.isBookable).map StatusSlot.toTimeSlot).map (fun s => s.time))
      (all.map (fun s => s.time)) := by
    rw [List.map_map]
    exact (List.filter_sublist all).map _
  have hpw2 := hpw.sublist hsub
  have hne : ∀ a b : String, timeBefore a b = true → a ≠ b := by
    intro a b h e
    subst e
    exact timeBefore_irrefl a h
  refine ⟨all, (all.filter StatusSlot.isBookable).map StatusSlot.toTimeSlot, hall, ?_,
    hpw, hpw2, hpw.chain', hpw2.chain', hpw.imp (hne _ _), hpw2.imp (hne _ _)⟩
  rw [generateTimeSlots_eq_filter, hall]
  rfl

/-- Witness of C6 on the schedule 09:00-18:00 with 30-minute haircuts. -/
theorem generators_strictly_ascending_witness :
    ∃ all avail, generateAllTimeSlots "09:00" "18:00" 30 [] [] = some all
      ∧ generateTimeSlots "09:00" "18:00" 30 [] [] = some avail
      ∧ (all.map (fun s => s.time)).Pairwise (fun a b => timeBefore a b = true)
      ∧ (avail.map (fun s => s.time)).Pairwise (fun a b => timeBefore a b = true)
      ∧ (all.map (fun s => s.time)).Chain' (fun a b => timeBefore a b = true)
      ∧ (avail.map (fun s => s.time)).Chain' (fun a b => timeBefore a b = true)
      ∧ (all.map (fun s => s.time)).Nodup
      ∧ (avail.map (fun s => s.time)).Nodup :=
  generators_strictly_ascending "09:00" "18:00" 30 [] [] (by decide)

/-- C7, as stated, fails: on the schedule 08:00-19:00 with 45-minute haircuts both
generators emit the slot at "18:30", which ends at minute 1155, after the closing minute
1140. -/
theorem slot_past_closing_time :
    ∃ all avail, generateAllTimeSlots "08:00" "19:00" 45 [] [] = some all
      ∧ generateTimeSlots "08:00" "19:00" 45 [] [] = some avail
      ∧ (∃ s ∈ all, ∃ t c, timeToMinutes s.time = some t
          ∧ timeToMinutes "19:00" = some c ∧ ¬ (t + 45 ≤ c))
      ∧ (∃ b ∈ avail, ∃ t c, timeToMinutes b.time = some t
          ∧ timeToMinutes "19:00" = some c ∧ ¬ (t + 45 ≤ c)) := by
  refine ⟨_, _, rfl, rfl,
    ⟨statusSlotAt [] [] 1110, by decide, 1110, 1140, by decide, by decide, by decide⟩,
    ⟨(statusSlotAt [] [] 1110).toTimeSlot, by decide, 1110, 1140, by decide, by decide,
      by decide⟩⟩

/-- C7, amended: for bounds that parse, `open < close` and a positive `haircutDuration`,
every slot of either generator starts at or after `open` and strictly before `close`,
and ends no later than `close` when `haircutDuration` divides `close - open`; when it
does not divide, the full-status sequence has a slot that ends after `close`. -/
theorem slots_start_before_close (openTime closeTime : String) (d : Nat)
    (rs : List Reservation) (us : List UnavailableSlot) (o c : Nat)
    (ho : timeToMinutes openTime = some o) (hc : timeToMinutes closeTime = some c)
    (hlt : o < c) (hd : 0 < d) :
    ∃ all avail, generateAllTimeSlots openTime closeTime d rs us = some all
      ∧ generateTimeSlots openTime closeTime d rs us = some avail
      ∧ (∀ s ∈ all, ∃ t, timeToMinutes s.time = some t ∧ o ≤ t ∧ t < c
          ∧ (d ∣ c - o → t + d ≤ c))
      ∧ (∀ b ∈ avail, ∃ t, timeToMinutes b.time = some t ∧ o ≤ t ∧ t < c
          ∧ (d ∣ c - o → t + d ≤ c))
      ∧ (¬ d ∣ c - o → ∃ s ∈ all, ∃ t, timeToMinutes s.time = some t ∧ c < t + d) := by
  have hall := generateAllTimeSlots_eq openTime closeTime d rs us o c ho hc hd
  have hbound : ∀ k, k < ceilDiv (c - o) d ↔ o + k * d < c := by
    intro k
    rw [ceilDiv_lt_iff _ _ _ hd]
    omega
  have hslots : ∀ s ∈ (List.range (ceilDiv (c - o) d)).map
      (fun k => statusSlotAt rs us (o + k * d)),
      ∃ t, timeToMinutes s.time = some t ∧ o ≤ t ∧ t < c ∧ (d ∣ c - o → t + d ≤ c) := by
    intro s hs
    obtain ⟨k, hk, rfl⟩ := List.mem_map.1 hs
    have hk' := (hbound k).1 (List.mem_range.1 hk)
    refine ⟨o + k * d, timeToMinutes_minutesToTime _, by omega, hk', ?_⟩
    rintro ⟨m, hm⟩
    have h1 : k * d < d * m := by omega
    have h2 : k < m := by
      rw [Nat.mul_comm d m] at h1
      exact Nat.lt_of_mul_lt_mul_right h1
    have h3 : (k + 1) * d ≤ m * d := Nat.mul_le_mul_right d h2
    rw [Nat.add_mul, Nat.one_mul, Nat.mul_comm m d] at h3
    omega
  refine ⟨_, ((List.range (ceilDiv (c - o) d)).map
      (fun k => statusSlotAt rs us (o + k * d))).filter StatusSlot.isBookable
        |>.map StatusSlot.toTimeSlot, hall, ?_, hslots, ?_, ?_⟩
  · rw [generateTimeSlots_eq_filter, hall]
    rfl
  · intro b hb
    obtain ⟨s, hs, rfl⟩ := List.mem_map.1 hb
    exact hslots s (List.mem_filter.1 hs).1
  · intro hnd
    have hpos : 0 < ceilDiv (c - o) d := by
      rw [hbound 0]
      omega
    refine ⟨statusSlotAt rs us (o + (ceilDiv (c - o) d - 1) * d),
      List.mem_map.2 ⟨ceilDiv (c - o) d - 1, List.mem_range.2 (by omega), rfl⟩,
      o + (ceilDiv (c - o) d - 1) * d, timeToMinutes_minutesToTime _, ?_⟩
    have h1 : ¬ (o + ceilDiv (c - o) d * d < c) := fun h =>
      lt_irrefl _ ((hbound _).2 h)
    have h2 : ceilDiv (c - o) d * d = (ceilDiv (c - o) d - 1) * d + d := by
      conv_lhs => rw [show ceilDiv (c - o) d = (ceilDiv (c - o) d - 1) + 1 by omega]
      rw [Nat.add_mul, Nat.one_mul]
    rcases Nat.lt_or_ge c (o + (ceilDiv (c - o) d - 1) * d + d) with h | h
    · exact h
    · exfalso
      apply hnd
      refine ⟨ceilDiv (c - o) d, ?_⟩
      rw [Nat.mul_comm]
      omega

/-- Witness of C7, amended, on the schedule 08:00-19:00 with 45-minute haircuts. -/
theorem slots_start_before_close_witness :
    ∃ all avail, generateAllTimeSlots "08:00" "19:00" 45 [] [] = some all
      ∧ generateTimeSlots "08:00" "19:00" 45 [] [] = some avail
      ∧ (∀ s ∈ all, ∃ t, timeToMinutes s.time = some t ∧ 480 ≤ t ∧ t < 1140
          ∧ (45 ∣ 1140 - 480 → t + 45 ≤ 1140))
      ∧ (∀ b ∈ avail, ∃ t, timeToMinutes b.time = some t ∧ 480 ≤ t ∧ t < 1140
          ∧ (45 ∣ 1140 - 480 → t + 45 ≤ 1140))
      ∧ (¬ 45 ∣ 1140 - 480 → ∃ s ∈ all, ∃ t, timeToMinutes s.time = some t ∧ 1140 < t + 45) :=
  slots_start_before_close "08:00" "19:00" 45 [] [] 480 1140 (by decide) (by decide)
    (by decide) (by decide)

/-! ## Claims on reservation creation -/

/-- C8 fails on a time the pattern accepts without a leading zero: "9:30" matches the
time pattern and lies within 09:00-18:00 by minutes (540 ≤ 570 < 1080), yet
`createReservation` rejects it with the working-hours failure, because the check
compares the strings. -/
theorem working_hours_check_rejects_unpadded :
    matchesTimePattern "9:30" = true
      ∧ timeToMinutes "09:00" = some 540 ∧ timeToMinutes "9:30" = some 570
      ∧ timeToMinutes "18:00" = some 1080
      ∧ createReservation demoBarbers noonClock [] "user-1"
          { barberId := "barber-1", date := "2026-12-01", time := "9:30" }
        = (.failure 400 "Barber is only available between 09:00 and 18:00", [])
      ∧ (createReservation demoBarbers noonClock [] "user-1"
          { barberId := "barber-1", date := "2026-12-01", time := "09:30" }).1
        = .created "res-1793793600000" "2026-12-01" "09:30" "John Smith" "555-0101" := by
  refine ⟨by decide, by decide, by decide, by decide, by decide, by decide⟩

/-- C9, as stated, fails: a request for a `(barberId, date, time)` that is in the store
is answered with the temporal failure, not the double-booking conflict, when its date
is in the past. -/
theorem taken_slot_rejected_as_past :
    BarberSlotUnique demoReservations
      ∧ (∃ r ∈ demoReservations,
          r.barberId = "barber-1" ∧ r.date = "2024-01-15" ∧ r.time = "10:00")
      ∧ (createReservation demoBarbers noonClock demoReservations "user-9"
          { barberId := "barber-1", date := "2024-01-15", time := "10:00" }).1
        = .failure 400 "Cannot book appointments in the past" := by
  refine ⟨by unfold BarberSlotUnique; decide, by decide, by decide⟩

/-- C9, amended: barber-slot uniqueness is kept by every sequence of creation and
cancellation requests served one after another; a creation request for a
`(barberId, date, time)` that is in the store never succeeds and leaves the store as it
was, and it gets the double-booking conflict (409) when it passes the checks that come
first (validation, date and time not in the past, barber found, working hours). -/
theorem barberSlotUnique_invariant (barbers : List Barber) (store : List Reservation)
    (requests : List Request) (clock : Clock) (clientId : String) (body : CreateBody)
    (h : BarberSlotUnique store) :
    BarberSlotUnique (serveAll barbers store requests)
      ∧ ((∃ r ∈ store, r.barberId = body.barberId ∧ r.date = body.date
            ∧ r.time = body.time) →
          (createReservation barbers clock store clientId body).2 = store
            ∧ (∀ id date time name phone,
                (createReservation barbers clock store clientId body).1
                  ≠ .created id date time name phone)
            ∧ (∀ barber, reachesStoreChecks barbers clock body barber →
                (createReservation barbers clock store clientId body).1
                  = .failure 409 "This time slot is already booked")) := by
  refine ⟨serveAll_barberSlotUnique barbers requests store h, ?_⟩
  rintro ⟨r, hr, hm⟩
  have hrej : (createReservation barbers clock store clientId body).2 = store
      ∧ ∀ id date time name phone,
          (createReservation barbers clock store clientId body).1
            ≠ .created id date time name phone := by
    rcases createReservation_cases barbers clock store clientId body with
      hs | ⟨barber, _, hfree, _, _⟩
    · exact hs
    · exact absurd hm (hfree r hr)
  refine ⟨hrej.1, hrej.2, ?_⟩
  intro barber hreach
  rw [createReservation_double_booking barbers clock store clientId body barber hreach
    ⟨r, hr, hm⟩]

/-- Witness of C9, amended: the sample store, a booking and a cancellation served in
turn, and a request for the taken slot of barber-1. -/
theorem barberSlotUnique_invariant_witness :
    BarberSlotUnique sampleStore
      ∧ BarberSlotUnique (serveAll demoBarbers sampleStore
          [.create noonClock "user-3"
              { barberId := "barber-1", date := "2026-12-01", time := "11:00" },
           .cancel noonClock "user-2" "res-10"])
      ∧ (createReservation demoBarbers noonClock sampleStore "user-3"
          { barberId := "barber-1", date := "2026-12-01", time := "10:00" }).2 = sampleStore
      ∧ (createReservation demoBarbers noonClock sampleStore "user-3"
          { barberId := "barber-1", date := "2026-12-01", time := "10:00" }).1
        = .failure 409 "This time slot is already booked" :=
  have hu : BarberSlotUnique sampleStore := by unfold BarberSlotUnique; decide
  have hthm := barberSlotUnique_invariant demoBarbers sampleStore
    [.create noonClock "user-3"
        { barberId := "barber-1", date := "2026-12-01", time := "11:00" },
     .cancel noonClock "user-2" "res-10"] noonClock "user-3"
    { barberId := "barber-1", date := "2026-12-01", time := "10:00" } hu
  have htaken := hthm.2 (by decide)
  ⟨hu, hthm.1, htaken.1,
    htaken.2.2 (demoBarbers.get ⟨0, by decide⟩) (by unfold reachesStoreChecks; decide)⟩

/-- C10, as stated, fails: a client who holds a reservation at the date and time with
another barber, and asks for a barber whose slot is taken, gets the double-booking
conflict, not the client conflict. -/
theorem held_slot_rejected_as_double_booking :
    ClientSlotUnique sampleStore
      ∧ (∃ r ∈ sampleStore, r.clientId = "user-1" ∧ r.date = "2026-12-01"
          ∧ r.time = "10:00" ∧ r.barberId ≠ "barber-1")
      ∧ (createReservation demoBarbers noonClock sampleStore "user-1"
          { barberId := "barber-1", date := "2026-12-01", time := "10:00" }).1
        = .failure 409 "This time slot is already booked" := by
  refine ⟨by unfold ClientSlotUnique; decide, by decide, by decide⟩

/-- C10, amended: client-slot uniqueness is kept by every sequence of creation and
cancellation requests served one after another; a creation request by a client who
holds a reservation at that `(date, time)` never succeeds and leaves the store as it
was, and it gets the client conflict (409) when it passes the checks that come first
(validation, date and time not in the past, barber found, working hours, and no
reservation in the store for the requested `(barberId, date, time)`). -/
theorem clientSlotUnique_invariant (barbers : List Barber) (store : List Reservation)
    (requests : List Request) (clock : Clock) (clientId : String) (body : CreateBody)
    (h : ClientSlotUnique store) :
    ClientSlotUnique (serveAll barbers store requests)
      ∧ ((∃ r ∈ store, r.clientId = clientId ∧ r.date = body.date ∧ r.time = body.time) →
          (createReservation barbers clock store clientId body).2 = store
            ∧ (∀ id date time name phone,
                (createReservation barbers clock store clientId body).1
                  ≠ .created id date time name phone)
            ∧ (∀ barber, reachesStoreChecks barbers clock body barber →
                (∀ r ∈ store, ¬ (r.barberId = body.barberId ∧ r.date = body.date
                  ∧ r.time = body.time)) →
                (createReservation barbers clock store clientId body).1
                  = .failure 409 "You already have a reservation at this time")) := by
  refine ⟨serveAll_clientSlotUnique barbers requests store h, ?_⟩
  rintro ⟨r, hr, hm⟩
  have hrej : (createReservation barbers clock store clientId body).2 = store
      ∧ ∀ id date time name phone,
          (createReservation barbers clock store clientId body).1
            ≠ .created id date time name phone := by
    rcases createReservation_cases barbers clock store clientId body with
      hs | ⟨barber, _, _, hfree, _⟩
    · exact hs
    · exact absurd hm (hfree r hr)
  refine ⟨hrej.1, hrej.2, ?_⟩
  intro barber hreach hfree
  rw [createReservation_client_conflict barbers clock store clientId body barber hreach
    hfree ⟨r, hr, hm⟩]

/-- Witness of C10, amended: user-1 holds 10:00 on 1 December 2026 with barber-2 and
asks for barber-1, whose slot is free. -/
theorem clientSlotUnique_invariant_witness :
    ClientSlotUnique heldStore
      ∧ ClientSlotUnique (serveAll demoBarbers heldStore
          [.create noonClock "user-1"
              { barberId := "barber-1", date := "2026-12-01", time := "11:00" },
           .cancel noonClock "user-1" "res-11"])
      ∧ (createReservation demoBarbers noonClock heldStore "user-1"
          { barberId := "barber-1", date := "2026-12-01", time := "10:00" }).2
        = heldStore
      ∧ (createReservation demoBarbers noonClock heldStore "user-1"
          { barberId := "barber-1", date := "2026-12-01", time := "10:00" }).1
        = .failure 409 "You already have a reservation at this time" :=
  have hu : ClientSlotUnique heldStore := by unfold ClientSlotUnique; decide
  have hthm := clientSlotUnique_invariant demoBarbers heldStore
    [.create noonClock "user-1"
        { barberId := "barber-1", date := "2026-12-01", time := "11:00" },
     .cancel noonClock "user-1" "res-11"] noonClock "user-1"
    { barberId := "barber-1", date := "2026-12-01", time := "10:00" } hu
  have hheld := hthm.2 (by decide)
  ⟨hu, hthm.1, hheld.1,
    hheld.2.2 (demoBarbers.get ⟨0, by decide⟩) (by unfold reachesStoreChecks; decide)
      (by decide)⟩

/-! ## Lemmas: padded times -/

theorem isDigit_cases (c : Char) (h : isDigit c = true) :
    c = '0' ∨ c = '1' ∨ c = '2' ∨ c = '3' ∨ c = '4' ∨ c = '5' ∨ c = '6' ∨ c = '7'
      ∨ c = '8' ∨ c = '9' := by
  simp only [isDigit, Bool.and_eq_true, decide_eq_true_eq] at h
  obtain ⟨h1, h2⟩ := h
  have e : c = Char.ofNat c.toNat := (Char.ofNat_toNat c).symm
  have l1 : 48 ≤ c.toNat := h1
  have l2 : c.toNat ≤ 57 := h2
  generalize c.toNat = n at e l1 l2
  subst e
  interval_cases n <;> simp

/-- A digit character is the character of its value. -/
theorem digitChar_digitValue (c : Char) (h : isDigit c = true) :
    digitValue c < 10 ∧ Nat.digitChar (digitValue c) = c := by
  rcases isDigit_cases c h with e | e | e | e | e | e | e | e | e | e <;> subst e <;> decide

theorem digitValue_lt_six (c : Char) (h : isDigit05 c = true) : digitValue c < 6 := by
  have hd := isDigit05_isDigit c h
  rcases isDigit_cases c hd with e | e | e | e | e | e | e | e | e | e <;> subst e <;>
    revert h <;> decide

/-- Two padded characters of a number below one hundred. -/
theorem padStart2_natToString_lt (n : Nat) (h : n < 100) :
    padStart2 (natToString n) = [Nat.digitChar (n / 10), Nat.digitChar (n % 10)] := by
  interval_cases n <;> rfl

theorem padStart2_two_digits (a b : Char) (ha : isDigit a = true) (hb : isDigit b = true) :
    padStart2 (natToString (10 * digitValue a + digitValue b)) = [a, b] := by
  obtain ⟨la, ea⟩ := digitChar_digitValue a ha
  obtain ⟨lb, eb⟩ := digitChar_digitValue b hb
  rw [padStart2_natToString_lt _ (by omega)]
  have h1 : (10 * digitValue a + digitValue b) / 10 = digitValue a := by omega
  have h2 : (10 * digitValue a + digitValue b) % 10 = digitValue b := by omega
  rw [h1, h2, ea, eb]

/-- The generated time for hour `h` and minute `mm`, character by character. -/
theorem minutesToTime_data (h mm : Nat) (hh : h < 100) (hm : mm < 60) :
    minutesToTime (h * 60 + mm)
      = ⟨[Nat.digitChar (h / 10), Nat.digitChar (h % 10), ':', Nat.digitChar (mm / 10),
          Nat.digitChar (mm % 10)]⟩ := by
  have e1 : (h * 60 + mm) / 60 = h := by omega
  have e2 : (h * 60 + mm) % 60 = mm := by omega
  simp only [minutesToTime, e1, e2, padStart2_natToString_lt h hh,
    padStart2_natToString_lt mm (by omega)]
  rfl

/-- A string `ab:cd` of digits with `c` at most 5 is the generated time of its minutes. -/
theorem minutesToTime_of_chars (h1 h2 m1 m2 : Char) (a1 : isDigit h1 = true)
    (a2 : isDigit h2 = true) (b1 : isDigit05 m1 = true) (b2 : isDigit m2 = true) :
    minutesToTime ((10 * digitValue h1 + digitValue h2) * 60
        + (10 * digitValue m1 + digitValue m2))
      = ⟨[h1, h2, ':', m1, m2]⟩ := by
  have c1 := digitValue_lt_six m1 b1
  have c2 := (digitChar_digitValue m2 b2).1
  have e1 : ((10 * digitValue h1 + digitValue h2) * 60
      + (10 * digitValue m1 + digitValue m2)) / 60 = 10 * digitValue h1 + digitValue h2 := by
    omega
  have e2 : ((10 * digitValue h1 + digitValue h2) * 60
      + (10 * digitValue m1 + digitValue m2)) % 60 = 10 * digitValue m1 + digitValue m2 := by
    omega
  simp only [minutesToTime, e1, e2, padStart2_two_digits h1 h2 a1 a2,
    padStart2_two_digits m1 m2 (isDigit05_isDigit m1 b1) b2]
  rfl

/-- The shape of a zero-padded time: four digits around a colon, the hour below 24 and
the minute below 60. -/
theorem isPaddedTime_chars (t : String) (h : isPaddedTime t = true) :
    ∃ h1 h2 m1 m2 : Char, t = ⟨[h1, h2, ':', m1, m2]⟩ ∧ isDigit h1 = true
      ∧ isDigit h2 = true ∧ isDigit05 m1 = true ∧ isDigit m2 = true
      ∧ 10 * digitValue h1 + digitValue h2 < 24 := by
  obtain ⟨l⟩ := t
  rcases l with _ | ⟨h1, _ | ⟨h2, _ | ⟨c, _ | ⟨m1, _ | ⟨m2, _ | ⟨x, l⟩⟩⟩⟩⟩⟩ <;>
    simp only [isPaddedTime, Bool.false_eq_true] at h
  simp only [Bool.and_eq_true, beq_iff_eq] at h
  obtain ⟨⟨⟨hh, hc⟩, hm1⟩, hm2⟩ := h
  subst hc
  refine ⟨h1, h2, m1, m2, rfl, ?_⟩
  rcases Bool.or_eq_true_iff.1 hh with hh | hh
  · simp only [Bool.and_eq_true, Bool.or_eq_true, beq_iff_eq] at hh
    obtain ⟨e, d2⟩ := hh
    have l2 := (digitChar_digitValue h2 d2).1
    rcases e with e | e <;> subst e
    · exact ⟨by decide, d2, hm1, hm2, by
        have : digitValue '0' = 0 := by decide
        omega⟩
    · exact ⟨by decide, d2, hm1, hm2, by
        have : digitValue '1' = 1 := by decide
        omega⟩
  · simp only [Bool.and_eq_true, beq_iff_eq, decide_eq_true_eq] at hh
    obtain ⟨⟨e, l1⟩, l2⟩ := hh
    subst e
    have d2 : isDigit h2 = true := by
      simp only [isDigit, Bool.and_eq_true, decide_eq_true_eq]
      exact ⟨l1, le_trans l2 (by decide)⟩
    refine ⟨by decide, d2, hm1, hm2, ?_⟩
    have hv : digitValue h2 ≤ 3 := by
      rcases isDigit_cases h2 d2 with e | e | e | e | e | e | e | e | e | e <;> subst e <;>
        revert l2 <;> decide
    have : digitValue '2' = 2 := by decide
    omega

/-- A zero-padded time is the generated time of some hour below 24 and minute below 60. -/
theorem isPaddedTime_eq_minutesToTime (t : String) (h : isPaddedTime t = true) :
    ∃ hr mm, hr < 24 ∧ mm < 60 ∧ t = minutesToTime (hr * 60 + mm) := by
  obtain ⟨h1, h2, m1, m2, rfl, a1, a2, b1, b2, hlt⟩ := isPaddedTime_chars t h
  have c1 := digitValue_lt_six m1 b1
  have c2 := (digitChar_digitValue m2 b2).1
  exact ⟨10 * digitValue h1 + digitValue h2, 10 * digitValue m1 + digitValue m2, hlt,
    by omega, (minutesToTime_of_chars h1 h2 m1 m2 a1 a2 b1 b2).symm⟩

theorem hour_chars_padded : ∀ h < 24,
    ((((Nat.digitChar (h / 10) == '0' || Nat.digitChar (h / 10) == '1')
          && isDigit (Nat.digitChar (h % 10)))
        || (Nat.digitChar (h / 10) == '2' && decide ('0' ≤ Nat.digitChar (h % 10))
          && decide (Nat.digitChar (h % 10) ≤ '3'))) = true) := by
  decide

theorem minute_chars_padded : ∀ mm < 60,
    (isDigit05 (Nat.digitChar (mm / 10)) = true ∧ isDigit (Nat.digitChar (mm % 10)) = true) := by
  decide

/-- A generated time below 24:00 is a zero-padded time. -/
theorem isPaddedTime_minutesToTime (m : Nat) (h : m < 1440) :
    isPaddedTime (minutesToTime m) = true := by
  have e : m = (m / 60) * 60 + m % 60 := by omega
  have hh : m / 60 < 24 := by omega
  have hm : m % 60 < 60 := Nat.mod_lt _ (by decide)
  rw [e, minutesToTime_data (m / 60) (m % 60) (by omega) hm]
  simp only [isPaddedTime, Bool.and_eq_true]
  exact ⟨⟨⟨hour_chars_padded _ hh, by decide⟩, (minute_chars_padded _ hm).1⟩,
    (minute_chars_padded _ hm).2⟩

/-- The code's display template agrees with the wording of the spec on every hour. -/
theorem displayTime_eq_displaySpec (h mm : Nat) :
    displayTime (some h) (some mm) = displaySpec h mm := by
  unfold displayTime displaySpec
  by_cases h0 : h = 0
  · subst h0
    rfl
  · by_cases h12 : h ≤ 12
    · by_cases he : h = 12
      · subst he
        rfl
      · have hlt : h < 12 := by omega
        have hge : ¬ h ≥ 12 := by omega
        have hgt : ¬ h > 12 := by omega
        simp [h0, h12, hlt, hge, hgt, numToString]
    · have hlt : ¬ h < 12 := by omega
      have hge : h ≥ 12 := by omega
      have hgt : h > 12 := by omega
      simp [h0, h12, hlt, hge, hgt, numToString]

/-! ## Claims on time arithmetic -/

/-- The two shapes the time pattern accepts: a zero-padded time, or a one-digit hour. -/
theorem matchesTimePattern_cases (t : String) (h : matchesTimePattern t = true) :
    isPaddedTime t = true
      ∨ ∃ hr m1 m2 : Char, t = ⟨[hr, ':', m1, m2]⟩ ∧ isDigit hr = true
          ∧ isDigit05 m1 = true ∧ isDigit m2 = true := by
  obtain ⟨l⟩ := t
  rcases l with _ | ⟨h1, _ | ⟨h2, _ | ⟨c, _ | ⟨m1, _ | ⟨m2, _ | ⟨x, l⟩⟩⟩⟩⟩⟩ <;>
    simp only [matchesTimePattern, Bool.false_eq_true] at h
  · right
    simp only [Bool.and_eq_true, beq_iff_eq] at h
    obtain ⟨⟨⟨a, e⟩, b1⟩, b2⟩ := h
    subst e
    exact ⟨h1, c, m1, rfl, a, b1, b2⟩
  · left
    simpa only [isPaddedTime] using h

/-- C18, as stated, fails: "9:30" is accepted by the time pattern, and converting it to
minutes and back gives "09:30". -/
theorem roundtrip_fails_on_unpadded_time :
    matchesTimePattern "9:30" = true
      ∧ ∃ m, timeToMinutes "9:30" = some m ∧ minutesToTime m = "09:30"
          ∧ minutesToTime m ≠ "9:30" := by
  exact ⟨by decide, 570, by decide, by decide, by decide⟩

/-- C18, amended: for every time string the time pattern accepts, `timeToMinutes` gives a
number of minutes below 1440 and `minutesToTime` of it is the zero-padded form of the
string; so `minutesToTime (timeToMinutes t) = t` for every zero-padded `HH:MM` time. -/
theorem minutesToTime_timeToMinutes (t : String) (h : matchesTimePattern t = true) :
    ∃ m, timeToMinutes t = some m ∧ m < 1440 ∧ minutesToTime m = zeroPadTime t
      ∧ (isPaddedTime t = true → minutesToTime m = t) := by
  rcases matchesTimePattern_cases t h with hp | ⟨hr, m1, m2, rfl, a, b1, b2⟩
  · obtain ⟨hh, mm, l1, l2, rfl⟩ := isPaddedTime_eq_minutesToTime t hp
    have hlen : (minutesToTime (hh * 60 + mm)).data.length = 5 := by
      rw [minutesToTime_data hh mm (by omega) l2]
      rfl
    refine ⟨hh * 60 + mm, timeToMinutes_minutesToTime _, by omega, ?_, fun _ => rfl⟩
    simp [zeroPadTime, hlen]
  · have c1 := digitValue_lt_six m1 b1
    have c2 := (digitChar_digitValue m2 b2).1
    have c3 := (digitChar_digitValue hr a).1
    have z : digitValue '0' = 0 := by decide
    have e1 : splitColon [hr, ':', m1, m2] = [[hr], [m1, m2]] := by
      simp [splitColon, isDigit_ne_colon _ a, isDigit_ne_colon _ (isDigit05_isDigit _ b1),
        isDigit_ne_colon _ b2]
    have e2 : timeToMinutes ⟨[hr, ':', m1, m2]⟩
        = some (digitValue hr * 60 + (10 * digitValue m1 + digitValue m2)) := by
      simp [timeToMinutes, splitHoursMinutes, e1, jsNumber, a, isDigit05_isDigit _ b1, b2]
    have e3 := minutesToTime_of_chars '0' hr m1 m2 (by decide) a b1 b2
    rw [z, Nat.mul_zero, Nat.zero_add] at e3
    refine ⟨_, e2, by omega, ?_, ?_⟩
    · rw [e3]
      simp [zeroPadTime]
    · intro hp
      exact absurd hp (by simp [isPaddedTime])

/-- Witness of C18, amended, on the unpadded time "9:30". -/
theorem minutesToTime_timeToMinutes_witness :
    matchesTimePattern "9:30" = true
      ∧ ∃ m, timeToMinutes "9:30" = some m ∧ m < 1440 ∧ minutesToTime m = zeroPadTime "9:30"
          ∧ (isPaddedTime "9:30" = true → minutesToTime m = "9:30") :=
  ⟨by decide, minutesToTime_timeToMinutes "9:30" (by decide)⟩

/-- C19: for every `m` below 1440, `minutesToTime m` is a zero-padded five-character
`HH:MM` string, with `HH` in 00..23 and `MM` in 00..59, and `timeToMinutes` reads `m`
back from it. -/
theorem timeToMinutes_minutesToTime_padded (m : Nat) (h : m < 1440) :
    isPaddedTime (minutesToTime m) = true ∧ (minutesToTime m).data.length = 5
      ∧ (∃ hr mm, hr < 24 ∧ mm < 60 ∧ m = hr * 60 + mm
          ∧ (minutesToTime m).data = padStart2 (natToString hr) ++ ':' :: padStart2 (natToString mm)
          ∧ (padStart2 (natToString hr)).length = 2 ∧ (padStart2 (natToString mm)).length = 2)
      ∧ timeToMinutes (minutesToTime m) = some m := by
  have e : m = (m / 60) * 60 + m % 60 := by omega
  have hh : m / 60 < 24 := by omega
  have hm : m % 60 < 60 := Nat.mod_lt _ (by decide)
  refine ⟨isPaddedTime_minutesToTime m h, ?_, ?_, timeToMinutes_minutesToTime m⟩
  · rw [e, minutesToTime_data (m / 60) (m % 60) (by omega) hm]
    rfl
  · refine ⟨m / 60, m % 60, hh, hm, e, rfl, ?_, ?_⟩
    · rw [padStart2_natToString_lt _ (by omega)]
      rfl
    · rw [padStart2_natToString_lt _ (by omega)]
      rfl

/-- Witness of C19 at minute 570, the time "09:30". -/
theorem timeToMinutes_minutesToTime_padded_witness :
    (570 < 1440) ∧ isPaddedTime (minutesToTime 570) = true
      ∧ (minutesToTime 570).data.length = 5
      ∧ (∃ hr mm, hr < 24 ∧ mm < 60 ∧ 570 = hr * 60 + mm
          ∧ (minutesToTime 570).data
              = padStart2 (natToString hr) ++ ':' :: padStart2 (natToString mm)
          ∧ (padStart2 (natToString hr)).length = 2 ∧ (padStart2 (natToString mm)).length = 2)
      ∧ timeToMinutes (minutesToTime 570) = some 570 :=
  ⟨by decide, timeToMinutes_minutesToTime_padded 570 (by decide)⟩

/-- C20: for every zero-padded time `HH:MM`, with hour `h` in 0..23 and minute `mm` in
0..59, `formatTimeForDisplay` returns the text `H:MM P` of the spec: `H` is 12 for hour
0, `h` for hours 1 to 12 and `h - 12` for hours 13 to 23, `MM` is the minute padded to
two digits, `P` is AM before noon and PM from noon; 00:05 gives "12:05 AM" and 12:00
gives "12:00 PM". -/
theorem formatTimeForDisplay_spec (t : String) (h : isPaddedTime t = true) :
    (∃ hr mm, hr < 24 ∧ mm < 60 ∧ timeToMinutes t = some (hr * 60 + mm)
        ∧ formatTimeForDisplay t = some (displaySpec hr mm))
      ∧ formatTimeForDisplay "00:05" = some "12:05 AM"
      ∧ formatTimeForDisplay "12:00" = some "12:00 PM" := by
  refine ⟨?_, by decide, by decide⟩
  obtain ⟨hr, mm, l1, l2, rfl⟩ := isPaddedTime_eq_minutesToTime t h
  refine ⟨hr, mm, l1, l2, timeToMinutes_minutesToTime _, ?_⟩
  rw [formatTimeForDisplay_minutesToTime, displayTime_eq_displaySpec]
  have e1 : (hr * 60 + mm) / 60 = hr := by omega
  have e2 : (hr * 60 + mm) % 60 = mm := by omega
  rw [e1, e2]

/-- Witness of C20 at "17:30", displayed as "5:30 PM". -/
theorem formatTimeForDisplay_spec_witness :
    isPaddedTime "17:30" = true
      ∧ displaySpec 17 30 = "5:30 PM"
      ∧ (∃ hr mm, hr < 24 ∧ mm < 60 ∧ timeToMinutes "17:30" = some (hr * 60 + mm)
          ∧ formatTimeForDisplay "17:30" = some (displaySpec hr mm))
      ∧ formatTimeForDisplay "00:05" = some "12:05 AM"
      ∧ formatTimeForDisplay "12:00" = some "12:00 PM" :=
  ⟨by decide, by decide, formatTimeForDisplay_spec "17:30" (by decide)⟩

/-! ## Claims on the order of the checks -/

theorem find?_isSome_eq_any (store : List Reservation) (p : Reservation → Bool) :
    (store.find? p).isSome = store.any p := by
  induction store with
  | nil => rfl
  | cons r rest ih =>
    by_cases h : p r = true
    · simp [List.find?, h]
    · simp [List.find?, h, ih]

/-- The handler runs its seven tests in the order of the spec: its response is the
failure of the first test that rejects, with the store as it was, and the created
reservation, appended to the store, when no test rejects. -/
theorem createReservation_first_failed_test (barbers : List Barber) (clock : Clock)
    (store : List Reservation) (clientId : String) (body : CreateBody) :
    (createReservation barbers clock store clientId body).1
        = firstFailureResponse (Precondition.tested barbers clock store clientId body)
            barbers clock clientId body
      ∧ ((createReservation barbers clock store clientId body).2
          = if (Precondition.inOrder.any
                (Precondition.tested barbers clock store clientId body)) then store
            else store ++ [newReservation clock clientId body]) := by
  refine ⟨?_, ?_⟩
  all_goals
    cases hv : validateCreate body
    case some field =>
      simp [createReservation, firstFailureResponse, Precondition.inOrder,
      Precondition.tested, Precondition.failure, find?_isSome_eq_any, newReservation, *]
    cases h1 : isDateInPast clock body.date
    case true =>
      simp [createReservation, firstFailureResponse, Precondition.inOrder,
      Precondition.tested, Precondition.failure, find?_isSome_eq_any, newReservation, *]
    cases h2 : (body.date == clock.isoDate && isTimeInPast clock body.time)
    case true =>
      simp [createReservation, firstFailureResponse, Precondition.inOrder,
      Precondition.tested, Precondition.failure, find?_isSome_eq_any, newReservation, *]
    cases hb : barbers.find? (fun b => b.id == body.barberId)
    case none =>
      simp [createReservation, firstFailureResponse, Precondition.inOrder,
      Precondition.tested, Precondition.failure, find?_isSome_eq_any, newReservation, *]
    rename_i barber
    cases h3 : outsideWorkingHours barber body.time
    case true =>
      simp [createReservation, firstFailureResponse, Precondition.inOrder,
      Precondition.tested, Precondition.failure, find?_isSome_eq_any, newReservation, *]
    cases h4 : store.any (fun res => res.barberId == body.barberId
      && res.date == body.date && res.time == body.time)
    case true =>
      simp [createReservation, firstFailureResponse, Precondition.inOrder,
      Precondition.tested, Precondition.failure, find?_isSome_eq_any, newReservation, *]
    cases h5 : store.any (fun res => res.clientId == clientId
      && res.date == body.date && res.time == body.time)
    case true =>
      simp [createReservation, firstFailureResponse, Precondition.inOrder,
      Precondition.tested, Precondition.failure, find?_isSome_eq_any, newReservation, *]
    simp [createReservation, firstFailureResponse, Precondition.inOrder,
      Precondition.tested, Precondition.failure, find?_isSome_eq_any, newReservation, *]

/-- C11 fails where the handler's tests differ from the preconditions as the spec words
them. On 4 November 2026 at 00:45 in a zone at UTC, the request for that day at '0:30'
violates precondition 3 (00:30 is before 00:45) and precondition 5 (00:30 is before the
opening at 09:00), so the temporal failure is due, yet the reservation is created. At
noon the request for 1 December 2026 at '9:30' violates no precondition, yet the
working-hours failure is reported. The two examples of the claim hold: with 6 and 7
violated the double-booking conflict is reported, with 2 and 4 violated the temporal
failure. Wherever the handler's seven tests decide the preconditions as the spec words
them, the response is the failure of the earliest violated precondition, or the created
reservation when none is violated. -/
theorem first_failure_not_reported :
    (smallHoursClock = clockAt 1793753100000 0
        ∧ localDate 1793753100000 0 0 = "2026-11-04"
        ∧ Precondition.inOrder.filter
            (Precondition.violated demoBarbers "2026-11-04" 45 [] "user-1"
              { barberId := "barber-1", date := "2026-11-04", time := "0:30" })
          = [.timeNotPast, .withinWorkingHours]
        ∧ firstFailureResponse
            (Precondition.violated demoBarbers "2026-11-04" 45 [] "user-1"
              { barberId := "barber-1", date := "2026-11-04", time := "0:30" })
            demoBarbers smallHoursClock "user-1"
            { barberId := "barber-1", date := "2026-11-04", time := "0:30" }
          = .failure 400 "Cannot book appointments in the past"
        ∧ (createReservation demoBarbers smallHoursClock [] "user-1"
            { barberId := "barber-1", date := "2026-11-04", time := "0:30" }).1
          = .created "res-1793753100000" "2026-11-04" "0:30" "John Smith" "555-0101")
      ∧ (noonClock = clockAt 1793793600000 0
        ∧ localDate 1793793600000 0 0 = "2026-11-04"
        ∧ Precondition.inOrder.filter
            (Precondition.violated demoBarbers "2026-11-04" 720 [] "user-1"
              { barberId := "barber-1", date := "2026-12-01", time := "9:30" })
          = []
        ∧ firstFailureResponse
            (Precondition.violated demoBarbers "2026-11-04" 720 [] "user-1"
              { barberId := "barber-1", date := "2026-12-01", time := "9:30" })
            demoBarbers noonClock "user-1"
            { barberId := "barber-1", date := "2026-12-01", time := "9:30" }
          = .created "res-1793793600000" "2026-12-01" "9:30" "John Smith" "555-0101"
        ∧ createReservation demoBarbers noonClock [] "user-1"
            { barberId := "barber-1", date := "2026-12-01", time := "9:30" }
          = (.failure 400 "Barber is only available between 09:00 and 18:00", []))
      ∧ (Precondition.inOrder.filter
            (Precondition.violated demoBarbers "2026-11-04" 720 sampleStore "user-1"
              { barberId := "barber-1", date := "2026-12-01", time := "10:00" })
          = [.slotFree, .clientFree]
        ∧ (createReservation demoBarbers noonClock sampleStore "user-1"
            { barberId := "barber-1", date := "2026-12-01", time := "10:00" }).1
          = .failure 409 "This time slot is already booked")
      ∧ (Precondition.inOrder.filter
            (Precondition.violated demoBarbers "2026-11-04" 720 sampleStore "user-1"
              { barberId := "barber-9", date := "2024-01-15", time := "10:00" })
          = [.dateNotPast, .barberExists]
        ∧ (createReservation demoBarbers noonClock sampleStore "user-1"
            { barberId := "barber-9", date := "2024-01-15", time := "10:00" }).1
          = .failure 400 "Cannot book appointments in the past")
      ∧ (∀ (barbers : List Barber) (clock : Clock) (today : String) (nowMinutes : Nat)
          (store : List Reservation) (clientId : String) (body : CreateBody),
          (∀ precondition,
            Precondition.violated barbers today nowMinutes store clientId body precondition
              = Precondition.tested barbers clock store clientId body precondition) →
          (createReservation barbers clock store clientId body).1
              = firstFailureResponse
                  (Precondition.violated barbers today nowMinutes store clientId body)
                  barbers clock clientId body
            ∧ (createReservation barbers clock store clientId body).2
              = if (Precondition.inOrder.any
                    (Precondition.violated barbers today nowMinutes store clientId body))
                then store
                else store ++ [newReservation clock clientId body]) := by
  refine ⟨⟨by decide, by decide, by decide, by decide, by decide⟩,
    ⟨by decide, by decide, by decide, by decide, by decide⟩,
    ⟨by decide, by decide⟩, ⟨by decide, by decide⟩, ?_⟩
  intro barbers clock today nowMinutes store clientId body hagree
  have heq : Precondition.violated barbers today nowMinutes store clientId body
      = Precondition.tested barbers clock store clientId body := funext hagree
  rw [heq]
  exact createReservation_first_failed_test barbers clock store clientId body

/-! ## Claims on the temporal checks -/

/-- C12 fails west of UTC: at 17:00 UTC on 4 November 2026 in a zone five hours behind
UTC the local date is 2026-11-04 and the local time is noon, yet `isDateInPast` of that
date is true: the date is read as midnight UTC (1793750400000), which is before local
midnight of the same date (1793768400000). In the zone at UTC the same call is false. -/
theorem isDateInPast_today_west_of_utc :
    localDate 1793811600000 (-300) 0 = "2026-11-04"
      ∧ (clockAt 1793811600000 (-300)).hours = 12
      ∧ dateParse "2026-11-04" = some 1793750400000
      ∧ (clockAt 1793811600000 (-300)).todayMidnight = 1793768400000
      ∧ isDateInPast (clockAt 1793811600000 (-300)) (localDate 1793811600000 (-300) 0) = true
      ∧ isDateInPast (clockAt 1793811600000 0) (localDate 1793811600000 0 0) = false := by
  refine ⟨by decide, by decide, by decide, by decide, by decide, by decide⟩

/-- C13 fails on a time the pattern accepts without a leading zero: at 10:00 the time
"9:30" is 570 minutes, before the current 600 minutes, yet `isTimeInPast` is false,
because the strings are compared; for "09:30" it is true. -/
theorem isTimeInPast_unpadded_time :
    matchesTimePattern "9:30" = true
      ∧ (clockAt 1793786400000 0).hours = 10 ∧ (clockAt 1793786400000 0).minutes = 0
      ∧ timeToMinutes "9:30" = some 570
      ∧ 570 < 60 * (clockAt 1793786400000 0).hours + (clockAt 1793786400000 0).minutes
      ∧ isTimeInPast (clockAt 1793786400000 0) "9:30" = false
      ∧ isTimeInPast (clockAt 1793786400000 0) "09:30" = true := by
  refine ⟨by decide, by decide, by decide, by decide, by decide, by decide, by decide⟩

/-- C14 fails in both parts. At 00:45 on 4 November 2026 (zone at UTC) a request for
today at "0:30", fifteen minutes ago, is created. At 20:00 local time on 4 November 2026
in a zone five hours behind UTC a request for tomorrow, 2026-11-05, at "10:00" with the
barber found, the time within working hours and an empty store is rejected as in the
past. -/
theorem temporal_checks_fail :
    (localDate 1793753100000 0 0 = "2026-11-04"
        ∧ (clockAt 1793753100000 0).hours = 0 ∧ (clockAt 1793753100000 0).minutes = 45
        ∧ matchesTimePattern "0:30" = true ∧ timeToMinutes "0:30" = some 30
        ∧ createReservation demoBarbers (clockAt 1793753100000 0) [] "user-1"
            { barberId := "barber-1", date := "2026-11-04", time := "0:30" }
          = (.created "res-1793753100000" "2026-11-04" "0:30" "John Smith" "555-0101",
             [{ id := "res-1793753100000", clientId := "user-1", barberId := "barber-1",
                date := "2026-11-04", time := "0:30" }]))
      ∧ (localDate 1793840400000 (-300) 0 = "2026-11-04"
        ∧ localDate 1793840400000 (-300) 1 = "2026-11-05"
        ∧ (clockAt 1793840400000 (-300)).hours = 20
        ∧ timeToMinutes "10:00" = some 600
        ∧ (demoBarbers.find? (fun b => b.id == "barber-1")).isSome = true
        ∧ (∀ barber ∈ demoBarbers, outsideWorkingHours barber "10:00" = false)
        ∧ createReservation demoBarbers (clockAt 1793840400000 (-300)) [] "user-1"
            { barberId := "barber-1", date := "2026-11-05", time := "10:00" }
          = (.failure 400 "Cannot book appointments in the past", [])) := by
  refine ⟨⟨by decide, by decide, by decide, by decide, by decide, by decide⟩,
    ⟨by decide, by decide, by decide, by decide, by decide, by decide, by decide⟩⟩

/-! ## Lemmas: database mode -/

theorem find?_isSome_false_of_free (store : List Reservation) (p : Reservation → Bool)
    (h : ∀ r ∈ store, p r = false) : (store.find? p).isSome = false := by
  rw [find?_isSome_eq_any, Bool.eq_false_iff]
  intro hany
  obtain ⟨r, hr, hp⟩ := List.any_eq_true.1 hany
  rw [h r hr] at hp
  exact absurd hp (by decide)

/-- Turns of the first task in a row resume it on the tables. -/
theorem run_first_turns (n : Nat) : ∀ (db : Database) (first second : CreateTask)
    (rest : List Bool),
    Race.run ⟨db, first, second⟩ (List.replicate n true ++ rest)
      = Race.run ⟨(CreateTask.resume n db first).1, (CreateTask.resume n db first).2, second⟩
          rest := by
  induction n with
  | zero => intro db first second rest; rfl
  | succ n ih =>
    intro db first second rest
    have e : Race.run ⟨db, first, second⟩ (List.replicate (n + 1) true ++ rest)
        = Race.run ⟨(first.step db).1, (first.step db).2, second⟩
            (List.replicate n true ++ rest) := by
      simp [Race.run, List.replicate_succ, Race.turn]
    rw [e, ih]
    rfl

/-- Turns of the second task in a row resume it on the tables. -/
theorem run_second_turns (n : Nat) : ∀ (db : Database) (first second : CreateTask)
    (rest : List Bool),
    Race.run ⟨db, first, second⟩ (List.replicate n false ++ rest)
      = Race.run ⟨(CreateTask.resume n db second).1, first,
          (CreateTask.resume n db second).2⟩ rest := by
  induction n with
  | zero => intro db first second rest; rfl
  | succ n ih =>
    intro db first second rest
    have e : Race.run ⟨db, first, second⟩ (List.replicate (n + 1) false ++ rest)
        = Race.run ⟨(second.step db).1, first, (second.step db).2⟩
            (List.replicate n false ++ rest) := by
      simp [Race.run, List.replicate_succ, Race.turn]
    rw [e, ih]
    rfl

/-- Serving the first request to its response and then the second is resuming each six
times in a row. -/
theorem run_oneAfterAnother (db : Database) (first second : CreateTask) :
    Race.run ⟨db, first, second⟩ oneAfterAnother
      = ⟨(CreateTask.resume 6 (CreateTask.resume 6 db first).1 second).1,
         (CreateTask.resume 6 db first).2,
         (CreateTask.resume 6 (CreateTask.resume 6 db first).1 second).2⟩ := by
  have e : oneAfterAnother = List.replicate 6 true ++ (List.replicate 6 false ++ []) := rfl
  rw [e, run_first_turns, run_second_turns]
  rfl

/-- A request served alone either leaves the tables as they were and is not created, or
passes every check on the tables it started from and adds its row. -/
theorem resume_cases (db : Database) (task : CreateTask) (h : task.stage = .received) :
    ((CreateTask.resume 6 db task).1 = db
        ∧ (CreateTask.resume 6 db task).2.succeeded = false)
      ∨ ((∀ r ∈ db.reservations, ¬ (r.barberId = task.body.barberId
            ∧ r.date = task.body.date ∧ r.time = task.body.time))
          ∧ (CreateTask.resume 6 db task).1
              = { db with reservations := db.reservations ++ [task.row db.nextId],
                          nextId := db.nextId + 1 }
          ∧ (CreateTask.resume 6 db task).2.succeeded = true) := by
  obtain ⟨clock, clientId, body, stage⟩ := task
  simp only at h
  subst h
  cases hv : validateCreate body
  case some field =>
    left
    simp [CreateTask.resume, CreateTask.step, CreateTask.succeeded, *]
  cases h1 : isDateInPast clock body.date
  case true =>
    left
    simp [CreateTask.resume, CreateTask.step, CreateTask.succeeded, *]
  cases h2 : (body.date == clock.isoDate && isTimeInPast clock body.time)
  case true =>
    left
    simp [CreateTask.resume, CreateTask.step, CreateTask.succeeded, *]
  cases hb : db.barbers.find? (fun b => b.id == body.barberId)
  case none =>
    left
    simp [CreateTask.resume, CreateTask.step, CreateTask.succeeded, *]
  rename_i barber
  cases h3 : outsideWorkingHours barber body.time
  case true =>
    left
    simp [CreateTask.resume, CreateTask.step, CreateTask.succeeded, *]
  cases h4 : (db.reservations.find? (fun res => res.barberId == body.barberId
    && res.date == body.date && res.time == body.time)).isSome
  case true =>
    left
    simp [CreateTask.resume, CreateTask.step, CreateTask.succeeded, *]
  cases h5 : (db.reservations.find? (fun res => res.clientId == clientId
    && res.date == body.date && res.time == body.time)).isSome
  case true =>
    left
    simp [CreateTask.resume, CreateTask.step, CreateTask.succeeded, *]
  right
  refine ⟨?_, ?_, ?_⟩
  · intro r hr hm
    have : (db.reservations.find? (fun res => res.barberId == body.barberId
        && res.date == body.date && res.time == body.time)).isSome = true := by
      rw [List.find?_isSome]
      exact ⟨r, hr, by simp [hm.1, hm.2.1, hm.2.2]⟩
    rw [h4] at this
    exact absurd this (by decide)
  · simp [CreateTask.resume, CreateTask.step, CreateTask.row, *]
  · simp [CreateTask.resume, CreateTask.step, CreateTask.succeeded, *]

/-- A request served alone that passes the first checks and asks for a taken slot gets
the double-booking conflict. -/
theorem resume_slot_taken (db : Database) (task : CreateTask) (barber : Barber)
    (h : task.stage = .received)
    (hreach : reachesStoreChecks db.barbers task.clock task.body barber)
    (htaken : ∃ r ∈ db.reservations, r.barberId = task.body.barberId
      ∧ r.date = task.body.date ∧ r.time = task.body.time) :
    (CreateTask.resume 6 db task).2.stage
      = .responded (.failure 409 "This time slot is already booked") := by
  obtain ⟨clock, clientId, body, stage⟩ := task
  simp only at h
  subst h
  obtain ⟨hv, h1, h2, hb, h3⟩ := hreach
  obtain ⟨r, hr, hm⟩ := htaken
  have h4 : (db.reservations.find? (fun res => res.barberId == body.barberId
      && res.date == body.date && res.time == body.time)).isSome = true := by
    rw [List.find?_isSome]
    exact ⟨r, hr, by simp [hm.1, hm.2.1, hm.2.2]⟩
  simp only at hv h1 h2 hb h3
  simp [CreateTask.resume, CreateTask.step, *]

/-- A request that passes every check on the tables stands before its insert after four
resumptions, the tables untouched. -/
theorem resume_checks (db : Database) (task : CreateTask) (barber : Barber)
    (h : task.stage = .received)
    (hreach : reachesStoreChecks db.barbers task.clock task.body barber)
    (hslot : ∀ r ∈ db.reservations, ¬ (r.barberId = task.body.barberId
      ∧ r.date = task.body.date ∧ r.time = task.body.time))
    (hclient : ∀ r ∈ db.reservations, ¬ (r.clientId = task.clientId
      ∧ r.date = task.body.date ∧ r.time = task.body.time)) :
    CreateTask.resume 4 db task = (db, { task with stage := .insertQuery barber }) := by
  obtain ⟨clock, clientId, body, stage⟩ := task
  simp only at h
  subst h
  obtain ⟨hv, h1, h2, hb, h3⟩ := hreach
  have h4 : (db.reservations.find? (fun res => res.barberId == body.barberId
      && res.date == body.date && res.time == body.time)).isSome = false := by
    apply find?_isSome_false_of_free
    intro r hr
    rw [Bool.eq_false_iff]
    intro hp
    simp only [Bool.and_eq_true, beq_iff_eq] at hp
    exact hslot r hr ⟨hp.1.1, hp.1.2, hp.2⟩
  have h5 : (db.reservations.find? (fun res => res.clientId == clientId
      && res.date == body.date && res.time == body.time)).isSome = false := by
    apply find?_isSome_false_of_free
    intro r hr
    rw [Bool.eq_false_iff]
    intro hp
    simp only [Bool.and_eq_true, beq_iff_eq] at hp
    exact hclient r hr ⟨hp.1.1, hp.1.2, hp.2⟩
  simp only at hv h1 h2 hb h3
  simp [CreateTask.resume, CreateTask.step, *]

/-- A request that stands before its insert adds its row and is answered as created,
whatever the tables hold by then. -/
theorem resume_insert (db : Database) (task : CreateTask) (barber : Barber)
    (h : task.stage = .insertQuery barber) :
    (CreateTask.resume 2 db task).1
        = { db with reservations := db.reservations ++ [task.row db.nextId],
                    nextId := db.nextId + 1 }
      ∧ (CreateTask.resume 2 db task).2.succeeded = true := by
  obtain ⟨clock, clientId, body, stage⟩ := task
  simp only at h
  subst h
  constructor
  · simp [CreateTask.resume, CreateTask.step, CreateTask.row]
  · simp [CreateTask.resume, CreateTask.step, CreateTask.succeeded]

/-- The schedule in which both requests pass their checks before either inserts, turn by
turn. -/
theorem run_checksBeforeInserts (db : Database) (first second : CreateTask) :
    Race.run ⟨db, first, second⟩ checksBeforeInserts
      = ⟨(CreateTask.resume 2 (CreateTask.resume 2 (CreateTask.resume 4
              (CreateTask.resume 4 db first).1 second).1
            (CreateTask.resume 4 db first).2).1
            (CreateTask.resume 4 (CreateTask.resume 4 db first).1 second).2).1,
         (CreateTask.resume 2 (CreateTask.resume 4 (CreateTask.resume 4 db first).1 second).1
            (CreateTask.resume 4 db first).2).2,
         (CreateTask.resume 2 (CreateTask.resume 2 (CreateTask.resume 4
              (CreateTask.resume 4 db first).1 second).1
            (CreateTask.resume 4 db first).2).1
            (CreateTask.resume 4 (CreateTask.resume 4 db first).1 second).2).2⟩ := by
  have e : checksBeforeInserts = List.replicate 4 true ++ (List.replicate 4 false
      ++ (List.replicate 2 true ++ (List.replicate 2 false ++ []))) := rfl
  rw [e, run_first_turns, run_second_turns, run_first_turns, run_second_turns]
  rfl

/-! ## Claims on concurrent bookings and the day-level override -/

/-- C15, as stated, fails: two requests for barber-1 on 2026-12-01 at 10:00, resumed so
that both pass their checks before either inserts, are both created, and the table then
holds two reservations for the slot. -/
theorem concurrent_requests_both_created :
    (Race.run ⟨sampleDatabase, sampleTask "user-8", sampleTask "user-9"⟩
        checksBeforeInserts).first.succeeded = true
      ∧ (Race.run ⟨sampleDatabase, sampleTask "user-8", sampleTask "user-9"⟩
        checksBeforeInserts).second.succeeded = true
      ∧ (Race.run ⟨sampleDatabase, sampleTask "user-8", sampleTask "user-9"⟩
        checksBeforeInserts).db.reservations
        = [{ id := "uuid-1", clientId := "user-8", barberId := "barber-1",
             date := "2026-12-01", time := "10:00" },
           { id := "uuid-2", clientId := "user-9", barberId := "barber-1",
             date := "2026-12-01", time := "10:00" }]
      ∧ ¬ BarberSlotUnique (Race.run ⟨sampleDatabase, sampleTask "user-8", sampleTask "user-9"⟩
        checksBeforeInserts).db.reservations := by
  refine ⟨by decide, by decide, by decide, ?_⟩
  unfold BarberSlotUnique
  decide

/-- C15, amended: two booking requests for the same `(barberId, date, time)` served one
after another are never both created: when the first is created the second is not, no
second row is added, and the second gets the double-booking conflict (409) when it
passes the checks that come first. The checks and the insert are separate awaited
queries and the table has no uniqueness constraint: when both requests pass every check
on the tables as they are and are resumed so that both finish their checks before either
inserts, both are created and the table gets two rows for the slot. -/
theorem booking_race (db : Database) (first second : CreateTask)
    (h1 : first.stage = .received) (h2 : second.stage = .received)
    (hsame : first.body.barberId = second.body.barberId ∧ first.body.date = second.body.date
      ∧ first.body.time = second.body.time) :
    ((Race.run ⟨db, first, second⟩ oneAfterAnother).first.succeeded = true →
        (Race.run ⟨db, first, second⟩ oneAfterAnother).second.succeeded = false
          ∧ (Race.run ⟨db, first, second⟩ oneAfterAnother).db.reservations
              = db.reservations ++ [first.row db.nextId]
          ∧ (∀ barber, reachesStoreChecks db.barbers second.clock second.body barber →
              (Race.run ⟨db, first, second⟩ oneAfterAnother).second.stage
                = .responded (.failure 409 "This time slot is already booked")))
      ∧ (∀ barberA barberB,
          reachesStoreChecks db.barbers first.clock first.body barberA →
          reachesStoreChecks db.barbers second.clock second.body barberB →
          (∀ r ∈ db.reservations, ¬ (r.barberId = first.body.barberId
            ∧ r.date = first.body.date ∧ r.time = first.body.time)) →
          (∀ r ∈ db.reservations, ¬ (r.clientId = first.clientId
            ∧ r.date = first.body.date ∧ r.time = first.body.time)) →
          (∀ r ∈ db.reservations, ¬ (r.clientId = second.clientId
            ∧ r.date = second.body.date ∧ r.time = second.body.time)) →
          (Race.run ⟨db, first, second⟩ checksBeforeInserts).first.succeeded = true
            ∧ (Race.run ⟨db, first, second⟩ checksBeforeInserts).second.succeeded = true
            ∧ (Race.run ⟨db, first, second⟩ checksBeforeInserts).db.reservations
                = db.reservations ++ [first.row db.nextId, second.row (db.nextId + 1)]) := by
  constructor
  · rw [run_oneAfterAnother]
    intro hfirst
    simp only at hfirst ⊢
    rcases resume_cases db first h1 with ⟨_, hfail⟩ | ⟨_, hdb, _⟩
    · rw [hfail] at hfirst
      exact absurd hfirst (by decide)
    · have htaken : ∃ r ∈ (CreateTask.resume 6 db first).1.reservations,
          r.barberId = second.body.barberId ∧ r.date = second.body.date
            ∧ r.time = second.body.time := by
        rw [hdb]
        exact ⟨first.row db.nextId, by simp, hsame.1, hsame.2.1, hsame.2.2⟩
      have hsecond : (CreateTask.resume 6 (CreateTask.resume 6 db first).1 second).1
            = (CreateTask.resume 6 db first).1
          ∧ (CreateTask.resume 6 (CreateTask.resume 6 db first).1 second).2.succeeded
            = false := by
        rcases resume_cases (CreateTask.resume 6 db first).1 second h2 with
          hs | ⟨hfree, _, _⟩
        · exact hs
        · obtain ⟨r, hr, hm⟩ := htaken
          exact absurd hm (hfree r hr)
      refine ⟨hsecond.2, ?_, ?_⟩
      · rw [hsecond.1, hdb]
      · intro barber hreach
        apply resume_slot_taken (CreateTask.resume 6 db first).1 second barber h2 _ htaken
        rw [hdb]
        exact hreach
  · intro barberA barberB hreachA hreachB hslot hclientA hclientB
    rw [run_checksBeforeInserts]
    have hslotB : ∀ r ∈ db.reservations, ¬ (r.barberId = second.body.barberId
        ∧ r.date = second.body.date ∧ r.time = second.body.time) := by
      rw [← hsame.1, ← hsame.2.1, ← hsame.2.2]
      exact hslot
    have eA := resume_checks db first barberA h1 hreachA hslot hclientA
    have eB := resume_checks db second barberB h2 hreachB hslotB hclientB
    simp only [eA, eB]
    have iA := resume_insert db { first with stage := .insertQuery barberA } barberA rfl
    have iB := resume_insert
      { db with reservations := db.reservations
          ++ [CreateTask.row { first with stage := .insertQuery barberA } db.nextId],
                nextId := db.nextId + 1 }
      { second with stage := .insertQuery barberB } barberB rfl
    rw [iA.1]
    refine ⟨iA.2, iB.2, ?_⟩
    rw [iB.1]
    simp [CreateTask.row]

/-- Witness of C15, amended: user-8 and user-9 ask for barber-1 on 2026-12-01 at 10:00 on
the sample database. -/
theorem booking_race_witness :
    (Race.run ⟨sampleDatabase, sampleTask "user-8", sampleTask "user-9"⟩
        oneAfterAnother).first.succeeded = true
      ∧ (Race.run ⟨sampleDatabase, sampleTask "user-8", sampleTask "user-9"⟩
        oneAfterAnother).second.succeeded = false
      ∧ (Race.run ⟨sampleDatabase, sampleTask "user-8", sampleTask "user-9"⟩
        oneAfterAnother).db.reservations
          = sampleDatabase.reservations ++ [(sampleTask "user-8").row sampleDatabase.nextId]
      ∧ (Race.run ⟨sampleDatabase, sampleTask "user-8", sampleTask "user-9"⟩
        oneAfterAnother).second.stage
          = .responded (.failure 409 "This time slot is already booked")
      ∧ (Race.run ⟨sampleDatabase, sampleTask "user-8", sampleTask "user-9"⟩
        checksBeforeInserts).first.succeeded = true
      ∧ (Race.run ⟨sampleDatabase, sampleTask "user-8", sampleTask "user-9"⟩
        checksBeforeInserts).second.succeeded = true
      ∧ (Race.run ⟨sampleDatabase, sampleTask "user-8", sampleTask "user-9"⟩
        checksBeforeInserts).db.reservations
          = sampleDatabase.reservations ++ [(sampleTask "user-8").row sampleDatabase.nextId,
              (sampleTask "user-9").row (sampleDatabase.nextId + 1)] :=
  have hthm := booking_race sampleDatabase (sampleTask "user-8") (sampleTask "user-9") rfl rfl
    ⟨rfl, rfl, rfl⟩
  have hfirst : (Race.run ⟨sampleDatabase, sampleTask "user-8", sampleTask "user-9"⟩
      oneAfterAnother).first.succeeded = true := by decide
  have hseq := hthm.1 hfirst
  have hreachA : reachesStoreChecks sampleDatabase.barbers (sampleTask "user-8").clock
      (sampleTask "user-8").body (demoBarbers.get ⟨0, by decide⟩) := by
    unfold reachesStoreChecks
    decide
  have hreachB : reachesStoreChecks sampleDatabase.barbers (sampleTask "user-9").clock
      (sampleTask "user-9").body (demoBarbers.get ⟨0, by decide⟩) := by
    unfold reachesStoreChecks
    decide
  have hrace := hthm.2 _ _ hreachA hreachB (by decide) (by decide) (by decide)
  ⟨hfirst, hseq.1, hseq.2.1, hseq.2.2 _ hreachB, hrace.1, hrace.2.1, hrace.2.2⟩

/-- C16: in the schedule query, for a barber with a positive `haircutDuration` and every
list of day-availability rows fetched, `isAvailable` is true when the list is empty and
the stored flag of the first row otherwise; when it is false every slot returned has
`unavailable = true` and `reserved = false`, whatever the reservations and blackouts;
when it is true the slots are those of `generateAllTimeSlots`. The flag and the slots
that `getSchedule` sends are these, computed from the rows of the barber and date. -/
theorem scheduleTimeSlots_day_override (barber : Barber) (rs : List Reservation)
    (us : List UnavailableSlot) (availability : List BarberAvailability)
    (hd : 0 < barber.haircutDuration) :
    resolveIsAvailable [] = true
      ∧ (∀ first rest, resolveIsAvailable (first :: rest) = first.isAvailable)
      ∧ ∃ timeSlots, scheduleTimeSlots barber rs us availability = some timeSlots
          ∧ (resolveIsAvailable availability = false →
              ∀ slot ∈ timeSlots, slot.unavailable = true ∧ slot.reserved = false)
          ∧ (resolveIsAvailable availability = true →
              generateAllTimeSlots barber.openTime barber.closeTime barber.haircutDuration
                rs us = some timeSlots)
          ∧ (∀ (db : Database) (clock : Clock) (id date : String) (found : Barber)
              (sent : String) (flag : Option Bool) (slots : List StatusSlot),
              getSchedule db clock id date = some (.schedule found sent flag slots) →
              flag = some (resolveIsAvailable
                  (db.barberAvailability.filter (fun a => a.barberId == id && a.date == date)))
                ∧ scheduleTimeSlots found
                    (db.reservations.filter (fun r => r.barberId == id && r.date == date))
                    (db.unavailableTimeSlots.filter
                      (fun s => s.barberId == id && s.date == date))
                    (db.barberAvailability.filter
                      (fun a => a.barberId == id && a.date == date)) = some slots) := by
  have hroute : ∀ (db : Database) (clock : Clock) (id date : String) (found : Barber)
      (sent : String) (flag : Option Bool) (slots : List StatusSlot),
      getSchedule db clock id date = some (.schedule found sent flag slots) →
      flag = some (resolveIsAvailable
          (db.barberAvailability.filter (fun a => a.barberId == id && a.date == date)))
        ∧ scheduleTimeSlots found
            (db.reservations.filter (fun r => r.barberId == id && r.date == date))
            (db.unavailableTimeSlots.filter (fun s => s.barberId == id && s.date == date))
            (db.barberAvailability.filter (fun a => a.barberId == id && a.date == date))
          = some slots := by
    intro db clock id date found sent flag slots h
    unfold getSchedule at h
    by_cases c1 : date = ""
    · rw [if_pos c1] at h
      cases h
    by_cases c2 : (!matchesDatePattern date) = true
    · rw [if_neg c1, if_pos c2] at h
      cases h
    by_cases c3 : isDateInPast clock date = true
    · rw [if_neg c1, if_neg c2, if_pos c3] at h
      cases h
    rw [if_neg c1, if_neg c2, if_neg c3] at h
    cases hb : db.barbers.find? (fun b => b.id == id) with
    | none =>
      rw [hb] at h
      cases h
    | some barber =>
      simp only [hb] at h
      cases hs : scheduleTimeSlots barber
          (db.reservations.filter (fun r => r.barberId == id && r.date == date))
          (db.unavailableTimeSlots.filter (fun s => s.barberId == id && s.date == date))
          (db.barberAvailability.filter (fun a => a.barberId == id && a.date == date)) with
      | none => simp [hs] at h
      | some timeSlots =>
        simp only [hs, Option.some.injEq, ScheduleResponse.schedule.injEq] at h
        obtain ⟨rfl, _, rfl, rfl⟩ := h
        exact ⟨rfl, hs⟩
  refine ⟨rfl, fun _ _ => rfl, ?_⟩
  obtain ⟨all, hall, _⟩ := generateAllTimeSlots_total barber.openTime barber.closeTime
    barber.haircutDuration rs us hd
  cases hav : resolveIsAvailable availability with
  | true =>
    refine ⟨all, by simp [scheduleTimeSlots, hall, hav], fun h => absurd h (by decide),
      fun _ => hall, hroute⟩
  | false =>
    refine ⟨all.map (fun slot => { slot with unavailable := true, reserved := false }),
      by simp [scheduleTimeSlots, hall, hav], ?_, fun h => absurd h (by decide), hroute⟩
    intro _ slot hslot
    obtain ⟨s, _, rfl⟩ := List.mem_map.1 hslot
    exact ⟨rfl, rfl⟩

/-- Witness of C16: barber-1 with a reservation at 10:00, a blackout at 10:30 and the day
marked not available. -/
theorem scheduleTimeSlots_day_override_witness :
    ∃ timeSlots,
      scheduleTimeSlots (demoBarbers.get ⟨0, by decide⟩)
          [{ id := "res-1", clientId := "user-1", barberId := "barber-1",
             date := "2026-12-01", time := "10:00" }]
          [{ id := "unavail-2", barberId := "barber-1", date := "2026-12-01",
             time := "10:30", isUnavailable := true }]
          [{ id := "avail-1", barberId := "barber-1", date := "2026-12-01",
             isAvailable := false }] = some timeSlots
      ∧ timeSlots.length = 18
      ∧ ∀ slot ∈ timeSlots, slot.unavailable = true ∧ slot.reserved = false :=
  have hthm := scheduleTimeSlots_day_override (demoBarbers.get ⟨0, by decide⟩)
    [{ id := "res-1", clientId := "user-1", barberId := "barber-1",
       date := "2026-12-01", time := "10:00" }]
    [{ id := "unavail-2", barberId := "barber-1", date := "2026-12-01",
       time := "10:30", isUnavailable := true }]
    [{ id := "avail-1", barberId := "barber-1", date := "2026-12-01",
       isAvailable := false }] (by decide)
  match hthm.2.2 with
  | ⟨timeSlots, hsome, hfalse, _, _⟩ =>
    ⟨timeSlots, hsome, by
      have e : scheduleTimeSlots (demoBarbers.get ⟨0, by decide⟩)
          [{ id := "res-1", clientId := "user-1", barberId := "barber-1",
             date := "2026-12-01", time := "10:00" }]
          [{ id := "unavail-2", barberId := "barber-1", date := "2026-12-01",
             time := "10:30", isUnavailable := true }]
          [{ id := "avail-1", barberId := "barber-1", date := "2026-12-01",
             isAvailable := false }]
          = some ((List.range 18).map (fun k =>
              { statusSlotAt [] [] (540 + k * 30) with unavailable := true })) := by
        decide
      rw [e] at hsome
      rw [← Option.some.inj hsome]
      rfl, hfalse rfl⟩

/-- C17 fails on the dashboard query: with the day 2026-12-01 of barber-1 marked not
available, `getDashboardSchedule` returns the 18 slots with `unavailable = false`,
while `getSchedule` on the same tables returns them with `unavailable = true` and
`reserved = false`. -/
theorem dashboard_ignores_day_availability :
    (∃ a ∈ sampleDatabase.barberAvailability,
        a.barberId = "barber-1" ∧ a.date = "2026-12-01" ∧ a.isAvailable = false)
      ∧ getDashboardSchedule sampleDatabase "barber-1" "2026-12-01"
          = some (.schedule (demoBarbers.get ⟨0, by decide⟩) "2026-12-01" none
              ((List.range 18).map (fun k => statusSlotAt [] [] (540 + k * 30))))
      ∧ (∀ slot ∈ (List.range 18).map (fun k => statusSlotAt [] [] (540 + k * 30)),
          slot.unavailable = false)
      ∧ getSchedule sampleDatabase noonClock "barber-1" "2026-12-01"
          = some (.schedule (demoBarbers.get ⟨0, by decide⟩) "2026-12-01" (some false)
              ((List.range 18).map (fun k =>
                { statusSlotAt [] [] (540 + k * 30) with unavailable := true }))) := by
  refine ⟨by decide, by decide, by decide, by decide⟩

/-! ## Lemmas: cancellation -/

theorem enumFrom_find?_none (p : Reservation → Bool) :
    ∀ (l : List Reservation) (n : Nat),
      (List.enumFrom n l).find? (fun ir => p ir.2) = none ↔ ∀ r ∈ l, p r = false := by
  intro l
  induction l with
  | nil => intro n; simp
  | cons a rest ih =>
    intro n
    by_cases h : p a = true
    · simp [List.enumFrom, List.find?, h]
    · have hf : p a = false := by simpa using h
      simp [List.enumFrom, List.find?, hf, ih (n + 1)]

/-- The index and record that `findIndex` comes to: the first record that passes the
test; erasing at the index erases that record. -/
theorem enumFrom_find?_some (p : Reservation → Bool) :
    ∀ (l : List Reservation) (n i : Nat) (r : Reservation),
      (List.enumFrom n l).find? (fun ir => p ir.2) = some (i, r) →
        n ≤ i ∧ l.find? p = some r ∧ l.eraseIdx (i - n) = l.eraseP p := by
  intro l
  induction l with
  | nil => intro n i r h; simp at h
  | cons a rest ih =>
    intro n i r h
    by_cases hp : p a = true
    · simp only [List.enumFrom, List.find?, hp, Option.some.injEq, Prod.mk.injEq] at h
      obtain ⟨rfl, rfl⟩ := h
      simp [List.find?, hp, List.eraseP_cons]
    · have hf : p a = false := by simpa using hp
      simp only [List.enumFrom, List.find?, hf] at h
      obtain ⟨h1, h2, h3⟩ := ih (n + 1) i r h
      have e : i - n = (i - (n + 1)) + 1 := by omega
      refine ⟨by omega, by simp [List.find?, hf, h2], ?_⟩
      rw [e, List.eraseIdx_cons_succ, h3]
      simp [List.eraseP_cons, hf]

/-- The cancellation handler in terms of the first record that passes its test. -/
theorem cancelReservation_eq (clock : Clock) (store : List Reservation) (userId id : String) :
    cancelReservation clock store userId id
      = match store.find? (fun res => res.id == id && res.clientId == userId) with
        | none => (.failure 404 "Reservation not found", store)
        | some reservation =>
          if isDateInPast clock reservation.date then
            (.failure 400 "Cannot cancel past reservations", store)
          else
            (.cancelled, store.eraseP (fun res => res.id == id && res.clientId == userId)) := by
  unfold cancelReservation
  cases h : store.enum.find? (fun ir => ir.2.id == id && ir.2.clientId == userId) with
  | none =>
    have hn := (enumFrom_find?_none (fun res => res.id == id && res.clientId == userId)
      store 0).1 h
    have : store.find? (fun res => res.id == id && res.clientId == userId) = none := by
      rw [List.find?_eq_none]
      intro r hr
      simp [hn r hr]
    rw [this]
  | some found =>
    obtain ⟨i, r⟩ := found
    obtain ⟨_, h2, h3⟩ := enumFrom_find?_some
      (fun res => res.id == id && res.clientId == userId) store 0 i r h
    rw [h2]
    simp only [Nat.sub_zero] at h3
    simp only [h3]

/-- Cancelling a reservation of a store with distinct ids whose date the handler does not
find in the past takes exactly that record out and hides it from the client's listing. -/
theorem cancelReservation_removes (barbers : List Barber) (clock : Clock)
    (store : List Reservation) (r : Reservation) (date : Option String)
    (hids : (store.map (fun res => res.id)).Nodup) (hr : r ∈ store)
    (hdate : isDateInPast clock r.date = false) :
    ∃ before after, store = before ++ r :: after
      ∧ cancelReservation clock store r.clientId r.id = (.cancelled, before ++ after)
      ∧ (listReservations barbers (before ++ after) r.clientId date).shows r.id = false := by
  have hinj : ∀ a ∈ store, a.id = r.id → a = r := fun a ha he =>
    List.inj_on_of_nodup_map hids ha hr he
  have hp : (fun res : Reservation => res.id == r.id && res.clientId == r.clientId) r
      = true := by simp
  have key : ∀ p : Reservation → Bool, p r = true →
      ∃ a l₁ l₂, (∀ b ∈ l₁, ¬ p b = true) ∧ p a = true ∧ store = l₁ ++ a :: l₂
        ∧ store.eraseP p = l₁ ++ l₂ := fun p h => List.exists_of_eraseP hr h
  obtain ⟨a, before, after, _, hpa, hsplit, herase⟩ :=
    key (fun res => res.id == r.id && res.clientId == r.clientId) hp
  have ha : a = r := by
    apply hinj a (by rw [hsplit]; simp)
    simp only [Bool.and_eq_true, beq_iff_eq] at hpa
    exact hpa.1
  subst ha
  have hfind : store.find? (fun res => res.id == a.id && res.clientId == a.clientId)
      = some a := by
    cases hf : store.find? (fun res => res.id == a.id && res.clientId == a.clientId) with
    | none =>
      have := List.find?_eq_none.1 hf a hr
      simp at this
    | some b =>
      have hb := List.find?_some hf
      simp only [Bool.and_eq_true, beq_iff_eq] at hb
      rw [hinj b (List.mem_of_find?_eq_some hf) hb.1]
  refine ⟨before, after, hsplit, ?_, ?_⟩
  · rw [cancelReservation_eq, hfind]
    simp only [hdate, herase]
    rfl
  · have hnot : ∀ x ∈ before ++ after, x.id ≠ a.id := by
      intro x hx he
      rw [hsplit, List.map_append, List.map_cons] at hids
      have hx' : x ∈ store := by
        rw [hsplit]
        rcases List.mem_append.1 hx with h | h
        · exact List.mem_append_left _ h
        · exact List.mem_append_right _ (List.mem_cons_of_mem _ h)
      have hxa := hinj x hx' he
      subst hxa
      rcases List.mem_append.1 hx with h | h
      · have h1 : x.id ∈ before.map (fun res => res.id) := List.mem_map_of_mem _ h
        have h2 : x.id ∈ x.id :: after.map (fun res => res.id) := List.mem_cons_self _ _
        exact (List.nodup_append.1 hids).2.2 h1 h2 
      · have h1 : x.id ∈ after.map (fun res => res.id) := List.mem_map_of_mem _ h
        have hnd := (List.nodup_append.1 hids).2.1
        exact (List.nodup_cons.1 hnd).1 h1
    have hall : ∀ l : List Reservation, (∀ x ∈ l, x.id ≠ a.id) →
        ∀ f : Reservation → ListedReservation, (∀ x, (f x).id = x.id) →
          (l.map f).any (fun listed => listed.id == a.id) = false := by
      intro l hl f hf
      rw [Bool.eq_false_iff]
      intro hany
      obtain ⟨y, hy, hya⟩ := List.any_eq_true.1 hany
      obtain ⟨x, hx, rfl⟩ := List.mem_map.1 hy
      rw [hf x] at hya
      exact hl x hx (by simpa using hya)
    unfold listReservations ListingResponse.shows
    cases date with
    | none =>
      simp only []
      exact hall _ (fun x hx => hnot x (List.mem_filter.1 hx).1) _ (fun _ => rfl)
    | some d =>
      simp only []
      by_cases h1 : d = ""
      · rw [if_pos h1]
        exact hall _ (fun x hx => hnot x (List.mem_filter.1 hx).1) _ (fun _ => rfl)
      · rw [if_neg h1]
        by_cases h2 : (!matchesDatePattern d) = true
        · rw [if_pos h2]
        · rw [if_neg h2]
          exact hall _ (fun x hx => hnot x (List.mem_filter.1 (List.mem_filter.1 hx).1).1) _
            (fun _ => rfl)

/-! ## Claims on cancellation and on the effect of creation -/

/-- C21: cancellation fails and leaves the store as it was when its preconditions do not
hold: when no reservation with the id belongs to the requesting client the answer is 404
'Reservation not found'; when the reservation found has a date in the past the answer
is 400 'Cannot cancel past reservations'; and whenever the answer is not the success the
store is unchanged. -/
theorem cancelReservation_failures (clock : Clock) (store : List Reservation)
    (userId id : String) :
    ((∀ r ∈ store, ¬ (r.id = id ∧ r.clientId = userId)) →
        cancelReservation clock store userId id
          = (.failure 404 "Reservation not found", store))
      ∧ (∀ r, store.find? (fun res => res.id == id && res.clientId == userId) = some r →
          isDateInPast clock r.date = true →
          cancelReservation clock store userId id
            = (.failure 400 "Cannot cancel past reservations", store))
      ∧ ((cancelReservation clock store userId id).1 ≠ .cancelled →
          (cancelReservation clock store userId id).2 = store) := by
  rw [cancelReservation_eq]
  refine ⟨?_, ?_, ?_⟩
  · intro hnone
    have : store.find? (fun res => res.id == id && res.clientId == userId) = none := by
      rw [List.find?_eq_none]
      intro r hr hp
      simp only [Bool.and_eq_true, beq_iff_eq] at hp
      exact hnone r hr hp
    rw [this]
  · intro r hfind hpast
    rw [hfind]
    simp only [hpast, if_true]
  · intro hne
    cases hfind : store.find? (fun res => res.id == id && res.clientId == userId) with
    | none => rfl
    | some r =>
      rw [hfind] at hne
      by_cases hpast : isDateInPast clock r.date = true
      · simp only [hpast, if_true]
      · simp only [hpast] at hne
        exact absurd rfl hne

/-- Witness of C21 on the demo store at noon of 4 November 2026: an id that is not in the
store, an id of another client, and the reservation of 15 January 2024. -/
theorem cancelReservation_failures_witness :
    cancelReservation noonClock demoReservations "user-1752373590610" "res-9"
        = (.failure 404 "Reservation not found", demoReservations)
      ∧ cancelReservation noonClock demoReservations "user-2" "res-1"
        = (.failure 404 "Reservation not found", demoReservations)
      ∧ cancelReservation noonClock demoReservations "user-1752373590610" "res-1"
        = (.failure 400 "Cannot cancel past reservations", demoReservations) :=
  ⟨(cancelReservation_failures noonClock demoReservations "user-1752373590610" "res-9").1
      (by decide),
    (cancelReservation_failures noonClock demoReservations "user-2" "res-1").1 (by decide),
    (cancelReservation_failures noonClock demoReservations "user-1752373590610" "res-1").2.1
      (demoReservations.get ⟨0, by decide⟩) (by decide) (by decide)⟩

/-- C22 fails west of UTC: at noon of 4 November 2026 in a zone five hours behind UTC the
owner's cancellation of a reservation dated that day is answered 400 'Cannot cancel past
reservations' (in the zone at UTC it succeeds). Wherever the handler does not find the
date in the past the claim holds: in a store with distinct ids the cancellation succeeds,
takes out exactly that record, the others in place, and the record is gone from the
client's listing. -/
theorem cancel_today_rejected_west_of_utc :
    localDate 1793811600000 (-300) 0 = "2026-11-04"
      ∧ cancelReservation (clockAt 1793811600000 (-300))
          [{ id := "res-20", clientId := "user-1", barberId := "barber-1",
             date := "2026-11-04", time := "15:00" }] "user-1" "res-20"
        = (.failure 400 "Cannot cancel past reservations",
           [{ id := "res-20", clientId := "user-1", barberId := "barber-1",
              date := "2026-11-04", time := "15:00" }])
      ∧ cancelReservation (clockAt 1793811600000 0)
          [{ id := "res-20", clientId := "user-1", barberId := "barber-1",
             date := "2026-11-04", time := "15:00" }] "user-1" "res-20"
        = (.cancelled, [])
      ∧ (∀ (barbers : List Barber) (clock : Clock) (store : List Reservation)
          (r : Reservation) (date : Option String),
          (store.map (fun res => res.id)).Nodup → r ∈ store →
          isDateInPast clock r.date = false →
          ∃ before after, store = before ++ r :: after
            ∧ cancelReservation clock store r.clientId r.id = (.cancelled, before ++ after)
            ∧ (listReservations barbers (before ++ after) r.clientId date).shows r.id
                = false) := by
  refine ⟨by decide, by decide, by decide, ?_⟩
  intro barbers clock store r date hids hr hdate
  exact cancelReservation_removes barbers clock store r date hids hr hdate

/-- C24: a retried booking is rejected by the double-booking check: when reservation
creation succeeds, the identical request (same client, body and clock) served on the
resulting store gets 409 'This time slot is already booked' and the store stays as it
is, with no second reservation. -/
theorem retry_rejected (barbers : List Barber) (clock : Clock) (store : List Reservation)
    (clientId : String) (body : CreateBody) (id date time name phone : String)
    (h : (createReservation barbers clock store clientId body).1
      = .created id date time name phone) :
    createReservation barbers clock (createReservation barbers clock store clientId body).2
        clientId body
      = (.failure 409 "This time slot is already booked",
         (createReservation barbers clock store clientId body).2)
      ∧ (createReservation barbers clock store clientId body).2
        = store ++ [newReservation clock clientId body] := by
  rcases createReservation_cases barbers clock store clientId body with
    ⟨_, hno⟩ | ⟨barber, hreach, _, _, hres⟩
  · exact absurd h (hno id date time name phone)
  · rw [hres]
    refine ⟨?_, rfl⟩
    apply createReservation_double_booking barbers clock _ clientId body barber hreach
    exact ⟨newReservation clock clientId body, by simp, rfl, rfl, rfl⟩

/-- Witness of C24: user-3 books barber-1 on 2026-12-01 at 11:00 on the sample store and
asks again. -/
theorem retry_rejected_witness :
    (createReservation demoBarbers noonClock sampleStore "user-3"
        { barberId := "barber-1", date := "2026-12-01", time := "11:00" }).1
        = .created "res-1793793600000" "2026-12-01" "11:00" "John Smith" "555-0101"
      ∧ createReservation demoBarbers noonClock
          (createReservation demoBarbers noonClock sampleStore "user-3"
            { barberId := "barber-1", date := "2026-12-01", time := "11:00" }).2 "user-3"
          { barberId := "barber-1", date := "2026-12-01", time := "11:00" }
        = (.failure 409 "This time slot is already booked",
           (createReservation demoBarbers noonClock sampleStore "user-3"
            { barberId := "barber-1", date := "2026-12-01", time := "11:00" }).2)
      ∧ (createReservation demoBarbers noonClock sampleStore "user-3"
            { barberId := "barber-1", date := "2026-12-01", time := "11:00" }).2
        = sampleStore ++ [newReservation noonClock "user-3"
            { barberId := "barber-1", date := "2026-12-01", time := "11:00" }] :=
  have h : (createReservation demoBarbers noonClock sampleStore "user-3"
      { barberId := "barber-1", date := "2026-12-01", time := "11:00" }).1
      = .created "res-1793793600000" "2026-12-01" "11:00" "John Smith" "555-0101" := by
    decide
  ⟨h, retry_rejected demoBarbers noonClock sampleStore "user-3"
    { barberId := "barber-1", date := "2026-12-01", time := "11:00" } _ _ _ _ _ h⟩

/-- C26: reservation creation changes the store only on success: either the response is a
failure (a validation failure, or status 400, 404 or 409) and the store is as it was, or
the response is the created reservation and the new store is the old one with exactly
one reservation appended, whose clientId, barberId, date and time are those of the
request. -/
theorem createReservation_atomic (barbers : List Barber) (clock : Clock)
    (store : List Reservation) (clientId : String) (body : CreateBody) :
    (((∃ field, (createReservation barbers clock store clientId body).1 = .invalid field)
          ∨ (∃ status error,
              (createReservation barbers clock store clientId body).1
                = .failure status error
              ∧ (status = 400 ∨ status = 404 ∨ status = 409)))
        ∧ (createReservation barbers clock store clientId body).2 = store)
      ∨ ∃ added name phone,
          createReservation barbers clock store clientId body
            = (.created added.id body.date body.time name phone, store ++ [added])
          ∧ added.clientId = clientId ∧ added.barberId = body.barberId
          ∧ added.date = body.date ∧ added.time = body.time := by
  cases hv : validateCreate body
  case some field =>
    left
    simp [createReservation, *]
  cases h1 : isDateInPast clock body.date
  case true =>
    left
    simp [createReservation, *]
  cases h2 : (body.date == clock.isoDate && isTimeInPast clock body.time)
  case true =>
    left
    simp [createReservation, *]
  cases hb : barbers.find? (fun b => b.id == body.barberId)
  case none =>
    left
    simp [createReservation, *]
  rename_i barber
  cases h3 : outsideWorkingHours barber body.time
  case true =>
    left
    simp [createReservation, *]
  cases h4 : (store.find? (fun res => res.barberId == body.barberId
    && res.date == body.date && res.time == body.time)).isSome
  case true =>
    left
    simp [createReservation, *]
  cases h5 : (store.find? (fun res => res.clientId == clientId
    && res.date == body.date && res.time == body.time)).isSome
  case true =>
    left
    simp [createReservation, *]
  right
  refine ⟨newReservation clock clientId body, barber.fullName, barber.phone, ?_, rfl, rfl,
    rfl, rfl⟩
  simp [createReservation, newReservation, *]


/-! ## Claims on the blackout upsert -/

theorem upsert_enumFrom (clock : Clock) (slot : SlotUpdate) :
    ∀ (l : List UnavailableSlot) (n : Nat),
      (match (List.enumFrom n l).find? (fun is => slot.matches is.2) with
        | some (i, existing) => l.set (i - n) (slot.merge existing)
        | none => l ++ [slot.fresh clock])
        = upsertWalk clock slot l
      ∧ ∀ i existing, (List.enumFrom n l).find? (fun is => slot.matches is.2)
          = some (i, existing) → n ≤ i := by
  intro l
  induction l with
  | nil => intro n; simp [upsertWalk]
  | cons s rest ih =>
    intro n
    by_cases h : slot.matches s = true
    · simp [List.enumFrom, List.find?, h, upsertWalk]
    · have hf : slot.matches s = false := by simpa using h
      obtain ⟨ih1, ih2⟩ := ih (n + 1)
      simp only [List.enumFrom, List.find?, hf, upsertWalk]
      constructor
      · rw [← ih1]
        cases hfind : (List.enumFrom (n + 1) rest).find? (fun is => slot.matches is.2) with
        | none => simp
        | some found =>
          obtain ⟨i, existing⟩ := found
          have hle := ih2 i existing hfind
          have e : i - n = (i - (n + 1)) + 1 := by omega
          simp only [e, List.set_cons_succ]
          simp
      · intro i existing hfind
        have := ih2 i existing hfind
        omega

/-- The upsert is the walk. -/
theorem updateDemoUnavailableSlot_eq_walk (clock : Clock) (store : List UnavailableSlot)
    (slot : SlotUpdate) :
    updateDemoUnavailableSlot clock store slot = upsertWalk clock slot store := by
  have h := (upsert_enumFrom clock slot store 0).1
  unfold updateDemoUnavailableSlot
  rw [← h]
  simp only [List.enum, Nat.sub_zero]

theorem matches_merge (slot : SlotUpdate) (s : UnavailableSlot) :
    slot.matches (slot.merge s) = true := by
  simp [SlotUpdate.matches, SlotUpdate.merge]

theorem matches_fresh (slot : SlotUpdate) (clock : Clock) :
    slot.matches (slot.fresh clock) = true := by
  simp [SlotUpdate.matches, SlotUpdate.fresh]

theorem merge_of_matches_same (slot : SlotUpdate) (s : UnavailableSlot)
    (h : slot.matches s = true) (hu : s.isUnavailable = slot.isUnavailable) :
    slot.merge s = s := by
  simp only [SlotUpdate.matches, Bool.and_eq_true, beq_iff_eq] at h
  obtain ⟨⟨h1, h2⟩, h3⟩ := h
  cases s
  simp only [SlotUpdate.merge] at *
  simp [h1, h2, h3, hu]

/-- What the walk does to a store with at most one entry per key. -/
theorem upsertWalk_spec (clock : Clock) (slot : SlotUpdate) :
    ∀ store : List UnavailableSlot, BlackoutKeysUnique store →
      ((upsertWalk clock slot store).filter slot.matches).length = 1
        ∧ (∀ x ∈ upsertWalk clock slot store, slot.matches x = true →
            x.isUnavailable = slot.isUnavailable)
        ∧ (∀ e ∈ store, slot.matches e = true →
            (upsertWalk clock slot store).length = store.length
              ∧ ∃ x ∈ upsertWalk clock slot store, slot.matches x = true ∧ x.id = e.id)
        ∧ (upsertWalk clock slot store).filter (fun x => !slot.matches x)
            = store.filter (fun x => !slot.matches x) := by
  intro store
  induction store with
  | nil =>
    intro _
    refine ⟨?_, ?_, ?_, ?_⟩
    · simp [upsertWalk, List.filter_cons, matches_fresh]
    · intro x hx _
      simp only [upsertWalk, List.mem_singleton] at hx
      subst hx
      rfl
    · intro e he
      simp at he
    · simp [upsertWalk, List.filter_cons, matches_fresh]
  | cons s rest ih =>
    intro huniq
    have hrest : BlackoutKeysUnique rest := (List.pairwise_cons.1 huniq).2
    have hhead := (List.pairwise_cons.1 huniq).1
    by_cases h : slot.matches s = true
    · have hnone : ∀ x ∈ rest, slot.matches x = false := by
        intro x hx
        rw [Bool.eq_false_iff]
        intro hmx
        simp only [SlotUpdate.matches, Bool.and_eq_true, beq_iff_eq] at h hmx
        exact hhead x hx ⟨by rw [h.1.1, hmx.1.1], by rw [h.1.2, hmx.1.2], by rw [h.2, hmx.2]⟩
      have hfilter : rest.filter slot.matches = [] := by
        rw [List.filter_eq_nil_iff]
        intro x hx
        simp [hnone x hx]
      refine ⟨?_, ?_, ?_, ?_⟩
      · simp [upsertWalk, h, List.filter_cons, matches_merge, hfilter]
      · intro x hx hm
        simp only [upsertWalk, h, if_true, List.mem_cons] at hx
        rcases hx with rfl | hx
        · rfl
        · rw [hnone x hx] at hm
          exact absurd hm (by decide)
      · intro e he hm
        simp only [upsertWalk, h, if_true, List.length_cons, true_and]
        rcases List.mem_cons.1 he with rfl | he
        · exact ⟨slot.merge e, List.mem_cons_self _ _, matches_merge slot e, rfl⟩
        · rw [hnone e he] at hm
          exact absurd hm (by decide)
      · simp [upsertWalk, h, List.filter_cons, matches_merge]
    · have hf : slot.matches s = false := by simpa using h
      obtain ⟨i1, i2, i3, i4⟩ := ih hrest
      refine ⟨?_, ?_, ?_, ?_⟩
      · simp [upsertWalk, hf, List.filter_cons, i1]
      · intro x hx hm
        simp only [upsertWalk, hf, Bool.false_eq_true, if_false, List.mem_cons] at hx
        rcases hx with rfl | hx
        · rw [hf] at hm
          exact absurd hm (by decide)
        · exact i2 x hx hm
      · intro e he hm
        rcases List.mem_cons.1 he with rfl | he
        · rw [hf] at hm
          exact absurd hm (by decide)
        · obtain ⟨hl, x, hx, hmx, hid⟩ := i3 e he hm
          refine ⟨by simp [upsertWalk, hf, hl], x, ?_, hmx, hid⟩
          simp [upsertWalk, hf, hx]
      · simp [upsertWalk, hf, List.filter_cons, i4]

/-- Walking again with the same slot, at any later clock, changes nothing. -/
theorem upsertWalk_idempotent (first second : Clock) (slot : SlotUpdate) :
    ∀ store : List UnavailableSlot,
      upsertWalk second slot (upsertWalk first slot store) = upsertWalk first slot store := by
  intro store
  induction store with
  | nil =>
    simp only [upsertWalk, matches_fresh, if_true]
    rw [merge_of_matches_same slot _ (matches_fresh slot first) rfl]
  | cons s rest ih =>
    by_cases h : slot.matches s = true
    · simp only [upsertWalk, h, if_true, matches_merge]
      rw [merge_of_matches_same slot _ (matches_merge slot s) rfl]
    · have hf : slot.matches s = false := by simpa using h
      simp only [upsertWalk, hf, ih]
      simp

/-- C23: the blackout upsert keyed on `(barberId, date, time)`: on a store with at most
one entry per key, after `updateDemoUnavailableSlot` the store has exactly one entry
with the key of `slot`, its `isUnavailable` is that of `slot`, an entry that was there
keeps its id and no row is added, and the entries with another key are unchanged and in
place; applying the same upsert a second time changes nothing. -/
theorem updateDemoUnavailableSlot_upsert (clock later : Clock) (store : List UnavailableSlot)
    (slot : SlotUpdate) (h : BlackoutKeysUnique store) :
    ((updateDemoUnavailableSlot clock store slot).filter slot.matches).length = 1
      ∧ (∀ x ∈ updateDemoUnavailableSlot clock store slot, slot.matches x = true →
          x.isUnavailable = slot.isUnavailable)
      ∧ (∀ e ∈ store, slot.matches e = true →
          (updateDemoUnavailableSlot clock store slot).length = store.length
            ∧ ∃ x ∈ updateDemoUnavailableSlot clock store slot,
                slot.matches x = true ∧ x.id = e.id)
      ∧ (updateDemoUnavailableSlot clock store slot).filter (fun x => !slot.matches x)
          = store.filter (fun x => !slot.matches x)
      ∧ updateDemoUnavailableSlot later (updateDemoUnavailableSlot clock store slot) slot
          = updateDemoUnavailableSlot clock store slot := by
  simp only [updateDemoUnavailableSlot_eq_walk]
  obtain ⟨h1, h2, h3, h4⟩ := upsertWalk_spec clock slot store h
  exact ⟨h1, h2, h3, h4, upsertWalk_idempotent clock later slot store⟩


/-- Witness of C23: the blackout at 10:00 of the demo store is switched off. -/
theorem updateDemoUnavailableSlot_upsert_witness :
    BlackoutKeysUnique demoUnavailableSlots
      ∧ updateDemoUnavailableSlot noonClock demoUnavailableSlots reopenTen
        = [{ id := "unavail-1", barberId := "barber-1", date := "2025-07-20",
             time := "10:00", isUnavailable := false },
           { id := "unavail-2", barberId := "barber-1", date := "2025-07-20",
             time := "10:30", isUnavailable := true }]
      ∧ ((updateDemoUnavailableSlot noonClock demoUnavailableSlots reopenTen).filter
          reopenTen.matches).length = 1
      ∧ updateDemoUnavailableSlot (clockAt 1793811600000 0)
          (updateDemoUnavailableSlot noonClock demoUnavailableSlots reopenTen) reopenTen
        = updateDemoUnavailableSlot noonClock demoUnavailableSlots reopenTen :=
  have hu : BlackoutKeysUnique demoUnavailableSlots := by unfold BlackoutKeysUnique; decide
  have hthm := updateDemoUnavailableSlot_upsert noonClock (clockAt 1793811600000 0)
    demoUnavailableSlots reopenTen hu
  ⟨hu, by decide, hthm.1, hthm.2.2.2.2⟩

/-! ## Claims on signup validation -/

/-- An early return with an error is not the accepted value. -/
theorem ite_error_ok {α : Type} {c : Prop} [Decidable c] {e : String}
    {x : Except String α} {v : α}
    (h : (if c then Except.error e else x) = Except.ok v) : ¬ c ∧ x = Except.ok v := by
  by_cases hc : c
  · rw [if_pos hc] at h; cases h
  · rw [if_neg hc] at h; exact ⟨hc, h⟩

/-- C25, as stated, fails: the signup of a barber who opens at 18:00 and closes at 09:00
passes the schema, and the stored schedule has its opening time after its closing
time. -/
theorem signup_accepts_reversed_hours :
    validateSignup (fun email => email == "mike@barbershop.com") eveningBarberSignup
        = .ok (some { openTime := "18:00", closeTime := "09:00", haircutDuration := 45 })
      ∧ timeToMinutes "18:00" = some 1080 ∧ timeToMinutes "09:00" = some 540
      ∧ timeBefore "18:00" "09:00" = false := by
  refine ⟨rfl, by decide, by decide, by decide⟩

/-- C25, amended: every barber schedule that `signupSchema` accepts has an integer
`haircutDuration` between 15 and 120, 30 when the field is absent, hence positive, and an
`openTime` and a `closeTime` that match the time pattern and read as minutes below 1440;
the order of the two times is not checked. -/
theorem signup_schedule_bounds (isEmail : String → Bool) (body : SignupBody)
    (schedule : BarberSchedule)
    (h : validateSignup isEmail body = .ok (some schedule)) :
    15 ≤ schedule.haircutDuration ∧ schedule.haircutDuration ≤ 120
      ∧ 0 < schedule.haircutDuration
      ∧ schedule.haircutDuration = body.haircutDuration.getD 30
      ∧ matchesTimePattern schedule.openTime = true
      ∧ matchesTimePattern schedule.closeTime = true
      ∧ (∃ o c, timeToMinutes schedule.openTime = some o
          ∧ timeToMinutes schedule.closeTime = some c ∧ o < 1440 ∧ c < 1440) := by
  have key : 15 ≤ schedule.haircutDuration ∧ schedule.haircutDuration ≤ 120
      ∧ schedule.haircutDuration = body.haircutDuration.getD 30
      ∧ matchesTimePattern schedule.openTime = true
      ∧ matchesTimePattern schedule.closeTime = true := by
    unfold validateSignup at h
    obtain ⟨-, h⟩ := ite_error_ok h
    obtain ⟨-, h⟩ := ite_error_ok h
    obtain ⟨-, h⟩ := ite_error_ok h
    obtain ⟨-, h⟩ := ite_error_ok h
    obtain ⟨-, h⟩ := ite_error_ok h
    obtain ⟨-, h⟩ := ite_error_ok h
    by_cases hrole : (body.role == "barber") = true
    · rw [if_pos hrole] at h
      cases hm : body.manualLocation with
      | none => rw [hm] at h; cases h
      | some manualLocation =>
        rw [hm] at h
        replace h := (ite_error_ok h).2
        obtain ⟨g1, h⟩ := ite_error_ok h
        cases ho : body.openTime with
        | none => rw [ho] at h; cases h
        | some openTime =>
          rw [ho] at h
          obtain ⟨g3, h⟩ := ite_error_ok h
          cases hc : body.closeTime with
          | none => rw [hc] at h; cases h
          | some closeTime =>
            rw [hc] at h
            obtain ⟨g4, h⟩ := ite_error_ok h
            have h2 := Option.some.inj (Except.ok.inj h)
            subst h2
            simp only [Bool.not_eq_true, Bool.not_eq_true', Bool.not_eq_false] at g3 g4
            show 15 ≤ body.haircutDuration.getD 30 ∧ body.haircutDuration.getD 30 ≤ 120
              ∧ body.haircutDuration.getD 30 = body.haircutDuration.getD 30
              ∧ matchesTimePattern openTime = true ∧ matchesTimePattern closeTime = true
            refine ⟨by omega, by omega, rfl, g3, g4⟩
    · rw [if_neg hrole] at h
      obtain ⟨-, h⟩ := ite_error_ok h
      obtain ⟨-, h⟩ := ite_error_ok h
      obtain ⟨-, h⟩ := ite_error_ok h
      obtain ⟨-, h⟩ := ite_error_ok h
      cases Except.ok.inj h
  obtain ⟨k1, k2, k3, k4, k5⟩ := key
  obtain ⟨o, ho, hlo, _⟩ := minutesToTime_timeToMinutes schedule.openTime k4
  obtain ⟨c, hc, hlc, _⟩ := minutesToTime_timeToMinutes schedule.closeTime k5
  exact ⟨k1, k2, by omega, k3, k4, k5, o, c, ho, hc, hlo, hlc⟩

/-- Witness of C25, amended, on the signup of the barber who opens at 18:00. -/
theorem signup_schedule_bounds_witness :
    validateSignup (fun email => email == "mike@barbershop.com") eveningBarberSignup
        = .ok (some { openTime := "18:00", closeTime := "09:00", haircutDuration := 45 })
      ∧ (15 : Int) ≤ 45 ∧ (45 : Int) ≤ 120 ∧ (0 : Int) < 45
      ∧ (45 : Int) = eveningBarberSignup.haircutDuration.getD 30
      ∧ matchesTimePattern "18:00" = true ∧ matchesTimePattern "09:00" = true
      ∧ (∃ o c, timeToMinutes "18:00" = some o ∧ timeToMinutes "09:00" = some c
          ∧ o < 1440 ∧ c < 1440) :=
  have h : validateSignup (fun email => email == "mike@barbershop.com") eveningBarberSignup
      = .ok (some { openTime := "18:00", closeTime := "09:00", haircutDuration := 45 }) :=
    rfl
  ⟨h, signup_schedule_bounds _ eveningBarberSignup _ h⟩


/-! ## Claims on the availability overlay -/

/-- One resumption of a creation request reads and writes the barbers, users and
reservations only. -/
theorem step_sameBookings (db1 db2 : Database) (task : CreateTask)
    (h : db1.sameBookings db2) :
    (task.step db1).2 = (task.step db2).2
      ∧ (task.step db1).1.sameBookings (task.step db2).1
      ∧ (task.step db1).1.unavailableTimeSlots = db1.unavailableTimeSlots
      ∧ (task.step db1).1.barberAvailability = db1.barberAvailability := by
  obtain ⟨hb, hu, hr, hn⟩ := h
  obtain ⟨clock, clientId, body, stage⟩ := task
  cases stage <;>
    simp only [CreateTask.step, Database.sameBookings, hb, hu, hr, hn] <;>
    (repeat' split) <;> simp_all

/-- Any number of resumptions of a creation request reads and writes the barbers, users
and reservations only. -/
theorem resume_sameBookings (n : Nat) :
    ∀ (db1 db2 : Database) (task : CreateTask), db1.sameBookings db2 →
      (CreateTask.resume n db1 task).2 = (CreateTask.resume n db2 task).2
        ∧ (CreateTask.resume n db1 task).1.sameBookings (CreateTask.resume n db2 task).1
        ∧ (CreateTask.resume n db1 task).1.unavailableTimeSlots = db1.unavailableTimeSlots
        ∧ (CreateTask.resume n db1 task).1.barberAvailability = db1.barberAvailability := by
  induction n with
  | zero => intro db1 db2 task h; exact ⟨rfl, h, rfl, rfl⟩
  | succ n ih =>
    intro db1 db2 task h
    obtain ⟨s1, s2, s3, s4⟩ := step_sameBookings db1 db2 task h
    have hr1 : CreateTask.resume (n + 1) db1 task
        = CreateTask.resume n (task.step db1).1 (task.step db1).2 := rfl
    have hr2 : CreateTask.resume (n + 1) db2 task
        = CreateTask.resume n (task.step db2).1 (task.step db2).2 := rfl
    rw [hr1, hr2]
    obtain ⟨i1, i2, i3, i4⟩ := ih (task.step db1).1 (task.step db2).1 (task.step db1).2 s2
    refine ⟨?_, ?_, i3.trans s3, i4.trans s4⟩
    · rw [i1, s1]
    · rw [← s1]; exact i2

/-- C27: reservation creation does not read the availability overlay. Two demo states
with the same reservations give the same response and the same reservations, and the
blackout entries stay as they were; two databases with the same barbers, users,
reservations and generated ids give, after any number of resumptions of a creation
request, the same task and again the same bookings, and the overlay tables stay as they
were. In the demo state with a blackout of barber-1 at 10:00 on 1 December 2026 the
booking at that time is created, while `generateTimeSlots` for that blackout omits
10:00. -/
theorem createReservation_ignores_overlay (barbers : List Barber) (clock : Clock)
    (s1 s2 : DemoState) (clientId : String) (body : CreateBody)
    (n : Nat) (db1 db2 : Database) (task : CreateTask)
    (hdemo : s1.reservations = s2.reservations) (hdb : db1.sameBookings db2) :
    ((s1.create barbers clock clientId body).1 = (s2.create barbers clock clientId body).1
      ∧ (s1.create barbers clock clientId body).2.reservations
          = (s2.create barbers clock clientId body).2.reservations
      ∧ (s1.create barbers clock clientId body).2.unavailableSlots = s1.unavailableSlots)
    ∧ ((CreateTask.resume n db1 task).2 = (CreateTask.resume n db2 task).2
      ∧ (CreateTask.resume n db1 task).1.sameBookings (CreateTask.resume n db2 task).1
      ∧ (CreateTask.resume n db1 task).1.unavailableTimeSlots = db1.unavailableTimeSlots
      ∧ (CreateTask.resume n db1 task).1.barberAvailability = db1.barberAvailability)
    ∧ ((blackoutState.create demoBarbers noonClock "user-1" tenBody).1
          = .created "res-1793793600000" "2026-12-01" "10:00" "John Smith" "555-0101"
      ∧ (blackoutState.unavailableSlots.filter
            (fun slot => slot.barberId == "barber-1" && slot.date == "2026-12-01")).any
          (fun slot => slot.time == "10:00" && slot.isUnavailable) = true
      ∧ (generateTimeSlots "09:00" "18:00" 30 []
            (blackoutState.unavailableSlots.filter
              (fun slot => slot.barberId == "barber-1" && slot.date == "2026-12-01"))).map
          (fun slots => slots.map (fun slot => slot.time))
        = some ["09:00", "09:30", "10:30", "11:00", "11:30", "12:00", "12:30", "13:00",
                "13:30", "14:00", "14:30", "15:00", "15:30", "16:00", "16:30", "17:00",
                "17:30"]) := by
  refine ⟨⟨?_, ?_, rfl⟩, resume_sameBookings n db1 db2 task hdb, ?_, ?_, ?_⟩
  · simp only [DemoState.create, hdemo]
  · simp only [DemoState.create, hdemo]
  · decide
  · decide
  · decide

/-- Witness of C27: the demo states with and without the blackout at 10:00, and the
sample database with and without its record that closes 1 December 2026. -/
theorem createReservation_ignores_overlay_witness :
    blackoutState.reservations = openState.reservations
      ∧ sampleDatabase.sameBookings openDatabase
      ∧ blackoutState.unavailableSlots ≠ openState.unavailableSlots
      ∧ sampleDatabase.barberAvailability ≠ openDatabase.barberAvailability
      ∧ (blackoutState.create demoBarbers noonClock "user-1" tenBody).1
          = (openState.create demoBarbers noonClock "user-1" tenBody).1
      ∧ (CreateTask.resume 6 sampleDatabase (sampleTask "user-2")).2
          = (CreateTask.resume 6 openDatabase (sampleTask "user-2")).2
      ∧ (CreateTask.resume 6 sampleDatabase (sampleTask "user-2")).2.stage
          = .responded (.created "uuid-1" "2026-12-01" "10:00" "Unknown" "Unknown") :=
  have hdemo : blackoutState.reservations = openState.reservations := rfl
  have hdb : sampleDatabase.sameBookings openDatabase := ⟨rfl, rfl, rfl, rfl⟩
  have hthm := createReservation_ignores_overlay demoBarbers noonClock blackoutState
    openState "user-1" tenBody 6 sampleDatabase openDatabase (sampleTask "user-2") hdemo hdb
  ⟨hdemo, hdb, by decide, by decide, hthm.1.1, hthm.2.1.1, by decide⟩

/-- C28: reservation creation does not require the requested time to be a generated
slot. For barber-1, open 09:00 to 18:00 with a duration of 30, on an empty store and at
noon of 4 November 2026, the request for 1 December 2026 at 09:07 is created and stored,
and 09:07 is not the time of any slot of `generateAllTimeSlots` for that schedule. -/
theorem createReservation_accepts_off_grid_time :
    demoBarbers.find? (fun b => b.id == "barber-1")
        = some { id := "barber-1", userId := "user-1", fullName := "John Smith",
                 phone := "555-0101", manualLocation := "Downtown Barbershop",
                 openTime := "09:00", closeTime := "18:00", haircutDuration := 30 }
      ∧ createReservation demoBarbers noonClock [] "user-1" offGridBody
        = (.created "res-1793793600000" "2026-12-01" "09:07" "John Smith" "555-0101",
           [{ id := "res-1793793600000", clientId := "user-1", barberId := "barber-1",
              date := "2026-12-01", time := "09:07" }])
      ∧ (generateAllTimeSlots "09:00" "18:00" 30 [] []).map
          (fun slots => slots.map (fun slot => slot.time))
        = some ["09:00", "09:30", "10:00", "10:30", "11:00", "11:30", "12:00", "12:30",
                "13:00", "13:30", "14:00", "14:30", "15:00", "15:30", "16:00", "16:30",
                "17:00", "17:30"]
      ∧ (∀ slots, generateAllTimeSlots "09:00" "18:00" 30 [] [] = some slots →
          ∀ slot ∈ slots, slot.time ≠ "09:07") := by
  refine ⟨by decide, by decide, by decide, ?_⟩
  intro slots h slot hs
  have ht : (generateAllTimeSlots "09:00" "18:00" 30 [] []).map
      (fun slots => slots.map (fun slot => slot.time))
        = some ["09:00", "09:30", "10:00", "10:30", "11:00", "11:30", "12:00", "12:30",
                "13:00", "13:30", "14:00", "14:30", "15:00", "15:30", "16:00", "16:30",
                "17:00", "17:30"] := by decide
  rw [h] at ht
  have ht2 : slots.map (fun slot => slot.time)
      = ["09:00", "09:30", "10:00", "10:30", "11:00", "11:30", "12:00", "12:30",
         "13:00", "13:30", "14:00", "14:30", "15:00", "15:30", "16:00", "16:30",
         "17:00", "17:30"] := Option.some.inj ht
  have hm : slot.time ∈ slots.map (fun slot => slot.time) := List.mem_map_of_mem _ hs
  rw [ht2] at hm
  intro heq
  rw [heq] at hm
  revert hm
  decide


/-! ## Claims on termination and on the day-level override -/

/-- The ceiling of `x / d` is at most `x` when `d` is positive. -/
theorem ceilDiv_le_self (x d : Nat) (hd : 0 < d) : ceilDiv x d ≤ x := by
  by_contra hlt
  have h1 : x < ceilDiv x d := by omega
  have h2 := (ceilDiv_lt_iff x d x hd).1 h1
  have h3 : x * 1 ≤ x * d := Nat.mul_le_mul_left x hd
  omega

/-- With a step of zero the full-status walk never leaves a loop value below the closing
bound: no amount of fuel gives a result. -/
theorem generateAllTimeSlotsLoop_zero_step (close : Nat) (rs : List Reservation)
    (us : List UnavailableSlot) (time : Nat) (h : time < close) :
    ∀ fuel, generateAllTimeSlotsLoop close 0 rs us fuel time = none := by
  intro fuel
  induction fuel with
  | zero => unfold generateAllTimeSlotsLoop; simp [h]
  | succ fuel ih =>
    unfold generateAllTimeSlotsLoop
    simp only [h, if_true, Nat.add_zero, ih]
    cases formatTimeForDisplay (minutesToTime time) <;> rfl

/-- C29: the slot walk terminates for every schedule with a positive duration. For
every closing bound, every loop value `time`, every `haircutDuration` of at least 1 and
every fuel that reaches from `time` to the closing bound, both walks return, with at most
`closeMinutes - time` slots (zero when the closing bound is not above `time`); the k-th
slot of the full-status walk is the slot of the loop value `time + k * haircutDuration`;
both generators return on every pair of time strings, with at most `c - o` slots when the
strings read as `o` and `c` minutes. With a duration of 0 and a loop value below the
closing bound neither walk returns, whatever the fuel. -/
theorem slot_walk_terminates (closeMinutes haircutDuration : Nat)
    (rs : List Reservation) (us : List UnavailableSlot) (fuel time : Nat)
    (hd : 1 ≤ haircutDuration) (hfuel : closeMinutes ≤ time + fuel) :
    (∃ all bookable,
        generateAllTimeSlotsLoop closeMinutes haircutDuration rs us fuel time = some all
        ∧ generateTimeSlotsLoop closeMinutes haircutDuration rs us fuel time = some bookable
        ∧ all.length ≤ closeMinutes - time ∧ bookable.length ≤ closeMinutes - time
        ∧ all = (List.range all.length).map
            (fun k => statusSlotAt rs us (time + k * haircutDuration))
        ∧ ∀ k, k < all.length → time + k * haircutDuration < closeMinutes)
    ∧ (∀ openTime closeTime, ∃ all bookable,
        generateAllTimeSlots openTime closeTime haircutDuration rs us = some all
        ∧ generateTimeSlots openTime closeTime haircutDuration rs us = some bookable
        ∧ bookable.length ≤ all.length
        ∧ (∀ o c, timeToMinutes openTime = some o → timeToMinutes closeTime = some c →
            all.length ≤ c - o)
        ∧ ((timeToMinutes openTime = none ∨ timeToMinutes closeTime = none) → all = []))
    ∧ (∀ fuel0, time < closeMinutes →
        generateAllTimeSlotsLoop closeMinutes 0 rs us fuel0 time = none
        ∧ generateTimeSlotsLoop closeMinutes 0 rs us fuel0 time = none) := by
  have hpos : 0 < haircutDuration := hd
  refine ⟨?_, ?_, ?_⟩
  · have hall := generateAllTimeSlotsLoop_eq closeMinutes haircutDuration rs us hpos fuel time
      hfuel
    have hlen : ((List.range (ceilDiv (closeMinutes - time) haircutDuration)).map
        (fun k => statusSlotAt rs us (time + k * haircutDuration))).length
          = ceilDiv (closeMinutes - time) haircutDuration := by
      rw [List.length_map, List.length_range]
    have hle := ceilDiv_le_self (closeMinutes - time) haircutDuration hpos
    refine ⟨_, (((List.range (ceilDiv (closeMinutes - time) haircutDuration)).map
        (fun k => statusSlotAt rs us (time + k * haircutDuration))).filter
          StatusSlot.isBookable).map StatusSlot.toTimeSlot, hall, ?_, ?_, ?_, ?_, ?_⟩
    · rw [generateTimeSlotsLoop_eq, hall]; rfl
    · rw [hlen]; exact hle
    · rw [List.length_map]
      exact le_trans (List.length_filter_le _ _) (by rw [hlen]; exact hle)
    · rw [hlen]
    · intro k hk
      rw [hlen, ceilDiv_lt_iff _ _ _ hpos] at hk
      omega
  · intro openTime closeTime
    cases ho : timeToMinutes openTime with
    | none =>
      refine ⟨[], [], by simp [generateAllTimeSlots, ho], by simp [generateTimeSlots, ho],
        le_refl _, ?_, fun _ => rfl⟩
      intro o c h1; cases h1
    | some o =>
      cases hc : timeToMinutes closeTime with
      | none =>
        refine ⟨[], [], by simp [generateAllTimeSlots, ho, hc],
          by simp [generateTimeSlots, ho, hc], le_refl _, ?_, fun _ => rfl⟩
        intro o1 c1 _ h2; cases h2
      | some c =>
        have hall := generateAllTimeSlots_eq openTime closeTime haircutDuration rs us o c
          (by rw [ho]) (by rw [hc]) hpos
        refine ⟨_, (((List.range (ceilDiv (c - o) haircutDuration)).map
            (fun k => statusSlotAt rs us (o + k * haircutDuration))).filter
              StatusSlot.isBookable).map StatusSlot.toTimeSlot, hall, ?_, ?_, ?_, ?_⟩
        · rw [generateTimeSlots_eq_filter, hall]; rfl
        · rw [List.length_map]
          exact List.length_filter_le _ _
        · intro o1 c1 h1 h2
          cases h1; cases h2
          rw [List.length_map, List.length_range]
          exact ceilDiv_le_self (c - o) haircutDuration hpos
        · intro h
          rcases h with h | h <;> cases h
  · intro fuel0 hlt
    have hnone := generateAllTimeSlotsLoop_zero_step closeMinutes rs us time hlt fuel0
    refine ⟨hnone, ?_⟩
    rw [generateTimeSlotsLoop_eq, hnone]; rfl

/-- Witness of C29: the walk from 09:00 to 18:00 in steps of 30 minutes returns 18
slots with the fuel of the generator, and does not return in steps of 0. -/
theorem slot_walk_terminates_witness :
    (1 ≤ 30 ∧ 1080 ≤ 540 + 540)
      ∧ (generateAllTimeSlotsLoop 1080 30 [] [] 540 540).map List.length = some 18
      ∧ (∃ all bookable,
          generateAllTimeSlotsLoop 1080 30 [] [] 540 540 = some all
          ∧ generateTimeSlotsLoop 1080 30 [] [] 540 540 = some bookable
          ∧ all.length ≤ 1080 - 540 ∧ bookable.length ≤ 1080 - 540
          ∧ all = (List.range all.length).map (fun k => statusSlotAt [] [] (540 + k * 30))
          ∧ ∀ k, k < all.length → 540 + k * 30 < 1080)
      ∧ generateAllTimeSlotsLoop 1080 0 [] [] 540 540 = none :=
  have hthm := slot_walk_terminates 1080 30 [] [] 540 540 (by decide) (by decide)
  ⟨⟨by decide, by decide⟩, by decide, hthm.1, (hthm.2.2 540 (by decide)).1⟩

/-- C30: the day-level override changes status fields only. For every barber with a
positive duration, every list of reservations and of blackout entries, and every list of
day-availability records whose first record says not available, the raw walk returns and
the slots of the schedule query are the raw slots, in the same number and order, each
with its `time` and `formatted` kept, `formatted` being `formatTimeForDisplay` of `time`,
and with `unavailable` set and `reserved` cleared; the query leaves the tables as they
were. -/
theorem day_override_changes_status_only (barber : Barber) (rs : List Reservation)
    (us : List UnavailableSlot) (availability : List BarberAvailability)
    (db : Database) (clock : Clock) (id date : String)
    (hd : 0 < barber.haircutDuration) (hday : resolveIsAvailable availability = false) :
    (∃ raw slots,
        generateAllTimeSlots barber.openTime barber.closeTime barber.haircutDuration rs us
          = some raw
        ∧ scheduleTimeSlots barber rs us availability = some slots
        ∧ slots.length = raw.length
        ∧ slots.map (fun slot => slot.time) = raw.map (fun slot => slot.time)
        ∧ slots.map (fun slot => slot.formatted) = raw.map (fun slot => slot.formatted)
        ∧ slots = raw.map (fun slot => { slot with unavailable := true, reserved := false })
        ∧ (∀ slot ∈ slots, formatTimeForDisplay slot.time = some slot.formatted
            ∧ slot.unavailable = true ∧ slot.reserved = false)
        ∧ (∀ slot ∈ raw, formatTimeForDisplay slot.time = some slot.formatted))
    ∧ (scheduleQuery db clock id date).2 = db := by
  refine ⟨?_, rfl⟩
  obtain ⟨raw, hraw, hslots⟩ := generateAllTimeSlots_total barber.openTime barber.closeTime
    barber.haircutDuration rs us hd
  have hfmt : ∀ slot ∈ raw, formatTimeForDisplay slot.time = some slot.formatted := by
    intro slot hs
    obtain ⟨t, rfl⟩ := hslots slot hs
    exact formatTimeForDisplay_minutesToTime t
  refine ⟨raw, raw.map (fun slot => { slot with unavailable := true, reserved := false }),
    hraw, ?_, ?_, ?_, ?_, rfl, ?_, hfmt⟩
  · simp [scheduleTimeSlots, hraw, hday]
  · rw [List.length_map]
  · rw [List.map_map]; rfl
  · rw [List.map_map]; rfl
  · intro slot hs
    obtain ⟨r, hr, rfl⟩ := List.mem_map.1 hs
    exact ⟨hfmt r hr, rfl, rfl⟩

/-- Witness of C30: barber-1 of the demo data with a reservation at 10:00, blackouts at
10:00 and 10:30 and the record that closes the day; the third and fourth slots of the
raw walk are shown. -/
theorem day_override_changes_status_only_witness :
    (0 < 30 ∧ resolveIsAvailable sampleDatabase.barberAvailability = false)
      ∧ (generateAllTimeSlots "09:00" "18:00" 30 heldStore demoUnavailableSlots).map
          (fun slots => (slots.drop 2).take 2)
        = some [{ time := "10:00", reserved := true, unavailable := true,
                  formatted := "10:00 AM" },
                { time := "10:30", reserved := false, unavailable := true,
                  formatted := "10:30 AM" }]
      ∧ (∃ raw slots,
          generateAllTimeSlots "09:00" "18:00" 30 heldStore demoUnavailableSlots = some raw
          ∧ scheduleTimeSlots
              { id := "barber-1", userId := "user-1", fullName := "John Smith",
                phone := "555-0101", manualLocation := "Downtown Barbershop",
                openTime := "09:00", closeTime := "18:00", haircutDuration := 30 }
              heldStore demoUnavailableSlots sampleDatabase.barberAvailability = some slots
          ∧ slots.length = raw.length
          ∧ slots.map (fun slot => slot.time) = raw.map (fun slot => slot.time)
          ∧ slots.map (fun slot => slot.formatted) = raw.map (fun slot => slot.formatted)
          ∧ slots = raw.map
              (fun slot => { slot with unavailable := true, reserved := false })
          ∧ (∀ slot ∈ slots, formatTimeForDisplay slot.time = some slot.formatted
              ∧ slot.unavailable = true ∧ slot.reserved = false)
          ∧ (∀ slot ∈ raw, formatTimeForDisplay slot.time = some slot.formatted)) :=
  have hthm := day_override_changes_status_only
    { id := "barber-1", userId := "user-1", fullName := "John Smith",
      phone := "555-0101", manualLocation := "Downtown Barbershop",
      openTime := "09:00", closeTime := "18:00", haircutDuration := 30 }
    heldStore demoUnavailableSlots sampleDatabase.barberAvailability sampleDatabase noonClock
    "barber-1" "2026-12-01" (by decide) (by decide)
  ⟨⟨by decide, by decide⟩, by decide, hthm.1⟩

end CdBackend
